import Mathlib

/-!
# kmscon input subsystem: keymap engine and input manager

A shallow embedding of `src/uterm_input_dumb.c` (the "dumb" keymap / modifier
engine) and `src/input.c` (the input manager and its devices), followed by
theorems about them.

Conventions of the embedding.

* C unsigned integers are natural numbers; where a C operation can leave the
  32-bit range (`~mod`) it is reduced modulo `2 ^ 32` explicitly.
* A C array written with designated initialisers is the list produced by
  `C_array`; reading `tab[i]` is `tab.getD i d` with `d` the zero value.
* Pointers that the C code checks against `NULL` on entry (`kbd`, `device`,
  `input`, `out`) are valid objects in the embedding: the Lean types have no
  null value, so those guards are not represented.
* System calls and library calls whose outcome the program cannot predict take
  their outcome as an explicit argument, and every function that performs
  such calls returns the list of calls it made, in order.
-/

namespace Kmscon

/-! ## Constants of `linux/input.h` -/

def KEY_RESERVED : Nat := 0
def KEY_ESC : Nat := 1
def KEY_1 : Nat := 2
def KEY_2 : Nat := 3
def KEY_3 : Nat := 4
def KEY_4 : Nat := 5
def KEY_5 : Nat := 6
def KEY_6 : Nat := 7
def KEY_7 : Nat := 8
def KEY_8 : Nat := 9
def KEY_9 : Nat := 10
def KEY_0 : Nat := 11
def KEY_MINUS : Nat := 12
def KEY_EQUAL : Nat := 13
def KEY_BACKSPACE : Nat := 14
def KEY_TAB : Nat := 15
def KEY_Q : Nat := 16
def KEY_W : Nat := 17
def KEY_E : Nat := 18
def KEY_R : Nat := 19
def KEY_T : Nat := 20
def KEY_Y : Nat := 21
def KEY_U : Nat := 22
def KEY_I : Nat := 23
def KEY_O : Nat := 24
def KEY_P : Nat := 25
def KEY_LEFTBRACE : Nat := 26
def KEY_RIGHTBRACE : Nat := 27
def KEY_ENTER : Nat := 28
def KEY_LEFTCTRL : Nat := 29
def KEY_A : Nat := 30
def KEY_S : Nat := 31
def KEY_D : Nat := 32
def KEY_F : Nat := 33
def KEY_G : Nat := 34
def KEY_H : Nat := 35
def KEY_J : Nat := 36
def KEY_K : Nat := 37
def KEY_L : Nat := 38
def KEY_SEMICOLON : Nat := 39
def KEY_APOSTROPHE : Nat := 40
def KEY_GRAVE : Nat := 41
def KEY_LEFTSHIFT : Nat := 42
def KEY_BACKSLASH : Nat := 43
def KEY_Z : Nat := 44
def KEY_X : Nat := 45
def KEY_C : Nat := 46
def KEY_V : Nat := 47
def KEY_B : Nat := 48
def KEY_N : Nat := 49
def KEY_M : Nat := 50
def KEY_COMMA : Nat := 51
def KEY_DOT : Nat := 52
def KEY_SLASH : Nat := 53
def KEY_RIGHTSHIFT : Nat := 54
def KEY_KPASTERISK : Nat := 55
def KEY_LEFTALT : Nat := 56
def KEY_SPACE : Nat := 57
def KEY_CAPSLOCK : Nat := 58
def KEY_F1 : Nat := 59
def KEY_F2 : Nat := 60
def KEY_F3 : Nat := 61
def KEY_F4 : Nat := 62
def KEY_F5 : Nat := 63
def KEY_F6 : Nat := 64
def KEY_F7 : Nat := 65
def KEY_F8 : Nat := 66
def KEY_F9 : Nat := 67
def KEY_F10 : Nat := 68
def KEY_NUMLOCK : Nat := 69
def KEY_SCROLLLOCK : Nat := 70
def KEY_KP7 : Nat := 71
def KEY_KP8 : Nat := 72
def KEY_KP9 : Nat := 73
def KEY_KPMINUS : Nat := 74
def KEY_KP4 : Nat := 75
def KEY_KP5 : Nat := 76
def KEY_KP6 : Nat := 77
def KEY_KPPLUS : Nat := 78
def KEY_KP1 : Nat := 79
def KEY_KP2 : Nat := 80
def KEY_KP3 : Nat := 81
def KEY_KP0 : Nat := 82
def KEY_KPDOT : Nat := 83
def KEY_F11 : Nat := 87
def KEY_F12 : Nat := 88
def KEY_KPENTER : Nat := 96
def KEY_RIGHTCTRL : Nat := 97
def KEY_KPSLASH : Nat := 98
def KEY_RIGHTALT : Nat := 100
def KEY_LINEFEED : Nat := 101
def KEY_HOME : Nat := 102
def KEY_UP : Nat := 103
def KEY_PAGEUP : Nat := 104
def KEY_LEFT : Nat := 105
def KEY_RIGHT : Nat := 106
def KEY_END : Nat := 107
def KEY_DOWN : Nat := 108
def KEY_PAGEDOWN : Nat := 109
def KEY_INSERT : Nat := 110
def KEY_DELETE : Nat := 111
def KEY_MUTE : Nat := 113
def KEY_MIN_INTERESTING : Nat := KEY_MUTE
def KEY_KPEQUAL : Nat := 117
def KEY_LEFTMETA : Nat := 125
def KEY_RIGHTMETA : Nat := 126
def KEY_MAX : Nat := 0x2ff
def KEY_CNT : Nat := KEY_MAX + 1

def EV_KEY : Nat := 0x01
def EV_LED : Nat := 0x11
def EV_MAX : Nat := 0x1f
def EV_CNT : Nat := EV_MAX + 1

def LED_NUML : Nat := 0x00
def LED_CAPSL : Nat := 0x01
def LED_MAX : Nat := 0x0f
def LED_CNT : Nat := LED_MAX + 1

/-! ## Constants of `errno.h` -/

def ENOMEM : Int := 12
def EINVAL : Int := 22
def ENOTTY : Int := 25
def EALREADY : Int := 114
def ENOKEY : Int := 126

/-! ## Constants of `X11/keysymdef.h` -/

def XK_BackSpace : Nat := 0xff08
def XK_Tab : Nat := 0xff09
def XK_Linefeed : Nat := 0xff0a
def XK_Return : Nat := 0xff0d
def XK_Scroll_Lock : Nat := 0xff14
def XK_Escape : Nat := 0xff1b
def XK_Delete : Nat := 0xffff
def XK_Home : Nat := 0xff50
def XK_Left : Nat := 0xff51
def XK_Up : Nat := 0xff52
def XK_Right : Nat := 0xff53
def XK_Down : Nat := 0xff54
def XK_Page_Up : Nat := 0xff55
def XK_Page_Down : Nat := 0xff56
def XK_End : Nat := 0xff57
def XK_Insert : Nat := 0xff63
def XK_Num_Lock : Nat := 0xff7f
def XK_KP_Enter : Nat := 0xff8d
def XK_KP_Home : Nat := 0xff95
def XK_KP_Left : Nat := 0xff96
def XK_KP_Up : Nat := 0xff97
def XK_KP_Right : Nat := 0xff98
def XK_KP_Down : Nat := 0xff99
def XK_KP_Page_Up : Nat := 0xff9a
def XK_KP_Page_Down : Nat := 0xff9b
def XK_KP_End : Nat := 0xff9c
def XK_KP_Begin : Nat := 0xff9d
def XK_KP_Insert : Nat := 0xff9e
def XK_KP_Delete : Nat := 0xff9f
def XK_KP_Equal : Nat := 0xffbd
def XK_KP_Multiply : Nat := 0xffaa
def XK_KP_Add : Nat := 0xffab
def XK_KP_Subtract : Nat := 0xffad
def XK_KP_Divide : Nat := 0xffaf
def XK_KP_0 : Nat := 0xffb0
def XK_KP_1 : Nat := 0xffb1
def XK_KP_2 : Nat := 0xffb2
def XK_KP_3 : Nat := 0xffb3
def XK_KP_4 : Nat := 0xffb4
def XK_KP_5 : Nat := 0xffb5
def XK_KP_6 : Nat := 0xffb6
def XK_KP_7 : Nat := 0xffb7
def XK_KP_8 : Nat := 0xffb8
def XK_KP_9 : Nat := 0xffb9
def XK_F1 : Nat := 0xffbe
def XK_F2 : Nat := 0xffbf
def XK_F3 : Nat := 0xffc0
def XK_F4 : Nat := 0xffc1
def XK_F5 : Nat := 0xffc2
def XK_F6 : Nat := 0xffc3
def XK_F7 : Nat := 0xffc4
def XK_F8 : Nat := 0xffc5
def XK_F9 : Nat := 0xffc6
def XK_F10 : Nat := 0xffc7
def XK_F11 : Nat := 0xffc8
def XK_F12 : Nat := 0xffc9
def XK_Shift_L : Nat := 0xffe1
def XK_Shift_R : Nat := 0xffe2
def XK_Control_L : Nat := 0xffe3
def XK_Control_R : Nat := 0xffe4
def XK_Caps_Lock : Nat := 0xffe5
def XK_Meta_L : Nat := 0xffe7
def XK_Meta_R : Nat := 0xffe8
def XK_Alt_L : Nat := 0xffe9
def XK_Alt_R : Nat := 0xffea
def XK_space : Nat := 0x0020
def XK_exclam : Nat := 0x0021
def XK_quotedbl : Nat := 0x0022
def XK_numbersign : Nat := 0x0023
def XK_dollar : Nat := 0x0024
def XK_percent : Nat := 0x0025
def XK_ampersand : Nat := 0x0026
def XK_apostrophe : Nat := 0x0027
def XK_parenleft : Nat := 0x0028
def XK_parenright : Nat := 0x0029
def XK_asterisk : Nat := 0x002a
def XK_plus : Nat := 0x002b
def XK_comma : Nat := 0x002c
def XK_minus : Nat := 0x002d
def XK_period : Nat := 0x002e
def XK_slash : Nat := 0x002f
def XK_0 : Nat := 0x0030
def XK_1 : Nat := 0x0031
def XK_2 : Nat := 0x0032
def XK_3 : Nat := 0x0033
def XK_4 : Nat := 0x0034
def XK_5 : Nat := 0x0035
def XK_6 : Nat := 0x0036
def XK_7 : Nat := 0x0037
def XK_8 : Nat := 0x0038
def XK_9 : Nat := 0x0039
def XK_colon : Nat := 0x003a
def XK_semicolon : Nat := 0x003b
def XK_less : Nat := 0x003c
def XK_equal : Nat := 0x003d
def XK_greater : Nat := 0x003e
def XK_question : Nat := 0x003f
def XK_at : Nat := 0x0040
def XK_A : Nat := 0x0041
def XK_B : Nat := 0x0042
def XK_C : Nat := 0x0043
def XK_D : Nat := 0x0044
def XK_E : Nat := 0x0045
def XK_F : Nat := 0x0046
def XK_G : Nat := 0x0047
def XK_H : Nat := 0x0048
def XK_I : Nat := 0x0049
def XK_J : Nat := 0x004a
def XK_K : Nat := 0x004b
def XK_L : Nat := 0x004c
def XK_M : Nat := 0x004d
def XK_N : Nat := 0x004e
def XK_O : Nat := 0x004f
def XK_P : Nat := 0x0050
def XK_Q : Nat := 0x0051
def XK_R : Nat := 0x0052
def XK_S : Nat := 0x0053
def XK_T : Nat := 0x0054
def XK_U : Nat := 0x0055
def XK_V : Nat := 0x0056
def XK_W : Nat := 0x0057
def XK_X : Nat := 0x0058
def XK_Y : Nat := 0x0059
def XK_Z : Nat := 0x005a
def XK_bracketleft : Nat := 0x005b
def XK_backslash : Nat := 0x005c
def XK_bracketright : Nat := 0x005d
def XK_asciicircum : Nat := 0x005e
def XK_underscore : Nat := 0x005f
def XK_grave : Nat := 0x0060
def XK_a : Nat := 0x0061
def XK_b : Nat := 0x0062
def XK_c : Nat := 0x0063
def XK_d : Nat := 0x0064
def XK_e : Nat := 0x0065
def XK_f : Nat := 0x0066
def XK_g : Nat := 0x0067
def XK_h : Nat := 0x0068
def XK_i : Nat := 0x0069
def XK_j : Nat := 0x006a
def XK_k : Nat := 0x006b
def XK_l : Nat := 0x006c
def XK_m : Nat := 0x006d
def XK_n : Nat := 0x006e
def XK_o : Nat := 0x006f
def XK_p : Nat := 0x0070
def XK_q : Nat := 0x0071
def XK_r : Nat := 0x0072
def XK_s : Nat := 0x0073
def XK_t : Nat := 0x0074
def XK_u : Nat := 0x0075
def XK_v : Nat := 0x0076
def XK_w : Nat := 0x0077
def XK_x : Nat := 0x0078
def XK_y : Nat := 0x0079
def XK_z : Nat := 0x007a
def XK_braceleft : Nat := 0x007b
def XK_bar : Nat := 0x007c
def XK_braceright : Nat := 0x007d
def XK_asciitilde : Nat := 0x007e

/-! ## Declarations of `uterm.h` and `uterm_internal.h` -/

/-- Modelled from the spec: `uterm.h` (which declares `enum uterm_input_modifier`)
is not among the sources. The spec, section 3, names the modifier set as the
X-style masks `SHIFT`, `LOCK`, `CONTROL`, `MOD1`, `MOD2`, `MOD4` with the
remaining X-style masks as unused placeholders; the X modifier masks are the
bits 0 to 7 in the order Shift, Lock, Control, Mod1, ..., Mod5. -/
def UTERM_SHIFT_MASK : Nat := 1 <<< 0

/-- Modelled from the spec: X-style `LOCK` mask, see `UTERM_SHIFT_MASK`. -/
def UTERM_LOCK_MASK : Nat := 1 <<< 1

/-- Modelled from the spec: X-style `CONTROL` mask, see `UTERM_SHIFT_MASK`. -/
def UTERM_CONTROL_MASK : Nat := 1 <<< 2

/-- Modelled from the spec: X-style `MOD1` mask, see `UTERM_SHIFT_MASK`. -/
def UTERM_MOD1_MASK : Nat := 1 <<< 3

/-- Modelled from the spec: X-style `MOD2` mask, see `UTERM_SHIFT_MASK`. -/
def UTERM_MOD2_MASK : Nat := 1 <<< 4

/-- Modelled from the spec: X-style `MOD4` mask, see `UTERM_SHIFT_MASK`. -/
def UTERM_MOD4_MASK : Nat := 1 <<< 6

/-- Modelled from the spec: the sentinel `INVALID_UNICODE` of section 3, declared
in the absent `uterm.h`; a 32-bit value that is no code point. -/
def UTERM_INPUT_INVALID : Nat := 0xffffffff

/-- Number of bits of an `unsigned long` (`limits.h`, LP64). -/
def LONG_BIT : Nat := 64

/-- Modelled from the spec: `input_bit_is_set` of the absent `uterm_internal.h`
(`kmscon_evdev_bit_is_set` in `input.c`). Section 4.A: given a kernel-supplied
bit array (an array of machine words) and a bit index, return whether that bit
is set. A word outside the array reads as zero. -/
def input_bit_is_set (array : List Nat) (bit : Nat) : Bool :=
  (array.getD (bit / LONG_BIT) 0).testBit (bit % LONG_BIT)

/-- The output record `struct uterm_input_event` as far as
`kbd_dev_process_key` fills it. -/
structure uterm_input_event where
  keycode : Nat
  keysym : Nat
  unicode : Nat
  mods : Nat
deriving DecidableEq, Repr

/-! ## `uterm_input_dumb.c` -/

/-- The record `struct kbd_dev`. -/
structure kbd_dev where
  ref : Nat
  mods : Nat
deriving DecidableEq, Repr

/-- The value of element `i` of a C array with designated initialisers
`inits`: the initialiser that designates `i`, the zero value `d` when there is
none. -/
def C_designated {α : Type} (d : α) (inits : List (Nat × α)) (i : Nat) : α :=
  match inits.find? (fun p => p.1 == i) with
  | some p => p.2
  | none => d

/-- A C array of `size` elements written with designated initialisers. -/
def C_array {α : Type} (d : α) (size : Nat) (inits : List (Nat × α)) : List α :=
  (List.range size).map (C_designated d inits)

/-- The initialiser list of `keytab_normal`. -/
def keytab_normal_init : List (Nat × Nat) :=
  [ (KEY_ESC, XK_Escape),
    (KEY_1, XK_1),
    (KEY_2, XK_2),
    (KEY_3, XK_3),
    (KEY_4, XK_4),
    (KEY_5, XK_5),
    (KEY_6, XK_6),
    (KEY_7, XK_7),
    (KEY_8, XK_8),
    (KEY_9, XK_9),
    (KEY_0, XK_0),
    (KEY_MINUS, XK_minus),
    (KEY_EQUAL, XK_equal),
    (KEY_BACKSPACE, XK_BackSpace),
    (KEY_TAB, XK_Tab),
    (KEY_Q, XK_q),
    (KEY_W, XK_w),
    (KEY_E, XK_e),
    (KEY_R, XK_r),
    (KEY_T, XK_t),
    (KEY_Y, XK_y),
    (KEY_U, XK_u),
    (KEY_I, XK_i),
    (KEY_O, XK_o),
    (KEY_P, XK_p),
    (KEY_LEFTBRACE, XK_bracketleft),
    (KEY_RIGHTBRACE, XK_bracketright),
    (KEY_ENTER, XK_Return),
    (KEY_LEFTCTRL, XK_Control_L),
    (KEY_A, XK_a),
    (KEY_S, XK_s),
    (KEY_D, XK_d),
    (KEY_F, XK_f),
    (KEY_G, XK_g),
    (KEY_H, XK_h),
    (KEY_J, XK_j),
    (KEY_K, XK_k),
    (KEY_L, XK_l),
    (KEY_SEMICOLON, XK_semicolon),
    (KEY_APOSTROPHE, XK_apostrophe),
    (KEY_GRAVE, XK_grave),
    (KEY_LEFTSHIFT, XK_Shift_L),
    (KEY_BACKSLASH, XK_backslash),
    (KEY_Z, XK_z),
    (KEY_X, XK_x),
    (KEY_C, XK_c),
    (KEY_V, XK_v),
    (KEY_B, XK_b),
    (KEY_N, XK_n),
    (KEY_M, XK_m),
    (KEY_COMMA, XK_comma),
    (KEY_DOT, XK_period),
    (KEY_SLASH, XK_slash),
    (KEY_RIGHTSHIFT, XK_Shift_R),
    (KEY_KPASTERISK, XK_KP_Multiply),
    (KEY_LEFTALT, XK_Alt_L),
    (KEY_SPACE, XK_space),
    (KEY_CAPSLOCK, XK_Caps_Lock),
    (KEY_F1, XK_F1),
    (KEY_F2, XK_F2),
    (KEY_F3, XK_F3),
    (KEY_F4, XK_F4),
    (KEY_F5, XK_F5),
    (KEY_F6, XK_F6),
    (KEY_F7, XK_F7),
    (KEY_F8, XK_F8),
    (KEY_F9, XK_F9),
    (KEY_F10, XK_F10),
    (KEY_NUMLOCK, XK_Num_Lock),
    (KEY_SCROLLLOCK, XK_Scroll_Lock),
    (KEY_KP7, XK_KP_Home),
    (KEY_KP8, XK_KP_Up),
    (KEY_KP9, XK_KP_Page_Up),
    (KEY_KPMINUS, XK_KP_Subtract),
    (KEY_KP4, XK_KP_Left),
    (KEY_KP5, XK_KP_Begin),
    (KEY_KP6, XK_KP_Right),
    (KEY_KPPLUS, XK_KP_Add),
    (KEY_KP1, XK_KP_End),
    (KEY_KP2, XK_KP_Down),
    (KEY_KP3, XK_KP_Page_Down),
    (KEY_KP0, XK_KP_Insert),
    (KEY_KPDOT, XK_KP_Delete),
    (KEY_F11, XK_F11),
    (KEY_F12, XK_F12),
    (KEY_KPENTER, XK_KP_Enter),
    (KEY_RIGHTCTRL, XK_Control_R),
    (KEY_KPSLASH, XK_KP_Divide),
    (KEY_RIGHTALT, XK_Alt_R),
    (KEY_LINEFEED, XK_Linefeed),
    (KEY_HOME, XK_Home),
    (KEY_UP, XK_Up),
    (KEY_PAGEUP, XK_Page_Up),
    (KEY_LEFT, XK_Left),
    (KEY_RIGHT, XK_Right),
    (KEY_END, XK_End),
    (KEY_DOWN, XK_Down),
    (KEY_PAGEDOWN, XK_Page_Down),
    (KEY_INSERT, XK_Insert),
    (KEY_DELETE, XK_Delete),
    (KEY_KPEQUAL, XK_KP_Equal),
    (KEY_LEFTMETA, XK_Meta_L),
    (KEY_RIGHTMETA, XK_Meta_R) ]

/-- The array `keytab_normal[]`: declared without a size, so it has one element
more than its largest designator. -/
def keytab_normal : List Nat :=
  C_array 0 ((keytab_normal_init.map Prod.fst).foldl max 0 + 1) keytab_normal_init

/-- The C definition `#define KEYTAB_SIZE (KEY_RIGHTMETA + 1)`. -/
def KEYTAB_SIZE : Nat := KEY_RIGHTMETA + 1

/-- The array `keytab_numlock[KEYTAB_SIZE]`. -/
def keytab_numlock : List Nat :=
  C_array 0 KEYTAB_SIZE
  [ (KEY_KP7, XK_KP_7),
    (KEY_KP8, XK_KP_8),
    (KEY_KP9, XK_KP_9),
    (KEY_KP4, XK_KP_4),
    (KEY_KP5, XK_KP_5),
    (KEY_KP6, XK_KP_6),
    (KEY_KP1, XK_KP_1),
    (KEY_KP2, XK_KP_2),
    (KEY_KP3, XK_KP_3),
    (KEY_KP0, XK_KP_0) ]

/-- The array `keytab_shift[KEYTAB_SIZE]`. -/
def keytab_shift : List Nat :=
  C_array 0 KEYTAB_SIZE
  [ (KEY_1, XK_exclam),
    (KEY_2, XK_at),
    (KEY_3, XK_numbersign),
    (KEY_4, XK_dollar),
    (KEY_5, XK_percent),
    (KEY_6, XK_asciicircum),
    (KEY_7, XK_ampersand),
    (KEY_8, XK_asterisk),
    (KEY_9, XK_parenleft),
    (KEY_0, XK_parenright),
    (KEY_MINUS, XK_underscore),
    (KEY_EQUAL, XK_plus),
    (KEY_Q, XK_Q),
    (KEY_W, XK_W),
    (KEY_E, XK_E),
    (KEY_R, XK_R),
    (KEY_T, XK_T),
    (KEY_Y, XK_Y),
    (KEY_U, XK_U),
    (KEY_I, XK_I),
    (KEY_O, XK_O),
    (KEY_P, XK_P),
    (KEY_LEFTBRACE, XK_braceleft),
    (KEY_RIGHTBRACE, XK_braceright),
    (KEY_A, XK_A),
    (KEY_S, XK_S),
    (KEY_D, XK_D),
    (KEY_F, XK_F),
    (KEY_G, XK_G),
    (KEY_H, XK_H),
    (KEY_J, XK_J),
    (KEY_K, XK_K),
    (KEY_L, XK_L),
    (KEY_SEMICOLON, XK_colon),
    (KEY_APOSTROPHE, XK_quotedbl),
    (KEY_GRAVE, XK_asciitilde),
    (KEY_BACKSLASH, XK_bar),
    (KEY_Z, XK_Z),
    (KEY_X, XK_X),
    (KEY_C, XK_C),
    (KEY_V, XK_V),
    (KEY_B, XK_B),
    (KEY_N, XK_N),
    (KEY_M, XK_M),
    (KEY_COMMA, XK_less),
    (KEY_DOT, XK_greater),
    (KEY_SLASH, XK_question) ]

/-- The array `keytab_capslock[KEYTAB_SIZE]`. -/
def keytab_capslock : List Nat :=
  C_array 0 KEYTAB_SIZE
  [ (KEY_Q, XK_Q),
    (KEY_W, XK_W),
    (KEY_E, XK_E),
    (KEY_R, XK_R),
    (KEY_T, XK_T),
    (KEY_Y, XK_Y),
    (KEY_U, XK_U),
    (KEY_I, XK_I),
    (KEY_O, XK_O),
    (KEY_P, XK_P),
    (KEY_A, XK_A),
    (KEY_S, XK_S),
    (KEY_D, XK_D),
    (KEY_F, XK_F),
    (KEY_G, XK_G),
    (KEY_H, XK_H),
    (KEY_J, XK_J),
    (KEY_K, XK_K),
    (KEY_L, XK_L),
    (KEY_Z, XK_Z),
    (KEY_X, XK_X),
    (KEY_C, XK_C),
    (KEY_V, XK_V),
    (KEY_B, XK_B),
    (KEY_N, XK_N),
    (KEY_M, XK_M) ]

/-- The enumerator `MOD_NORMAL` of the anonymous enum in `modmap`. -/
def MOD_NORMAL : Nat := 1

/-- The enumerator `MOD_LOCK`, the successor of `MOD_NORMAL`. -/
def MOD_LOCK : Nat := MOD_NORMAL + 1

/-- The element type of `modmap`: `{ unsigned int mod; enum {...} type; }`. -/
structure modmap_entry where
  mod : Nat
  type : Nat
deriving DecidableEq, Repr

/-- The array `modmap[KEYTAB_SIZE]`; an element without initialiser is all zero. -/
def modmap : List modmap_entry :=
  C_array ⟨0, 0⟩ KEYTAB_SIZE
  [ (KEY_LEFTCTRL, ⟨UTERM_CONTROL_MASK, MOD_NORMAL⟩),
    (KEY_LEFTSHIFT, ⟨UTERM_SHIFT_MASK, MOD_NORMAL⟩),
    (KEY_RIGHTSHIFT, ⟨UTERM_SHIFT_MASK, MOD_NORMAL⟩),
    (KEY_LEFTALT, ⟨UTERM_MOD1_MASK, MOD_NORMAL⟩),
    (KEY_CAPSLOCK, ⟨UTERM_LOCK_MASK, MOD_LOCK⟩),
    (KEY_NUMLOCK, ⟨UTERM_MOD2_MASK, MOD_LOCK⟩),
    (KEY_RIGHTCTRL, ⟨UTERM_CONTROL_MASK, MOD_NORMAL⟩),
    (KEY_RIGHTALT, ⟨UTERM_MOD1_MASK, MOD_NORMAL⟩),
    (KEY_LEFTMETA, ⟨UTERM_MOD4_MASK, MOD_NORMAL⟩),
    (KEY_RIGHTMETA, ⟨UTERM_MOD4_MASK, MOD_NORMAL⟩) ]

/-- Reading `modmap[code]`. -/
def modmap_at (code : Nat) : modmap_entry := modmap.getD code ⟨0, 0⟩

/-- The C expression `~x` on a 32-bit `unsigned int`. -/
def u32_not (x : Nat) : Nat := 0xffffffff ^^^ (x % 2 ^ 32)

/-- The C function `kbd_dev_new`: a zeroed record with `ref = 1` (the
allocation is taken to succeed). -/
def kbd_dev_new : kbd_dev := { ref := 1, mods := 0 }

/-- The C function `kbd_dev_reset`. -/
def kbd_dev_reset (kbd : kbd_dev) (ledbits : List Nat) : kbd_dev :=
  let kbd := { kbd with mods := 0 }
  let kbd := if input_bit_is_set ledbits LED_NUML
    then { kbd with mods := kbd.mods ||| UTERM_MOD2_MASK } else kbd
  let kbd := if input_bit_is_set ledbits LED_CAPSL
    then { kbd with mods := kbd.mods ||| UTERM_LOCK_MASK } else kbd
  kbd

/-- What one call of `kbd_dev_process_key` yields: the returned `int`, the
keyboard record after the call, and the event written to `*out` (`none` when
`*out` is not written). -/
structure process_key_result where
  ret : Int
  kbd : kbd_dev
  out : Option uterm_input_event
deriving DecidableEq, Repr

/-- The C function `kbd_dev_process_key`. `KeysymToUcs4` is the function of the
absent `imKStoUCS.h`, taken as a parameter. -/
def kbd_dev_process_key (KeysymToUcs4 : Nat → Nat) (kbd : kbd_dev)
    (key_state : Nat) (code : Nat) : process_key_result :=
  if code ≥ KEYTAB_SIZE then
    { ret := -ENOKEY, kbd := kbd, out := none }
  else if (modmap_at code).mod ≠ 0 then
    let mod := (modmap_at code).mod
    let mod_type := (modmap_at code).type
    let kbd :=
      if key_state = 1 then
        if mod_type = MOD_NORMAL then { kbd with mods := kbd.mods ||| mod }
        else if mod_type = MOD_LOCK then { kbd with mods := kbd.mods ^^^ mod }
        else kbd
      else if key_state = 0 then
        if mod_type = MOD_NORMAL then { kbd with mods := kbd.mods &&& u32_not mod }
        else kbd
      else kbd
    { ret := -ENOKEY, kbd := kbd, out := none }
  else if key_state = 0 then
    { ret := -ENOKEY, kbd := kbd, out := none }
  else
    let keysym := 0
    let keysym := if keysym = 0 ∧ kbd.mods &&& UTERM_MOD2_MASK ≠ 0
      then keytab_numlock.getD code 0 else keysym
    let keysym := if keysym = 0 ∧ kbd.mods &&& UTERM_SHIFT_MASK ≠ 0
      then keytab_shift.getD code 0 else keysym
    let keysym := if keysym = 0 ∧ kbd.mods &&& UTERM_LOCK_MASK ≠ 0
      then keytab_capslock.getD code 0 else keysym
    let keysym := if keysym = 0 then keytab_normal.getD code 0 else keysym
    if keysym = 0 then
      { ret := -ENOKEY, kbd := kbd, out := none }
    else
      { ret := 0, kbd := kbd,
        out := some
          { keycode := code, keysym := keysym,
            unicode := if KeysymToUcs4 keysym ≠ 0 then KeysymToUcs4 keysym
              else UTERM_INPUT_INVALID,
            mods := kbd.mods } }

/-- Feeding the key states `evs`, in order, to `kbd_dev_process_key` for one
keycode `code`, keeping the keyboard record between calls. -/
def feed_key (KeysymToUcs4 : Nat → Nat) (code : Nat) : List Nat → kbd_dev → kbd_dev
  | [], kbd => kbd
  | s :: evs, kbd =>
    feed_key KeysymToUcs4 code evs (kbd_dev_process_key KeysymToUcs4 kbd s code).kbd

/-- The layered lookup in the words of the spec (section 4.C, step 4): the
candidates in priority order are the `numlock` table if `MOD2` is set, the
`shift` table if `SHIFT` is set, the `capslock` table if `LOCK` is set, and the
`normal` table unconditionally; the first non-zero candidate wins, and the
result is zero when there is none. -/
def layered_lookup (mods : Nat) (code : Nat) : Nat :=
  (((if mods &&& UTERM_MOD2_MASK ≠ 0 then [keytab_numlock.getD code 0] else []) ++
    (if mods &&& UTERM_SHIFT_MASK ≠ 0 then [keytab_shift.getD code 0] else []) ++
    (if mods &&& UTERM_LOCK_MASK ≠ 0 then [keytab_capslock.getD code 0] else []) ++
    [keytab_normal.getD code 0]).find? (fun k => k != 0)).getD 0

/-- The keycodes that the spec (section 6) lists as modifier keys. -/
def modifier_keys : List Nat :=
  [ KEY_LEFTSHIFT, KEY_RIGHTSHIFT, KEY_LEFTCTRL, KEY_RIGHTCTRL, KEY_LEFTALT,
    KEY_RIGHTALT, KEY_LEFTMETA, KEY_RIGHTMETA, KEY_CAPSLOCK, KEY_NUMLOCK ]

/-- The NORMAL modifier keys with their masks, as the spec (section 6) lists
them. -/
def normal_modifier_keys : List (Nat × Nat) :=
  [ (KEY_LEFTSHIFT, UTERM_SHIFT_MASK), (KEY_RIGHTSHIFT, UTERM_SHIFT_MASK),
    (KEY_LEFTCTRL, UTERM_CONTROL_MASK), (KEY_RIGHTCTRL, UTERM_CONTROL_MASK),
    (KEY_LEFTALT, UTERM_MOD1_MASK), (KEY_RIGHTALT, UTERM_MOD1_MASK),
    (KEY_LEFTMETA, UTERM_MOD4_MASK), (KEY_RIGHTMETA, UTERM_MOD4_MASK) ]

/-- The LOCK modifier keys with their masks, as the spec (section 6) lists
them. -/
def lock_modifier_keys : List (Nat × Nat) :=
  [ (KEY_CAPSLOCK, UTERM_LOCK_MASK), (KEY_NUMLOCK, UTERM_MOD2_MASK) ]

/-- The key is held after the key states `evs`: some press (state 1) in `evs`
is followed by no release (state 0), that is, the end of `evs` lies in the
interval between a press and its release. Computed over the suffixes of `evs`:
one of them starts with a press and holds no release after it. -/
def in_press_interval (evs : List Nat) : Bool :=
  evs.tails.any (fun t => t.head? == some 1 && !(t.tail.contains 0))

/-! ## `input.c` -/

/-- The C enum `enum input_state`. -/
inductive input_state where
  | INPUT_ASLEEP
  | INPUT_AWAKE
deriving DecidableEq, Repr

/-- The enumerator `FEATURE_HAS_KEYS` of `enum device_feature`. -/
def FEATURE_HAS_KEYS : Nat := 0x01

/-- The enumerator `FEATURE_HAS_LEDS` of `enum device_feature`. -/
def FEATURE_HAS_LEDS : Nat := 0x02

/-- The C macro `NLONGS(n)`: how many longs hold `n` bits. -/
def NLONGS (n : Nat) : Nat := (n + LONG_BIT - 1) / LONG_BIT

/-- The record `struct kmscon_input_device`. The link `next` is the position in
the manager's device list; the back pointer `input` is not stored, the one
field read through it (`input->eloop`) is passed to the functions that read it.
`fd` is the loop registration `struct ev_fd *`, `none` for `NULL`. -/
structure kmscon_input_device where
  features : Nat
  rfd : Int
  devnode : String
  fd : Option Nat
  kbd : kbd_dev
deriving DecidableEq, Repr

/-- The record `struct kmscon_input` as far as `input.c` reads and writes it:
`eloop` is the bound event loop and `monitor_fd` the registration of the
hot-plug monitor (`none` for `NULL`). The udev handles, the hook and the keymap
description are created by `kmscon_input_new` and never change. -/
structure kmscon_input where
  ref : Nat
  state : input_state
  devices : List kmscon_input_device
  eloop : Option Nat
  monitor_fd : Option Nat
deriving DecidableEq, Repr

/-- The calls on device nodes and on the event loop that `input.c` makes; the
functions below return the calls they made, in order. -/
inductive sys_call where
  | sys_open (devnode : String)
  | sys_ioctl_EVIOCGBIT (fd : Int) (ev : Nat)
  | sys_ioctl_EVIOCGLED (fd : Int)
  | sys_close (fd : Int)
  | ev_eloop_new_fd (eloop : Nat) (rfd : Int)
  | ev_eloop_rm_fd (fd : Option Nat)
deriving DecidableEq, Repr

/-- The outcome of `open(2)`: a descriptor `fd >= 0`, or `-1` with `errno` set
to a positive error number. -/
inductive open_result where
  | ok (fd : Nat)
  | fail (errno : ℕ+)

/-- The outcome of an `ioctl(2)` that fills a bit array, called after
`errno = 0`: on success the array holds `bits` and `errno` is still 0; on
failure `errno` is a positive error number and the array is left as it was. -/
inductive ioctl_result where
  | ok (bits : List Nat)
  | fail (errno : ℕ+)

/-- Modelled from the spec: the outcome of `ev_eloop_new_fd` of the absent
event-loop library. Section 4.D: the fd is registered with the event loop, and
registration can fail with an error. `ret` is the returned `int`; when it is 0
the new registration handle `fd` has been stored through the `out` pointer,
otherwise the pointer's target is untouched. -/
structure new_fd_result where
  ret : Int
  fd : Nat

/-- What the environment answers during one `kmscon_input_device_wake_up`. -/
structure wake_env where
  open_node : open_result
  led : ioctl_result
  new_fd : new_fd_result

/-- What one call of `kmscon_input_device_wake_up` yields. -/
structure wake_result where
  ret : Int
  device : kmscon_input_device
  calls : List sys_call
deriving DecidableEq, Repr

/-- Modelled from the spec: `kmscon_kbd_reset` of the absent `kbd.h`. Section
4.D: wake-up calls `KbdDev::reset` with the LED bitmap, the operation of
section 4.C, which `uterm_input_dumb.c` implements as `kbd_dev_reset`. -/
def kmscon_kbd_reset (kbd : kbd_dev) (ledbits : List Nat) : kbd_dev :=
  kbd_dev_reset kbd ledbits

/-- Modelled from the spec: `kmscon_kbd_new` of the absent `kbd.h`. Section
4.C: `KbdDev::new` produces a fresh per-device state with `mods = 0`, which
`uterm_input_dumb.c` implements as `kbd_dev_new`. -/
def kmscon_kbd_new : kbd_dev := kbd_dev_new

/-- The C function `kmscon_input_device_wake_up`; `eloop` is
`device->input->eloop`. -/
def kmscon_input_device_wake_up (eloop : Option Nat) (device : kmscon_input_device)
    (env : wake_env) : wake_result :=
  match eloop with
  | none => { ret := -EINVAL, device := device, calls := [] }
  | some loop =>
    if device.rfd ≥ 0 then
      { ret := 0, device := device, calls := [] }
    else
      match env.open_node with
      | open_result.fail errno =>
        { ret := -(errno : Int), device := { device with rfd := -1 },
          calls := [sys_call.sys_open device.devnode] }
      | open_result.ok n =>
        let ledbits := List.replicate (NLONGS LED_CNT) 0
        let calls := [sys_call.sys_open device.devnode]
        let device := { device with rfd := (n : Int) }
        if device.features &&& FEATURE_HAS_KEYS ≠ 0 then
          let led :=
            if device.features &&& FEATURE_HAS_LEDS ≠ 0 then
              (match env.led with
                | ioctl_result.ok bits => bits
                | ioctl_result.fail _ => ledbits,
               calls ++ [sys_call.sys_ioctl_EVIOCGLED device.rfd])
            else (ledbits, calls)
          let ledbits := led.1
          let calls := led.2
          let device := { device with kbd := kmscon_kbd_reset device.kbd ledbits }
          let calls := calls ++ [sys_call.ev_eloop_new_fd loop device.rfd]
          if env.new_fd.ret ≠ 0 then
            { ret := env.new_fd.ret, device := { device with rfd := -1 },
              calls := calls ++ [sys_call.sys_close device.rfd] }
          else
            { ret := 0, device := { device with fd := some env.new_fd.fd }, calls := calls }
        else
          { ret := 0, device := device, calls := calls }

/-- The C function `kmscon_input_device_sleep`: the device after the call and
the calls made. -/
def kmscon_input_device_sleep (device : kmscon_input_device) :
    kmscon_input_device × List sys_call :=
  if device.rfd < 0 then (device, [])
  else
    ({ device with fd := none, rfd := -1 },
     [sys_call.ev_eloop_rm_fd device.fd, sys_call.sys_close device.rfd])

/-- The C function `kmscon_input_device_new`. `alloc_ret` is 0 when `malloc`,
`strdup` and `kmscon_kbd_new` all succeed and the error they cause otherwise. -/
def kmscon_input_device_new (devnode : String) (features : Nat) (alloc_ret : Int) :
    Int × Option kmscon_input_device :=
  if alloc_ret ≠ 0 then (alloc_ret, none)
  else
    (0, some { features := features, rfd := -1, devnode := devnode, fd := none,
               kbd := kmscon_kbd_new })

/-- The C function `kmscon_input_device_free`: the device is put to sleep and
its memory released; the calls made are those of the sleep. -/
def kmscon_input_device_free (device : kmscon_input_device) : List sys_call :=
  (kmscon_input_device_sleep device).2

/-- The C function `kmscon_input_new` when every allocation succeeds. -/
def kmscon_input_new : kmscon_input :=
  { ref := 1, state := input_state.INPUT_ASLEEP, devices := [], eloop := none,
    monitor_fd := none }

/-- What the environment answers during one `probe_device_features`. -/
structure probe_env where
  open_node : open_result
  evbits : ioctl_result
  keybits : ioctl_result

/-- The C function `probe_device_features`: the feature mask and the calls
made. -/
def probe_device_features (node : String) (env : probe_env) : Nat × List sys_call :=
  match env.open_node with
  | open_result.fail _ => (0, [sys_call.sys_open node])
  | open_result.ok fd =>
    let calls := [sys_call.sys_open node, sys_call.sys_ioctl_EVIOCGBIT fd 0]
    match env.evbits with
    | ioctl_result.fail _ => (0, calls ++ [sys_call.sys_close fd])
    | ioctl_result.ok evbits =>
      let features := 0
      if input_bit_is_set evbits EV_KEY then
        let calls := calls ++ [sys_call.sys_ioctl_EVIOCGBIT fd EV_KEY]
        match env.keybits with
        | ioctl_result.fail _ => (0, calls ++ [sys_call.sys_close fd])
        | ioctl_result.ok keybits =>
          let features :=
            if (List.range' KEY_RESERVED (KEY_MIN_INTERESTING + 1 - KEY_RESERVED)).any
                (fun i => input_bit_is_set keybits i)
            then features ||| FEATURE_HAS_KEYS else features
          let features :=
            if input_bit_is_set evbits EV_LED then features ||| FEATURE_HAS_LEDS else features
          (features, calls ++ [sys_call.sys_close fd])
      else
        let features :=
          if input_bit_is_set evbits EV_LED then features ||| FEATURE_HAS_LEDS else features
        (features, calls ++ [sys_call.sys_close fd])

/-- A `struct udev_device` as far as `input.c` queries it: the device node, the
property `ID_SEAT` and the action (`none` where udev returns `NULL`). -/
structure udev_device where
  devnode : Option String
  ID_SEAT : Option String
  action : Option String
deriving DecidableEq, Repr

/-- What the environment answers during one `add_device`. -/
structure add_env where
  probe : probe_env
  alloc_ret : Int
  wake : wake_env

/-- The C function `add_device`; `conf_seat` is `conf_global.seat`. Returns the
manager after the call and the calls made. -/
def add_device (conf_seat : String) (input : kmscon_input) (udev_dev : udev_device)
    (env : add_env) : kmscon_input × List sys_call :=
  match udev_dev.devnode with
  | none => (input, [])
  | some node =>
    let seat := match udev_dev.ID_SEAT with
      | none => "seat0"
      | some seat => seat
    if seat ≠ conf_seat then (input, [])
    else
      let probe := probe_device_features node env.probe
      let features := probe.1
      if features &&& FEATURE_HAS_KEYS = 0 then (input, probe.2)
      else
        match kmscon_input_device_new node features env.alloc_ret with
        | (_, none) => (input, probe.2)
        | (_, some device) =>
          if input.state = input_state.INPUT_AWAKE then
            let w := kmscon_input_device_wake_up input.eloop device env.wake
            if w.ret ≠ 0 then
              (input, probe.2 ++ w.calls ++ kmscon_input_device_free w.device)
            else
              ({ input with devices := w.device :: input.devices }, probe.2 ++ w.calls)
          else
            ({ input with devices := device :: input.devices }, probe.2)

/-- The loop of `remove_device`: `before` are the devices from the head of the
list up to and including `prev`, `iter` the devices from `iter` on. The first
device whose node is `node` is unlinked (the list becomes `before` followed by
what follows the device) and freed. -/
def remove_device_loop (node : String) :
    List kmscon_input_device → List kmscon_input_device →
      List kmscon_input_device × List sys_call
  | before, [] => (before, [])
  | before, iter :: next =>
    if iter.devnode = node then (before ++ next, kmscon_input_device_free iter)
    else remove_device_loop node (before ++ [iter]) next

/-- The C function `remove_device`. -/
def remove_device (input : kmscon_input) (node : String) : kmscon_input × List sys_call :=
  if input.devices = [] then (input, [])
  else
    let r := remove_device_loop node [] input.devices
    ({ input with devices := r.1 }, r.2)

/-- The C function `remove_device_udev`. -/
def remove_device_udev (input : kmscon_input) (udev_dev : udev_device) :
    kmscon_input × List sys_call :=
  match udev_dev.devnode with
  | none => (input, [])
  | some node => remove_device input node

/-- The C function `device_changed`; `received` is what
`udev_monitor_receive_device` returns. -/
def device_changed (conf_seat : String) (input : kmscon_input)
    (received : Option udev_device) (env : add_env) : kmscon_input × List sys_call :=
  match received with
  | none => (input, [])
  | some udev_dev =>
    match udev_dev.action with
    | none => (input, [])
    | some action =>
      if action = "add" then add_device conf_seat input udev_dev env
      else if action = "remove" then remove_device_udev input udev_dev
      else (input, [])

/-- What the environment answers during `add_initial_devices`: whether
`udev_enumerate_new` returns an object, the return values of the three
enumeration calls, and for each list entry the udev device it yields (`none`
when the syspath or the device is `NULL`) with the answers to its `add_device`. -/
structure enum_env where
  enumerate_new : Bool
  add_match_subsystem : Int
  add_match_tag : Int
  scan_devices : Int
  entries : List (Option udev_device × add_env)

/-- The loop `udev_list_entry_foreach` of `add_initial_devices`. -/
def add_initial_devices_loop (conf_seat : String) :
    kmscon_input → List (Option udev_device × add_env) → kmscon_input × List sys_call
  | input, [] => (input, [])
  | input, (none, _) :: items => add_initial_devices_loop conf_seat input items
  | input, (some udev_dev, env) :: items =>
    let r := add_device conf_seat input udev_dev env
    let r2 := add_initial_devices_loop conf_seat r.1 items
    (r2.1, r.2 ++ r2.2)

/-- The C function `add_initial_devices`. -/
def add_initial_devices (conf_seat : String) (input : kmscon_input) (env : enum_env) :
    kmscon_input × List sys_call :=
  if env.enumerate_new = false then (input, [])
  else if env.add_match_subsystem ≠ 0 then (input, [])
  else if conf_seat ≠ "seat0" ∧ env.add_match_tag ≠ 0 then (input, [])
  else if env.scan_devices ≠ 0 then (input, [])
  else add_initial_devices_loop conf_seat input env.entries

/-- What the environment answers during `kmscon_input_connect_eloop`: the
descriptor of the udev monitor, the outcome of registering it, and the answers
to the initial enumeration. -/
structure connect_env where
  monitor_rfd : Int
  new_fd : new_fd_result
  enumerate : enum_env

/-- What `kmscon_input_connect_eloop` yields. -/
structure connect_result where
  ret : Int
  input : kmscon_input
  calls : List sys_call

/-- The C function `kmscon_input_connect_eloop`. -/
def kmscon_input_connect_eloop (conf_seat : String) (input : kmscon_input) (eloop : Nat)
    (env : connect_env) : connect_result :=
  if input.eloop.isSome then { ret := -EALREADY, input := input, calls := [] }
  else
    let calls := [sys_call.ev_eloop_new_fd eloop env.monitor_rfd]
    if env.new_fd.ret ≠ 0 then { ret := env.new_fd.ret, input := input, calls := calls }
    else
      let input := { input with monitor_fd := some env.new_fd.fd }
      let input := { input with eloop := some eloop }
      let r := add_initial_devices conf_seat input env.enumerate
      { ret := 0, input := r.1, calls := calls ++ r.2 }

/-- The loop of `kmscon_input_disconnect_eloop`: every device is unlinked from
the head and freed. -/
def disconnect_loop : List kmscon_input_device → List sys_call
  | [] => []
  | tmp :: next => kmscon_input_device_free tmp ++ disconnect_loop next

/-- The C function `kmscon_input_disconnect_eloop`. -/
def kmscon_input_disconnect_eloop (input : kmscon_input) : kmscon_input × List sys_call :=
  if input.eloop.isNone then (input, [])
  else
    let calls := disconnect_loop input.devices
    let input := { input with devices := [] }
    let calls := calls ++ [sys_call.ev_eloop_rm_fd input.monitor_fd]
    let input := { input with monitor_fd := none }
    let input := { input with eloop := none }
    (input, calls)

/-- The loop of `kmscon_input_sleep`: every device of the list is put to sleep
in place. -/
def sleep_loop : List kmscon_input_device → List kmscon_input_device × List sys_call
  | [] => ([], [])
  | iter :: next =>
    let r := kmscon_input_device_sleep iter
    let r2 := sleep_loop next
    (r.1 :: r2.1, r.2 ++ r2.2)

/-- The C function `kmscon_input_sleep`. -/
def kmscon_input_sleep (input : kmscon_input) : kmscon_input × List sys_call :=
  if input.state = input_state.INPUT_ASLEEP then (input, [])
  else
    let r := sleep_loop input.devices
    ({ input with devices := r.1, state := input_state.INPUT_ASLEEP }, r.2)

/-- The loop of `kmscon_input_wake_up`. `before` are the devices from the head
of the list up to and including `prev`, the third list the devices from `iter`
on; `env i` is what the environment answers to the wake-up of the device that
stood at position `i` of the list when the function was called. A device whose
wake-up fails is unlinked (the list becomes `before` followed by what follows
the device) and freed; otherwise it becomes `prev`. -/
def wake_up_loop (eloop : Option Nat) (env : Nat → wake_env) :
    Nat → List kmscon_input_device → List kmscon_input_device →
      List kmscon_input_device × List sys_call
  | _, before, [] => (before, [])
  | i, before, iter :: next =>
    let w := kmscon_input_device_wake_up eloop iter (env i)
    if w.ret ≠ 0 then
      let r := wake_up_loop eloop env (i + 1) before next
      (r.1, w.calls ++ kmscon_input_device_free w.device ++ r.2)
    else
      let r := wake_up_loop eloop env (i + 1) (before ++ [w.device]) next
      (r.1, w.calls ++ r.2)

/-- The C function `kmscon_input_wake_up`. -/
def kmscon_input_wake_up (input : kmscon_input) (env : Nat → wake_env) :
    kmscon_input × List sys_call :=
  if input.state = input_state.INPUT_AWAKE then (input, [])
  else
    let r := wake_up_loop input.eloop env 0 [] input.devices
    ({ input with devices := r.1, state := input_state.INPUT_AWAKE }, r.2)

/-- The C function `kmscon_input_is_asleep`. -/
def kmscon_input_is_asleep (input : kmscon_input) : Bool :=
  input.state = input_state.INPUT_ASLEEP

/-- The manager states reachable from `kmscon_input_new` by the operations of
`input.c` that change the manager, each with arbitrary answers of the
environment. -/
inductive reachable (conf_seat : String) : kmscon_input → Prop where
  | new : reachable conf_seat kmscon_input_new
  | connect (input : kmscon_input) (eloop : Nat) (env : connect_env) :
      reachable conf_seat input →
      reachable conf_seat (kmscon_input_connect_eloop conf_seat input eloop env).input
  | add (input : kmscon_input) (udev_dev : udev_device) (env : add_env) :
      reachable conf_seat input →
      reachable conf_seat (add_device conf_seat input udev_dev env).1
  | remove (input : kmscon_input) (node : String) :
      reachable conf_seat input → reachable conf_seat (remove_device input node).1
  | sleep (input : kmscon_input) :
      reachable conf_seat input → reachable conf_seat (kmscon_input_sleep input).1
  | wake_up (input : kmscon_input) (env : Nat → wake_env) :
      reachable conf_seat input → reachable conf_seat (kmscon_input_wake_up input env).1
  | disconnect (input : kmscon_input) :
      reachable conf_seat input →
      reachable conf_seat (kmscon_input_disconnect_eloop input).1

/-- The outcome of the wake-up of the device at position `p.1`, as an entry of
the list after `kmscon_input_wake_up`: the woken device when the wake-up
returned 0, nothing otherwise. -/
def woken (eloop : Option Nat) (env : Nat → wake_env) (p : Nat × kmscon_input_device) :
    Option kmscon_input_device :=
  if (kmscon_input_device_wake_up eloop p.2 (env p.1)).ret = 0
  then some (kmscon_input_device_wake_up eloop p.2 (env p.1)).device else none

/-- The calls that the wake-up of the device at position `p.1` causes during
`kmscon_input_wake_up`: those of the one `kmscon_input_device_wake_up`,
followed by those of freeing the device when the wake-up failed. -/
def wake_calls (eloop : Option Nat) (env : Nat → wake_env) (p : Nat × kmscon_input_device) :
    List sys_call :=
  (kmscon_input_device_wake_up eloop p.2 (env p.1)).calls ++
    if (kmscon_input_device_wake_up eloop p.2 (env p.1)).ret = 0 then []
    else kmscon_input_device_free (kmscon_input_device_wake_up eloop p.2 (env p.1)).device

/-- The condition under which a device fits a manager in state `state`: it is
a keyboard (only those are linked), and it is open and registered when the
manager is AWAKE, closed and unregistered when the manager is ASLEEP. -/
def device_ok (state : input_state) (d : kmscon_input_device) : Prop :=
  d.features &&& FEATURE_HAS_KEYS ≠ 0 ∧
  (state = input_state.INPUT_AWAKE → 0 ≤ d.rfd ∧ d.fd.isSome = true) ∧
  (state = input_state.INPUT_ASLEEP → d.rfd < 0 ∧ d.fd = none)

/-- Every device of the manager's list fits the manager's state. -/
def input_ok (input : kmscon_input) : Prop :=
  ∀ d ∈ input.devices, device_ok input.state d

/-! ## Concrete environments and devices used as instances -/

/-- The answers of an environment in which the node opens as descriptor `n` and
the registration succeeds with handle `h`. -/
def wake_env_ok (n h : Nat) : wake_env :=
  { open_node := open_result.ok n, led := ioctl_result.ok [0],
    new_fd := { ret := 0, fd := h } }

/-- The answers of an environment in which the node cannot be opened. -/
def wake_env_fail : wake_env :=
  { open_node := open_result.fail 2, led := ioctl_result.ok [0],
    new_fd := { ret := 0, fd := 0 } }

/-- A sleeping keyboard device on node `node`. -/
def asleep_device (node : String) : kmscon_input_device :=
  { features := FEATURE_HAS_KEYS, rfd := -1, devnode := node, fd := none, kbd := kbd_dev_new }

/-- A sleeping device on node `node` that has LEDs but no keys. -/
def silent_device (node : String) : kmscon_input_device :=
  { features := FEATURE_HAS_LEDS, rfd := -1, devnode := node, fd := none, kbd := kbd_dev_new }

/-- The device that `add_device` constructs for node `node`, before a wake-up:
`kmscon_input_device_new` with the probed feature mask. -/
def fresh_device (node : String) (env : add_env) : kmscon_input_device :=
  { features := (probe_device_features node env.probe).1, rfd := -1, devnode := node,
    fd := none, kbd := kmscon_kbd_new }

/-- The device that an accepted `add_device` links into the list: the fresh
device, woken up when the manager is AWAKE. -/
def linked_device (input : kmscon_input) (node : String) (env : add_env) :
    kmscon_input_device :=
  if input.state = input_state.INPUT_AWAKE then
    (kmscon_input_device_wake_up input.eloop (fresh_device node env) env.wake).device
  else fresh_device node env

/-- The answers of an environment to the probe of a keyboard: the node opens as
descriptor `n`, it supports `EV_KEY`, and the key `KEY_A` is among its keys. -/
def probe_env_keyboard (n : Nat) : probe_env :=
  { open_node := open_result.ok n, evbits := ioctl_result.ok [1 <<< EV_KEY],
    keybits := ioctl_result.ok [1 <<< KEY_A] }

/-- The answers of an environment to the `add_device` of a keyboard that opens
as descriptor `n` and registers with handle `h`. -/
def add_env_keyboard (n h : Nat) : add_env :=
  { probe := probe_env_keyboard 3, alloc_ret := 0, wake := wake_env_ok n h }

/-- The udev device of an "add" notification for node `node` on seat `seat0`. -/
def udev_keyboard (node : String) : udev_device :=
  { devnode := some node, ID_SEAT := some "seat0", action := some "add" }

/-- The answers of an environment to a connect in which the monitor registers
with handle 8 and the initial enumeration finds one keyboard. -/
def connect_env_one_keyboard : connect_env :=
  { monitor_rfd := 4, new_fd := { ret := 0, fd := 8 },
    enumerate :=
      { enumerate_new := true, add_match_subsystem := 0, add_match_tag := 0,
        scan_devices := 0,
        entries := [(some (udev_keyboard "/dev/input/event0"), add_env_keyboard 5 9)] } }

/-- A manager that was created, connected with one keyboard present, and woken
up. -/
def woken_manager : kmscon_input :=
  (kmscon_input_wake_up
    (kmscon_input_connect_eloop "seat0" kmscon_input_new 7 connect_env_one_keyboard).input
    (fun _ => wake_env_ok 5 9)).1

/-! ## Key traces and frames -/

/-- Feeding the pairs (key state, keycode) of `keys`, in order, to
`kbd_dev_process_key`, keeping the keyboard record between calls: the record at
the end and the events of the calls that returned 0, in order. -/
def process_keys (KeysymToUcs4 : Nat → Nat) : List (Nat × Nat) → kbd_dev →
    kbd_dev × List uterm_input_event
  | [], kbd => (kbd, [])
  | (key_state, code) :: keys, kbd =>
    let r := kbd_dev_process_key KeysymToUcs4 kbd key_state code
    let r2 := process_keys KeysymToUcs4 keys r.kbd
    (r2.1, (if r.ret = 0 then r.out.toList else []) ++ r2.2)

/-- The Unicode field of an event with keysym `keysym`:
`KeysymToUcs4(keysym) ?: UTERM_INPUT_INVALID`. -/
def unicode_of (KeysymToUcs4 : Nat → Nat) (keysym : Nat) : Nat :=
  if KeysymToUcs4 keysym = 0 then UTERM_INPUT_INVALID else KeysymToUcs4 keysym

/-- The 26 letter keys with their upper-case keysyms. -/
def letter_keys : List (Nat × Nat) :=
  [ (KEY_A, XK_A), (KEY_B, XK_B), (KEY_C, XK_C), (KEY_D, XK_D), (KEY_E, XK_E),
    (KEY_F, XK_F), (KEY_G, XK_G), (KEY_H, XK_H), (KEY_I, XK_I), (KEY_J, XK_J),
    (KEY_K, XK_K), (KEY_L, XK_L), (KEY_M, XK_M), (KEY_N, XK_N), (KEY_O, XK_O),
    (KEY_P, XK_P), (KEY_Q, XK_Q), (KEY_R, XK_R), (KEY_S, XK_S), (KEY_T, XK_T),
    (KEY_U, XK_U), (KEY_V, XK_V), (KEY_W, XK_W), (KEY_X, XK_X), (KEY_Y, XK_Y),
    (KEY_Z, XK_Z) ]

/-- The keypad digit keys `KEY_KPd` with the digit `d` and the navigation
keysym that the claim names for it. -/
def keypad_keys : List (Nat × Nat × Nat) :=
  [ (KEY_KP0, 0, XK_KP_Insert), (KEY_KP1, 1, XK_KP_End), (KEY_KP2, 2, XK_KP_Down),
    (KEY_KP3, 3, XK_KP_Page_Down), (KEY_KP4, 4, XK_KP_Left), (KEY_KP5, 5, XK_KP_Begin),
    (KEY_KP6, 6, XK_KP_Right), (KEY_KP7, 7, XK_KP_Home), (KEY_KP8, 8, XK_KP_Up),
    (KEY_KP9, 9, XK_KP_Page_Up) ]

/-! ## `input.c`: reading events and observers -/

/-- The record `struct input_event` of `linux/input.h` without its time stamp:
`type` and `code` are 16-bit unsigned, `value` is a 32-bit signed integer. -/
structure input_event where
  type : Nat
  code : Nat
  value : Int
deriving DecidableEq, Repr

/-- The size in bytes of `struct input_event` (LP64: a 16-byte time stamp, two
16-bit fields and one 32-bit field). -/
def sizeof_input_event : Nat := 24

/-- The error number `EWOULDBLOCK` of `errno.h`. -/
def EWOULDBLOCK : Int := 11

/-- Modelled from the spec: `kmscon_kbd_process_key` of the absent `kbd.h`.
Section 4.D: the pair `(value, code)` is fed to `KbdDev::process_key`, the
operation of section 4.C, which `uterm_input_dumb.c` implements as
`kbd_dev_process_key` with a `uint16_t key_state`; the `int32_t value` of the
caller is converted to that type, that is, reduced modulo `2 ^ 16`. -/
def kmscon_kbd_process_key (KeysymToUcs4 : Nat → Nat) (kbd : kbd_dev) (value : Int)
    (code : Nat) : process_key_result :=
  kbd_dev_process_key KeysymToUcs4 kbd (value % 65536).toNat code

/-- The C function `notify_key`: the device after the call and the events
passed to `kmscon_hook_call`, which hands each to every observer. -/
def notify_key (KeysymToUcs4 : Nat → Nat) (device : kmscon_input_device)
    (type code : Nat) (value : Int) : kmscon_input_device × List uterm_input_event :=
  if type ≠ EV_KEY then (device, [])
  else
    let r := kmscon_kbd_process_key KeysymToUcs4 device.kbd value code
    let device := { device with kbd := r.kbd }
    if r.ret ≠ 0 ∧ r.ret ≠ -ENOKEY then (device, [])
    else if r.ret ≠ -ENOKEY then (device, r.out.toList)
    else (device, [])

/-- The `for` loop of `device_data_arrived` over the records of one frame. -/
def notify_key_loop (KeysymToUcs4 : Nat → Nat) :
    kmscon_input_device → List input_event →
      kmscon_input_device × List uterm_input_event
  | device, [] => (device, [])
  | device, ev :: evs =>
    let r := notify_key KeysymToUcs4 device ev.type ev.code ev.value
    let r2 := notify_key_loop KeysymToUcs4 r.1 evs
    (r2.1, r.2 ++ r2.2)

/-- The outcome of one `read(2)` on the device: failure with a positive
`errno`, or `len >= 0` bytes read with `ev` the records in the buffer. -/
inductive read_result where
  | fail (errno : ℕ+)
  | ok (len : Nat) (ev : List input_event)

/-- What `device_data_arrived` yields: the manager after the call, the events
passed to the observers and the calls made. -/
structure data_arrived_result where
  input : kmscon_input
  hook_calls : List uterm_input_event
  calls : List sys_call

/-- The C function `device_data_arrived` for the device at position `i` of the
manager's list. The last argument lists the outcomes of the successive reads;
after them `read` fails with `EWOULDBLOCK`. -/
def device_data_arrived (KeysymToUcs4 : Nat → Nat) (i : Nat) :
    kmscon_input → List read_result → data_arrived_result
  | input, [] => { input := input, hook_calls := [], calls := [] }
  | input, r :: reads =>
    match input.devices[i]? with
    | none => { input := input, hook_calls := [], calls := [] }
    | some device =>
      match r with
      | read_result.fail errno =>
        if (errno : Int) = EWOULDBLOCK then { input := input, hook_calls := [], calls := [] }
        else
          let rm := remove_device input device.devnode
          { input := rm.1, hook_calls := [], calls := rm.2 }
      | read_result.ok len ev =>
        if len = 0 then
          let rm := remove_device input device.devnode
          { input := rm.1, hook_calls := [], calls := rm.2 }
        else if len % sizeof_input_event ≠ 0 then
          if len = 16 * sizeof_input_event then
            device_data_arrived KeysymToUcs4 i input reads
          else { input := input, hook_calls := [], calls := [] }
        else
          let n := len / sizeof_input_event
          let r := notify_key_loop KeysymToUcs4 device (ev.take n)
          let input := { input with devices := input.devices.set i r.1 }
          if len = 16 * sizeof_input_event then
            let rest := device_data_arrived KeysymToUcs4 i input reads
            { input := rest.input, hook_calls := r.2 ++ rest.hook_calls, calls := rest.calls }
          else { input := input, hook_calls := r.2, calls := [] }

/-- The pairs (key state, keycode) that the records of a frame hand to the
keymap engine, in the words of the spec (section 4.D): only the records of
type `EV_KEY`, in frame order, each as `(value, code)`. -/
def key_records (ev : List input_event) : List (Nat × Nat) :=
  (ev.filter (fun e => e.type = EV_KEY)).map (fun e => ((e.value % 65536).toNat, e.code))

/-- The manager `input` in which the device at position `i` is `device` with the
keyboard record `kbd`. -/
def with_kbd (input : kmscon_input) (i : Nat) (device : kmscon_input_device)
    (kbd : kbd_dev) : kmscon_input :=
  { input with devices := input.devices.set i ({ device with kbd := kbd }) }

/-- The C function `kmscon_input_register_cb`. The observer registry
`input->hook` is an object of the absent hook library behind a pointer that
never changes; `hook` is its content, the sequence of `(callback, user-data)`
of the spec (section 3), `cb = none` is a `NULL` callback, and `add_ret` is what
`kmscon_hook_add_cast` returns (0 when the entry was added). -/
def kmscon_input_register_cb (input : kmscon_input) (hook : List (Nat × Nat))
    (cb : Option Nat) (data : Nat) (add_ret : Int) :
    Int × kmscon_input × List (Nat × Nat) :=
  match cb with
  | none => (-EINVAL, input, hook)
  | some f =>
    if add_ret ≠ 0 then (add_ret, input, hook) else (0, input, hook ++ [(f, data)])

/-- The C function `kmscon_input_unregister_cb`; the entry with the identity
`(cb, data)` is removed from the registry. -/
def kmscon_input_unregister_cb (input : kmscon_input) (hook : List (Nat × Nat))
    (cb : Option Nat) (data : Nat) : kmscon_input × List (Nat × Nat) :=
  match cb with
  | none => (input, hook)
  | some f => (input, hook.erase (f, data))

/-! ## Reachable keyboard states -/

/-- The modifier set of the spec (section 3): `SHIFT`, `LOCK`, `CONTROL`,
`MOD1`, `MOD2`, `MOD4`. -/
def MODIFIER_SET : Nat :=
  UTERM_SHIFT_MASK ||| UTERM_LOCK_MASK ||| UTERM_CONTROL_MASK ||| UTERM_MOD1_MASK |||
    UTERM_MOD2_MASK ||| UTERM_MOD4_MASK

/-- The keyboard records reachable from `kbd_dev_new` by `kbd_dev_reset` with
arbitrary LED bits and `kbd_dev_process_key` with arbitrary key state and
keycode. -/
inductive kbd_reachable (KeysymToUcs4 : Nat → Nat) : kbd_dev → Prop where
  | new : kbd_reachable KeysymToUcs4 kbd_dev_new
  | reset (kbd : kbd_dev) (ledbits : List Nat) :
      kbd_reachable KeysymToUcs4 kbd → kbd_reachable KeysymToUcs4 (kbd_dev_reset kbd ledbits)
  | process_key (kbd : kbd_dev) (key_state code : Nat) :
      kbd_reachable KeysymToUcs4 kbd →
      kbd_reachable KeysymToUcs4 (kbd_dev_process_key KeysymToUcs4 kbd key_state code).kbd

/-- The LED bitmap that a wake-up hands to the keymap reset, in the words of the
spec (section 4.D): the one returned by `EVIOCGLED` if the device has
`HAS_LEDS` and the ioctl succeeded, all zero otherwise. -/
def wake_ledbits (device : kmscon_input_device) (env : wake_env) : List Nat :=
  if device.features &&& FEATURE_HAS_LEDS ≠ 0 then
    match env.led with
    | ioctl_result.ok bits => bits
    | ioctl_result.fail _ => List.replicate (NLONGS LED_CNT) 0
  else List.replicate (NLONGS LED_CNT) 0

/-- An AWAKE manager holding one open keyboard. -/
def awake_manager : kmscon_input :=
  { ref := 1, state := input_state.INPUT_AWAKE,
    devices := [{ features := FEATURE_HAS_KEYS, rfd := 5, devnode := "/dev/input/event0",
                  fd := some 9, kbd := kbd_dev_new }],
    eloop := some 7, monitor_fd := some 8 }

/-- A frame of three records: `KEY_A` pressed, a synchronisation record (type
0), `KEY_A` released. -/
def frame_key_a : List input_event :=
  [⟨EV_KEY, KEY_A, 1⟩, ⟨0, 0, 0⟩, ⟨EV_KEY, KEY_A, 0⟩]

/-- The answers of an environment to a connect in which the registration of the
monitor fails with `-ENOMEM`. -/
def connect_env_fail : connect_env :=
  { monitor_rfd := 4, new_fd := { ret := -ENOMEM, fd := 0 },
    enumerate :=
      { enumerate_new := true, add_match_subsystem := 0, add_match_tag := 0,
        scan_devices := 0,
        entries := [(some (udev_keyboard "/dev/input/event0"), add_env_keyboard 5 9)] } }

/-- The answers of an environment to the probe of a device that supports
`EV_KEY` and `EV_LED` but only the key `KEY_POWER` (116), which lies above
`KEY_MIN_INTERESTING`. -/
def probe_env_power_button : probe_env :=
  { open_node := open_result.ok 3, evbits := ioctl_result.ok [1 <<< EV_KEY ||| 1 <<< EV_LED],
    keybits := ioctl_result.ok [0, 1 <<< (116 - LONG_BIT)] }

/-! ## Shared masks, table priority, duplicates, table reads -/

/-- The key state of the last press-or-release event in `keys` among all keys
that carry the NORMAL modifier mask `mask`, if there is one. -/
def last_press_or_release (mask : Nat) (keys : List (Nat × Nat)) : Option Nat :=
  ((keys.filter (fun p =>
      decide ((p.2, mask) ∈ normal_modifier_keys) && (p.1 == 0 || p.1 == 1))).getLast?).map
    Prod.fst

/-- The three tables that a modifier bit selects. -/
inductive modifier_table where
  | numlock
  | shift
  | capslock
deriving DecidableEq, Repr

/-- The candidate keysyms that one modifier table contributes to the lookup: its
entry for `code` if its modifier bit is set in `mods`, nothing otherwise. -/
def table_candidate (mods code : Nat) : modifier_table → List Nat
  | modifier_table.numlock =>
    if mods &&& UTERM_MOD2_MASK ≠ 0 then [keytab_numlock.getD code 0] else []
  | modifier_table.shift =>
    if mods &&& UTERM_SHIFT_MASK ≠ 0 then [keytab_shift.getD code 0] else []
  | modifier_table.capslock =>
    if mods &&& UTERM_LOCK_MASK ≠ 0 then [keytab_capslock.getD code 0] else []

/-- The layered lookup with the three modifier tables consulted in the priority
order `order`, the normal table last: the first non-zero candidate, zero when
there is none. -/
def lookup_in_order (order : List modifier_table) (mods code : Nat) : Nat :=
  ((order.flatMap (table_candidate mods code) ++ [keytab_normal.getD code 0]).find?
    (fun k => k != 0)).getD 0

/-- The woken manager after a second "add" notification for the node of the
keyboard it already holds. -/
def duplicate_manager : kmscon_input :=
  (add_device "seat0" woken_manager (udev_keyboard "/dev/input/event0")
    (add_env_keyboard 6 10)).1

/-- The five constant tables of `uterm_input_dumb.c`. -/
inductive keymap_table where
  | normal
  | numlock
  | shift
  | capslock
  | modmap
deriving DecidableEq, Repr

/-- The number of elements of each table. -/
def table_length : keymap_table → Nat
  | keymap_table.normal => keytab_normal.length
  | keymap_table.numlock => keytab_numlock.length
  | keymap_table.shift => keytab_shift.length
  | keymap_table.capslock => keytab_capslock.length
  | keymap_table.modmap => Kmscon.modmap.length

/-- The C function `kbd_dev_process_key` with every array subscript recorded:
the result together with the list of (table, index) of the subscript
expressions evaluated, in order. The `&&` of the source evaluates its right
operand, and the table read that depends on it, only when the left one holds. -/
def kbd_dev_process_key_traced (KeysymToUcs4 : Nat → Nat) (kbd : kbd_dev)
    (key_state : Nat) (code : Nat) : process_key_result × List (keymap_table × Nat) :=
  if code ≥ KEYTAB_SIZE then
    ({ ret := -ENOKEY, kbd := kbd, out := none }, [])
  else
    let reads := [(keymap_table.modmap, code)]
    if (Kmscon.modmap.getD code ⟨0, 0⟩).mod ≠ 0 then
      let mod := (Kmscon.modmap.getD code ⟨0, 0⟩).mod
      let reads := reads ++ [(keymap_table.modmap, code)]
      let mod_type := (Kmscon.modmap.getD code ⟨0, 0⟩).type
      let reads := reads ++ [(keymap_table.modmap, code)]
      let kbd :=
        if key_state = 1 then
          if mod_type = MOD_NORMAL then { kbd with mods := kbd.mods ||| mod }
          else if mod_type = MOD_LOCK then { kbd with mods := kbd.mods ^^^ mod }
          else kbd
        else if key_state = 0 then
          if mod_type = MOD_NORMAL then { kbd with mods := kbd.mods &&& u32_not mod }
          else kbd
        else kbd
      ({ ret := -ENOKEY, kbd := kbd, out := none }, reads)
    else if key_state = 0 then
      ({ ret := -ENOKEY, kbd := kbd, out := none }, reads)
    else
      let keysym := 0
      let reads := if keysym = 0 ∧ kbd.mods &&& UTERM_MOD2_MASK ≠ 0
        then reads ++ [(keymap_table.numlock, code)] else reads
      let keysym := if keysym = 0 ∧ kbd.mods &&& UTERM_MOD2_MASK ≠ 0
        then keytab_numlock.getD code 0 else keysym
      let reads := if keysym = 0 ∧ kbd.mods &&& UTERM_SHIFT_MASK ≠ 0
        then reads ++ [(keymap_table.shift, code)] else reads
      let keysym := if keysym = 0 ∧ kbd.mods &&& UTERM_SHIFT_MASK ≠ 0
        then keytab_shift.getD code 0 else keysym
      let reads := if keysym = 0 ∧ kbd.mods &&& UTERM_LOCK_MASK ≠ 0
        then reads ++ [(keymap_table.capslock, code)] else reads
      let keysym := if keysym = 0 ∧ kbd.mods &&& UTERM_LOCK_MASK ≠ 0
        then keytab_capslock.getD code 0 else keysym
      let reads := if keysym = 0 then reads ++ [(keymap_table.normal, code)] else reads
      let keysym := if keysym = 0 then keytab_normal.getD code 0 else keysym
      if keysym = 0 then
        ({ ret := -ENOKEY, kbd := kbd, out := none }, reads)
      else
        ({ ret := 0, kbd := kbd,
           out := some
             { keycode := code, keysym := keysym,
               unicode := if KeysymToUcs4 keysym ≠ 0 then KeysymToUcs4 keysym
                 else UTERM_INPUT_INVALID,
               mods := kbd.mods } }, reads)

/-! ## Theorems: the keymap engine -/

theorem testBit_u32_not (m i : Nat) :
    (u32_not m).testBit i = (decide (i < 32) && !m.testBit i) := by
  have h : (0xffffffff : Nat) = 2 ^ 32 - 1 := by norm_num
  rw [u32_not, h, Nat.testBit_xor, Nat.testBit_two_pow_sub_one, Nat.testBit_mod_two_pow]
  by_cases hi : i < 32 <;> simp [hi]

theorem or_and_self_mask (a m : Nat) : (a ||| m) &&& m = m := by
  apply Nat.eq_of_testBit_eq
  intro i
  simp only [Nat.testBit_and, Nat.testBit_or]
  cases a.testBit i <;> cases m.testBit i <;> rfl

theorem and_not_and_mask (a m : Nat) : (a &&& u32_not m) &&& m = 0 := by
  apply Nat.eq_of_testBit_eq
  intro i
  simp only [Nat.testBit_and, testBit_u32_not, Nat.zero_testBit]
  cases a.testBit i <;> cases m.testBit i <;> simp

theorem testBit_and_u32_not (a m i : Nat) (ha : a < 2 ^ 32) (hi : m.testBit i = false) :
    (a &&& u32_not m).testBit i = a.testBit i := by
  rw [Nat.testBit_and, testBit_u32_not, hi]
  by_cases h : i < 32
  · simp [h]
  · have : a.testBit i = false :=
      Nat.testBit_lt_two_pow (lt_of_lt_of_le ha (Nat.pow_le_pow_right (by norm_num) (by omega)))
    simp [this]

theorem testBit_or_mask (a m i : Nat) (hi : m.testBit i = false) :
    (a ||| m).testBit i = a.testBit i := by
  rw [Nat.testBit_or, hi, Bool.or_false]

theorem C_array_length {α : Type} (d : α) (size : Nat) (inits : List (Nat × α)) :
    (C_array d size inits).length = size := by
  simp [C_array]

theorem C_array_getD {α : Type} (d : α) (size : Nat) (inits : List (Nat × α)) (i : Nat)
    (h : i < size) : (C_array d size inits).getD i d = C_designated d inits i := by
  simp [C_array, List.getD_eq_getElem?_getD, List.getElem?_map, List.getElem?_range h]

set_option maxRecDepth 100000 in
/-- The `_Static_assert` of the source: `keytab_normal` has `KEYTAB_SIZE`
elements. -/
theorem keytab_normal_length : keytab_normal.length = KEYTAB_SIZE := by
  rw [keytab_normal, C_array_length]
  decide

theorem modmap_length : modmap.length = KEYTAB_SIZE := by
  rw [modmap, C_array_length]

set_option maxRecDepth 100000 in
theorem modifier_keys_iff (code : Nat) :
    code ∈ modifier_keys ↔ code < KEYTAB_SIZE ∧ (modmap_at code).mod ≠ 0 := by
  constructor
  · intro h
    simp only [modifier_keys, List.mem_cons, List.mem_singleton, List.not_mem_nil,
      or_false] at h
    rcases h with h | h | h | h | h | h | h | h | h | h <;> subst h <;> decide
  · rintro ⟨h1, h2⟩
    have key : ∀ c, c < KEYTAB_SIZE → (modmap_at c).mod ≠ 0 → c ∈ modifier_keys := by
      decide
    exact key code h1 h2

/-- One call of `kbd_dev_process_key` on a keycode with a modifier-map entry. -/
theorem process_key_modifier_step (ucs : Nat → Nat) (kbd : kbd_dev) (key_state code : Nat)
    (h1 : code < KEYTAB_SIZE) (h2 : (modmap_at code).mod ≠ 0) :
    kbd_dev_process_key ucs kbd key_state code =
      { ret := -ENOKEY,
        kbd :=
          if key_state = 1 then
            if (modmap_at code).type = MOD_NORMAL then
              { kbd with mods := kbd.mods ||| (modmap_at code).mod }
            else if (modmap_at code).type = MOD_LOCK then
              { kbd with mods := kbd.mods ^^^ (modmap_at code).mod }
            else kbd
          else if key_state = 0 then
            if (modmap_at code).type = MOD_NORMAL then
              { kbd with mods := kbd.mods &&& u32_not (modmap_at code).mod }
            else kbd
          else kbd,
        out := none } := by
  unfold kbd_dev_process_key
  rw [if_neg (by omega), if_pos h2]

/-- C1. On a keycode below `KEYTAB_SIZE` without modifier-map entry and a key
state other than 0, `kbd_dev_process_key` chooses the keysym by the layered
lookup of the spec (first non-zero of numlock if MOD2, shift if SHIFT, capslock
if LOCK, normal); a zero keysym gives `-ENOKEY` and no event, a non-zero one
gives 0 and the event with `keycode = code`, that keysym, its Unicode value
(or `UTERM_INPUT_INVALID` when that is zero) and the current mask; the stored
keyboard record is unchanged in both cases. -/
theorem process_key_layered_lookup (KeysymToUcs4 : Nat → Nat) (kbd : kbd_dev)
    (key_state code : Nat) (hcode : code < KEYTAB_SIZE)
    (hmod : (modmap_at code).mod = 0) (hstate : key_state ≠ 0) :
    kbd_dev_process_key KeysymToUcs4 kbd key_state code =
      if layered_lookup kbd.mods code = 0 then
        { ret := -ENOKEY, kbd := kbd, out := none }
      else
        { ret := 0, kbd := kbd,
          out := some
            { keycode := code,
              keysym := layered_lookup kbd.mods code,
              unicode :=
                if KeysymToUcs4 (layered_lookup kbd.mods code) = 0 then UTERM_INPUT_INVALID
                else KeysymToUcs4 (layered_lookup kbd.mods code),
              mods := kbd.mods } } := by
  unfold kbd_dev_process_key layered_lookup
  rw [if_neg (by omega), if_neg (by simpa using hmod), if_neg hstate]
  generalize keytab_numlock.getD code 0 = a
  generalize keytab_shift.getD code 0 = b
  generalize keytab_capslock.getD code 0 = c
  generalize keytab_normal.getD code 0 = n
  by_cases h2 : kbd.mods &&& UTERM_MOD2_MASK = 0 <;>
  by_cases hs : kbd.mods &&& UTERM_SHIFT_MASK = 0 <;>
  by_cases hl : kbd.mods &&& UTERM_LOCK_MASK = 0 <;>
  cases a <;> cases b <;> cases c <;> cases n <;>
  simp [h2, hs, hl, List.find?_cons]

set_option maxRecDepth 100000 in
/-- Witness for C1: the key `KEY_A` pressed with `SHIFT` held. -/
theorem process_key_layered_lookup_witness :
    (kbd_dev_process_key id ⟨1, UTERM_SHIFT_MASK⟩ 1 KEY_A).out =
      some ⟨KEY_A, XK_A, XK_A, UTERM_SHIFT_MASK⟩ := by
  rw [process_key_layered_lookup id ⟨1, UTERM_SHIFT_MASK⟩ 1 KEY_A (by decide) (by decide)
    (by decide)]
  decide

/-- C2. On every keycode with a modifier-map entry, which are exactly the ten
keys Left/Right Shift, Control, Alt, Meta, Capslock and Numlock, and for every
key state, `kbd_dev_process_key` returns `-ENOKEY` and writes no event. -/
theorem process_key_modifier_no_event (KeysymToUcs4 : Nat → Nat) (kbd : kbd_dev)
    (key_state code : Nat)
    (h : code ∈ modifier_keys ∨ (code < KEYTAB_SIZE ∧ (modmap_at code).mod ≠ 0)) :
    (kbd_dev_process_key KeysymToUcs4 kbd key_state code).ret = -ENOKEY ∧
    (kbd_dev_process_key KeysymToUcs4 kbd key_state code).out = none := by
  have h' : code < KEYTAB_SIZE ∧ (modmap_at code).mod ≠ 0 := by
    rcases h with h | h
    · exact (modifier_keys_iff code).1 h
    · exact h
  rw [process_key_modifier_step KeysymToUcs4 kbd key_state code h'.1 h'.2]
  exact ⟨rfl, rfl⟩

/-- Witness for C2: a press of Left Shift. -/
theorem process_key_modifier_no_event_witness :
    (kbd_dev_process_key id ⟨1, 0⟩ 1 KEY_LEFTSHIFT).ret = -ENOKEY ∧
    (kbd_dev_process_key id ⟨1, 0⟩ 1 KEY_LEFTSHIFT).out = none :=
  process_key_modifier_no_event id ⟨1, 0⟩ 1 KEY_LEFTSHIFT (Or.inl (by decide))

theorem in_press_interval_cons (s : Nat) (t : List Nat) :
    in_press_interval (s :: t) = true ↔ (s = 1 ∧ 0 ∉ t) ∨ in_press_interval t = true := by
  simp [in_press_interval, List.tails]

theorem not_in_press_interval_nil : ¬ in_press_interval [] = true := by
  simp [in_press_interval]

theorem feed_key_append (ucs : Nat → Nat) (code : Nat) (a b : List Nat) (kbd : kbd_dev) :
    feed_key ucs code (a ++ b) kbd = feed_key ucs code b (feed_key ucs code a kbd) := by
  induction a generalizing kbd with
  | nil => rfl
  | cons s t ih =>
    rw [List.cons_append]
    simp only [feed_key]
    exact ih _

set_option maxRecDepth 100000 in
theorem normal_modifier_keys_spec :
    ∀ p ∈ normal_modifier_keys,
      p.1 < KEYTAB_SIZE ∧ modmap_at p.1 = ⟨p.2, MOD_NORMAL⟩ ∧ p.2 ≠ 0 ∧ p.2 < 2 ^ 32 := by
  decide

set_option maxRecDepth 100000 in
theorem lock_modifier_keys_spec :
    ∀ p ∈ lock_modifier_keys,
      p.1 < KEYTAB_SIZE ∧ modmap_at p.1 = ⟨p.2, MOD_LOCK⟩ ∧ p.2 ≠ 0 := by
  decide

/-- One call of `kbd_dev_process_key` on a NORMAL modifier key. -/
theorem process_key_normal_step (ucs : Nat → Nat) (kbd : kbd_dev) (s code mask : Nat)
    (hc : code < KEYTAB_SIZE) (hmap : modmap_at code = ⟨mask, MOD_NORMAL⟩) (hm : mask ≠ 0) :
    (kbd_dev_process_key ucs kbd s code).kbd =
      { kbd with mods :=
          if s = 1 then kbd.mods ||| mask
          else if s = 0 then kbd.mods &&& u32_not mask else kbd.mods } := by
  rw [process_key_modifier_step ucs kbd s code hc (by rw [hmap]; exact hm), hmap]
  by_cases h1 : s = 1
  · simp [h1]
  · by_cases h0 : s = 0
    · simp [h0]
    · simp [h1, h0]

/-- One call of `kbd_dev_process_key` on a LOCK modifier key. -/
theorem process_key_lock_step (ucs : Nat → Nat) (kbd : kbd_dev) (s code mask : Nat)
    (hc : code < KEYTAB_SIZE) (hmap : modmap_at code = ⟨mask, MOD_LOCK⟩) (hm : mask ≠ 0) :
    (kbd_dev_process_key ucs kbd s code).kbd =
      { kbd with mods := if s = 1 then kbd.mods ^^^ mask else kbd.mods } := by
  rw [process_key_modifier_step ucs kbd s code hc (by rw [hmap]; exact hm), hmap]
  by_cases h1 : s = 1
  · simp [h1, MOD_LOCK, MOD_NORMAL]
  · by_cases h0 : s = 0
    · simp [h0, MOD_LOCK, MOD_NORMAL]
    · simp [h1, h0]

theorem feed_key_normal_aux (ucs : Nat → Nat) (code mask : Nat)
    (hc : code < KEYTAB_SIZE) (hmap : modmap_at code = ⟨mask, MOD_NORMAL⟩)
    (hm0 : mask ≠ 0) (hm : mask < 2 ^ 32) :
    ∀ (evs : List Nat) (kbd : kbd_dev), kbd.mods < 2 ^ 32 →
      (kbd.mods &&& mask = 0 ∨ kbd.mods &&& mask = mask) →
      (feed_key ucs code evs kbd).mods < 2 ^ 32 ∧
      (∀ i, mask.testBit i = false →
        (feed_key ucs code evs kbd).mods.testBit i = kbd.mods.testBit i) ∧
      ((feed_key ucs code evs kbd).mods &&& mask = mask ↔
        (in_press_interval evs ∨ (kbd.mods &&& mask = mask ∧ 0 ∉ evs))) ∧
      ((feed_key ucs code evs kbd).mods &&& mask = 0 ∨
        (feed_key ucs code evs kbd).mods &&& mask = mask) := by
  intro evs
  induction evs with
  | nil =>
    intro kbd hr hb
    refine ⟨hr, fun _ _ => rfl, ?_, hb⟩
    simp [feed_key, not_in_press_interval_nil]
  | cons s t ih =>
    intro kbd hr hb
    have hstep := process_key_normal_step ucs kbd s code mask hc hmap hm0
    simp only [feed_key]
    by_cases h1 : s = 1
    · subst h1
      simp only [if_true] at hstep
      have hr1 : (kbd_dev_process_key ucs kbd 1 code).kbd.mods < 2 ^ 32 := by
        rw [hstep]; exact Nat.or_lt_two_pow hr hm
      have hb1 : (kbd_dev_process_key ucs kbd 1 code).kbd.mods &&& mask = mask := by
        rw [hstep]; exact or_and_self_mask _ _
      obtain ⟨a, b, c, d⟩ := ih _ hr1 (Or.inr hb1)
      refine ⟨a, ?_, ?_, d⟩
      · intro i hi
        rw [b i hi, hstep]
        exact testBit_or_mask _ _ _ hi
      · rw [c, in_press_interval_cons]
        have e : (0 ∉ (1 :: t)) ↔ 0 ∉ t := by simp
        rw [e]
        have h11 : (1 : Nat) = 1 := rfl
        tauto
    · by_cases h0 : s = 0
      · subst h0
        simp only [if_neg h1, if_true] at hstep
        have hr1 : (kbd_dev_process_key ucs kbd 0 code).kbd.mods < 2 ^ 32 := by
          rw [hstep]; exact lt_of_le_of_lt Nat.and_le_left hr
        have hb1 : (kbd_dev_process_key ucs kbd 0 code).kbd.mods &&& mask = 0 := by
          rw [hstep]; exact and_not_and_mask _ _
        obtain ⟨a, b, c, d⟩ := ih _ hr1 (Or.inl hb1)
        refine ⟨a, ?_, ?_, d⟩
        · intro i hi
          rw [b i hi, hstep]
          exact testBit_and_u32_not _ _ _ hr hi
        · rw [c, in_press_interval_cons]
          have hne : ¬ ((0 : Nat) = mask) := fun h => hm0 h.symm
          simp [hb1, hne]
      · simp only [if_neg h1, if_neg h0] at hstep
        have hk : (kbd_dev_process_key ucs kbd s code).kbd = kbd := by rw [hstep]
        rw [hk]
        obtain ⟨a, b, c, d⟩ := ih kbd hr hb
        refine ⟨a, b, ?_, d⟩
        rw [c, in_press_interval_cons]
        have h0' : ¬ (0 = s) := fun h => h0 h.symm
        simp [h1, h0']

/-- C3. For every NORMAL modifier key (Left/Right Shift, Control, Alt, Meta)
with mask `mask`, and every sequence `evs` of key states fed to
`kbd_dev_process_key` on that key from a state whose bit is clear: after `evs`
the bit is set exactly when the end of `evs` lies between a press and its
release, and clear otherwise; in particular it is set after every press and
clear after every release; an autorepeat (or any state other than 0 and 1)
changes nothing; and every bit outside the mask keeps its initial value. -/
theorem normal_modifier_tracks_press_release (KeysymToUcs4 : Nat → Nat) (code mask : Nat)
    (hkey : (code, mask) ∈ normal_modifier_keys) (kbd : kbd_dev)
    (hrange : kbd.mods < 2 ^ 32) (hclear : kbd.mods &&& mask = 0) (evs : List Nat) :
    ((feed_key KeysymToUcs4 code evs kbd).mods &&& mask = mask ↔
      in_press_interval evs = true) ∧
    ((feed_key KeysymToUcs4 code evs kbd).mods &&& mask = 0 ↔
      in_press_interval evs = false) ∧
    (feed_key KeysymToUcs4 code (evs ++ [1]) kbd).mods &&& mask = mask ∧
    (feed_key KeysymToUcs4 code (evs ++ [0]) kbd).mods &&& mask = 0 ∧
    (∀ s, s ≠ 0 → s ≠ 1 →
      feed_key KeysymToUcs4 code (evs ++ [s]) kbd = feed_key KeysymToUcs4 code evs kbd) ∧
    (∀ i, mask.testBit i = false →
      (feed_key KeysymToUcs4 code evs kbd).mods.testBit i = kbd.mods.testBit i) := by
  obtain ⟨hc, hmap, hm0, hm⟩ := normal_modifier_keys_spec (code, mask) hkey
  obtain ⟨_, hother, hset, hor⟩ :=
    feed_key_normal_aux KeysymToUcs4 code mask hc hmap hm0 hm evs kbd hrange (Or.inl hclear)
  have hne : ¬ (kbd.mods &&& mask = mask) := by
    rw [hclear]; exact fun h => hm0 h.symm
  have hset' : (feed_key KeysymToUcs4 code evs kbd).mods &&& mask = mask ↔
      in_press_interval evs := by
    rw [hset]; simp [hne]
  refine ⟨hset', ?_, ?_, ?_, ?_, hother⟩
  · rw [← Bool.not_eq_true, ← hset']
    rcases hor with h | h
    · rw [h]; simp only [true_iff]; exact fun h' => hm0 h'.symm
    · rw [h]; simp only [not_true_eq_false, iff_false]; exact hm0
  · rw [feed_key_append]
    simp only [feed_key]
    rw [process_key_normal_step KeysymToUcs4 _ 1 code mask hc hmap hm0]
    exact or_and_self_mask _ _
  · rw [feed_key_append]
    simp only [feed_key]
    rw [process_key_normal_step KeysymToUcs4 _ 0 code mask hc hmap hm0]
    exact and_not_and_mask _ _
  · intro s h0 h1
    rw [feed_key_append]
    simp only [feed_key]
    rw [process_key_normal_step KeysymToUcs4 _ s code mask hc hmap hm0]
    simp [h0, h1]

/-- Witness for C3: Left Shift pressed, repeated, released, pressed again and
repeated, with `LOCK` on throughout: `SHIFT` is set at the end. -/
theorem normal_modifier_tracks_press_release_witness :
    (feed_key id KEY_LEFTSHIFT [1, 2, 0, 1, 2] ⟨1, UTERM_LOCK_MASK⟩).mods
      &&& UTERM_SHIFT_MASK = UTERM_SHIFT_MASK :=
  (normal_modifier_tracks_press_release id KEY_LEFTSHIFT UTERM_SHIFT_MASK (by decide)
    ⟨1, UTERM_LOCK_MASK⟩ (by decide) (by decide) [1, 2, 0, 1, 2]).1.2 (by decide)

theorem xor_xor_cancel_mask (a m : Nat) : (a ^^^ m) ^^^ m = a := by
  rw [Nat.xor_assoc, Nat.xor_self, Nat.xor_zero]

theorem feed_key_lock_aux (ucs : Nat → Nat) (code mask : Nat)
    (hc : code < KEYTAB_SIZE) (hmap : modmap_at code = ⟨mask, MOD_LOCK⟩) (hm0 : mask ≠ 0) :
    ∀ (evs : List Nat) (kbd : kbd_dev),
      feed_key ucs code evs kbd =
        { kbd with mods := if evs.count 1 % 2 = 1 then kbd.mods ^^^ mask else kbd.mods } := by
  intro evs
  induction evs with
  | nil => intro kbd; simp [feed_key]
  | cons s t ih =>
    intro kbd
    simp only [feed_key]
    rw [ih, process_key_lock_step ucs kbd s code mask hc hmap hm0]
    by_cases h1 : s = 1
    · subst h1
      simp only [if_true, List.count_cons_self]
      rcases Nat.mod_two_eq_zero_or_one (List.count 1 t) with h | h
      · have h' : (List.count 1 t + 1) % 2 = 1 := by omega
        simp [h, h']
      · have h' : ¬ ((List.count 1 t + 1) % 2 = 1) := by omega
        simp [h, h', xor_xor_cancel_mask]
    · have hc1 : List.count 1 (s :: t) = List.count 1 t :=
        List.count_cons_of_ne (fun h => h1 h.symm) t
      simp only [if_neg h1, hc1]

/-- C4. For each LOCK modifier key (Capslock with `LOCK`, Numlock with `MOD2`),
every initial state and every sequence `evs` of key states on that key with
`N` presses among arbitrary other states: after feeding `evs` to
`kbd_dev_process_key` the mask is the initial one with the lock bit flipped
when `N` is odd, so the lock bit is its initial value xor `N mod 2` and every
other bit is unchanged. -/
theorem lock_modifier_parity (KeysymToUcs4 : Nat → Nat) (code mask : Nat)
    (hkey : (code, mask) ∈ lock_modifier_keys) (kbd : kbd_dev) (evs : List Nat) :
    (feed_key KeysymToUcs4 code evs kbd).mods =
      (if evs.count 1 % 2 = 1 then kbd.mods ^^^ mask else kbd.mods) ∧
    (∀ i, mask.testBit i = true →
      (feed_key KeysymToUcs4 code evs kbd).mods.testBit i =
        xor (kbd.mods.testBit i) (decide (evs.count 1 % 2 = 1))) ∧
    (∀ i, mask.testBit i = false →
      (feed_key KeysymToUcs4 code evs kbd).mods.testBit i = kbd.mods.testBit i) := by
  obtain ⟨hc, hmap, hm0⟩ := lock_modifier_keys_spec (code, mask) hkey
  rw [feed_key_lock_aux KeysymToUcs4 code mask hc hmap hm0 evs kbd]
  refine ⟨rfl, ?_, ?_⟩
  · intro i hi
    by_cases h : evs.count 1 % 2 = 1
    · simp [h, Nat.testBit_xor, hi]
    · simp [h]
  · intro i hi
    by_cases h : evs.count 1 % 2 = 1
    · simp [h, Nat.testBit_xor, hi]
    · simp [h]

/-- Witness for C4: three presses of Capslock with releases and autorepeats
between them, starting with `SHIFT` held. -/
theorem lock_modifier_parity_witness :
    (feed_key id KEY_CAPSLOCK [1, 2, 0, 1, 0, 1] ⟨1, UTERM_SHIFT_MASK⟩).mods =
      (if [1, 2, 0, 1, 0, 1].count 1 % 2 = 1 then UTERM_SHIFT_MASK ^^^ UTERM_LOCK_MASK
        else UTERM_SHIFT_MASK) :=
  (lock_modifier_parity id KEY_CAPSLOCK UTERM_LOCK_MASK (by decide)
    ⟨1, UTERM_SHIFT_MASK⟩ [1, 2, 0, 1, 0, 1]).1

/-- C5. After `kbd_dev_reset` the mask has `LOCK` set iff `LED_CAPSL` is set in
the LED bits and `MOD2` set iff `LED_NUML` is set, it has no other bit, and it
does not depend on the record before the call; LED bits `{LED_CAPSL}` give
`LOCK` and `{LED_NUML, LED_CAPSL}` give `LOCK | MOD2`. -/
theorem reset_follows_leds (kbd : kbd_dev) (ledbits : List Nat) :
    ((kbd_dev_reset kbd ledbits).mods &&& UTERM_LOCK_MASK ≠ 0 ↔
      input_bit_is_set ledbits LED_CAPSL = true) ∧
    ((kbd_dev_reset kbd ledbits).mods &&& UTERM_MOD2_MASK ≠ 0 ↔
      input_bit_is_set ledbits LED_NUML = true) ∧
    (kbd_dev_reset kbd ledbits).mods &&& (UTERM_LOCK_MASK ||| UTERM_MOD2_MASK) =
      (kbd_dev_reset kbd ledbits).mods ∧
    (∀ i, (kbd_dev_reset kbd ledbits).mods.testBit i = true → i = 1 ∨ i = 4) ∧
    (∀ kbd2 : kbd_dev, (kbd_dev_reset kbd2 ledbits).mods = (kbd_dev_reset kbd ledbits).mods) ∧
    (kbd_dev_reset kbd [1 <<< LED_CAPSL]).mods = UTERM_LOCK_MASK ∧
    (kbd_dev_reset kbd [1 <<< LED_NUML ||| 1 <<< LED_CAPSL]).mods =
      UTERM_LOCK_MASK ||| UTERM_MOD2_MASK := by
  have hbits : ∀ m : Nat, m < 32 → ∀ i, m.testBit i = true → i < 5 := by
    intro m hm i hi
    by_contra hlt
    have : m.testBit i = false :=
      Nat.testBit_lt_two_pow (lt_of_lt_of_le hm (by
        calc 32 = 2 ^ 5 := by norm_num
          _ ≤ 2 ^ i := Nat.pow_le_pow_right (by norm_num) (by omega)))
    rw [this] at hi
    exact Bool.false_ne_true hi
  have hform : ∀ k : kbd_dev, (kbd_dev_reset k ledbits).mods =
      (if input_bit_is_set ledbits LED_CAPSL = true then
        (if input_bit_is_set ledbits LED_NUML = true then 18 else 2)
       else (if input_bit_is_set ledbits LED_NUML = true then 16 else 0)) := by
    intro k
    unfold kbd_dev_reset
    cases input_bit_is_set ledbits LED_NUML <;> cases input_bit_is_set ledbits LED_CAPSL <;>
      simp <;> decide
  refine ⟨?_, ?_, ?_, ?_, ?_, ?_, ?_⟩
  · rw [hform]
    cases input_bit_is_set ledbits LED_NUML <;> cases input_bit_is_set ledbits LED_CAPSL <;>
      simp <;> decide
  · rw [hform]
    cases input_bit_is_set ledbits LED_NUML <;> cases input_bit_is_set ledbits LED_CAPSL <;>
      simp <;> decide
  · rw [hform]
    cases input_bit_is_set ledbits LED_NUML <;> cases input_bit_is_set ledbits LED_CAPSL <;>
      simp <;> decide
  · intro i hi
    have hlt : (kbd_dev_reset kbd ledbits).mods < 32 := by
      rw [hform]
      cases input_bit_is_set ledbits LED_NUML <;> cases input_bit_is_set ledbits LED_CAPSL <;>
        simp
    have h5 := hbits _ hlt i hi
    rw [hform] at hi
    revert hi
    cases input_bit_is_set ledbits LED_NUML <;> cases input_bit_is_set ledbits LED_CAPSL <;>
      simp <;> interval_cases i <;> decide
  · intro kbd2
    rw [hform, hform]
  · have h1 : input_bit_is_set [1 <<< LED_CAPSL] LED_CAPSL = true := by decide
    have h2 : input_bit_is_set [1 <<< LED_CAPSL] LED_NUML = false := by decide
    simp only [kbd_dev_reset, h1, h2, if_true, Bool.false_eq_true, if_false]
    decide
  · have h1 : input_bit_is_set [1 <<< LED_NUML ||| 1 <<< LED_CAPSL] LED_CAPSL = true := by
      decide
    have h2 : input_bit_is_set [1 <<< LED_NUML ||| 1 <<< LED_CAPSL] LED_NUML = true := by
      decide
    simp only [kbd_dev_reset, h1, h2, if_true, Bool.false_eq_true, if_false]
    decide

/-! ## Theorems: the input manager -/

theorem kbd_dev_reset_idem (kbd : kbd_dev) (ledbits : List Nat) :
    kbd_dev_reset (kbd_dev_reset kbd ledbits) ledbits = kbd_dev_reset kbd ledbits := by
  unfold kbd_dev_reset
  cases input_bit_is_set ledbits LED_NUML <;> cases input_bit_is_set ledbits LED_CAPSL <;> simp

theorem wake_up_loop_eq (eloop : Option Nat) (env : Nat → wake_env) :
    ∀ (iter : List kmscon_input_device) (i : Nat) (before : List kmscon_input_device),
      wake_up_loop eloop env i before iter =
        (before ++ (iter.enumFrom i).filterMap (woken eloop env),
         (iter.enumFrom i).flatMap (wake_calls eloop env)) := by
  intro iter
  induction iter with
  | nil => intro i before; simp [wake_up_loop]
  | cons d next ih =>
    intro i before
    unfold wake_up_loop
    by_cases h : (kmscon_input_device_wake_up eloop d (env i)).ret = 0
    · simp [h, ih, List.enumFrom_cons, List.filterMap_cons, woken, wake_calls]
    · simp [h, ih, List.enumFrom_cons, List.filterMap_cons, woken, wake_calls]

theorem woken_devnode (eloop : Option Nat) (env : wake_env) (d : kmscon_input_device) :
    (kmscon_input_device_wake_up eloop d env).device.devnode = d.devnode ∧
    (kmscon_input_device_wake_up eloop d env).device.features = d.features := by
  unfold kmscon_input_device_wake_up
  cases eloop with
  | none => simp
  | some loop =>
    by_cases h : 0 ≤ d.rfd
    · simp [h]
    · cases ho : env.open_node with
      | fail e => simp [h, ho]
      | ok n =>
        simp only [h, ho]
        split_ifs <;> simp

theorem woken_sublist (eloop : Option Nat) (env : Nat → wake_env) :
    ∀ (l : List kmscon_input_device) (i : Nat),
      (((l.enumFrom i).filterMap (woken eloop env)).map kmscon_input_device.devnode).Sublist
        (l.map kmscon_input_device.devnode) := by
  intro l
  induction l with
  | nil => intro i; simp
  | cons d t ih =>
    intro i
    rw [List.enumFrom_cons, List.filterMap_cons]
    by_cases h : (kmscon_input_device_wake_up eloop d (env i)).ret = 0
    · simp only [woken, h, if_true, List.map_cons, (woken_devnode eloop (env i) d).1]
      exact (ih (i + 1)).cons₂ _
    · simp only [woken, h, if_false, List.map_cons]
      exact (ih (i + 1)).cons _

/-- C7. From state ASLEEP, `kmscon_input_wake_up` makes the state AWAKE
whatever the outcomes; the device list afterwards holds, in the original
order, exactly the woken devices of those positions whose one
`kmscon_input_device_wake_up` returned 0 (so its node paths are a sub-sequence
of the original ones); the calls made are, position by position in list order,
those of one wake-up of the device, followed by those of freeing it when the
wake-up failed; the loop binding is unchanged. -/
theorem wake_up_keeps_woken_devices (input : kmscon_input) (env : Nat → wake_env)
    (hstate : input.state = input_state.INPUT_ASLEEP) :
    (kmscon_input_wake_up input env).1.state = input_state.INPUT_AWAKE ∧
    (kmscon_input_wake_up input env).1.devices =
      input.devices.enum.filterMap (woken input.eloop env) ∧
    (kmscon_input_wake_up input env).2 =
      input.devices.enum.flatMap (wake_calls input.eloop env) ∧
    (((kmscon_input_wake_up input env).1.devices).map kmscon_input_device.devnode).Sublist
      (input.devices.map kmscon_input_device.devnode) ∧
    (kmscon_input_wake_up input env).1.eloop = input.eloop ∧
    (kmscon_input_wake_up input env).1.monitor_fd = input.monitor_fd := by
  have hne : ¬ input.state = input_state.INPUT_AWAKE := by rw [hstate]; decide
  have e : kmscon_input_wake_up input env =
      ({ input with
          devices := input.devices.enum.filterMap (woken input.eloop env),
          state := input_state.INPUT_AWAKE },
       input.devices.enum.flatMap (wake_calls input.eloop env)) := by
    simp only [kmscon_input_wake_up, if_neg hne, wake_up_loop_eq, List.nil_append, List.enum]
  rw [e]
  exact ⟨rfl, rfl, rfl, woken_sublist input.eloop env input.devices 0, rfl, rfl⟩

/-- Witness for C7: three sleeping devices of which the first and the last fail
to open. -/
theorem wake_up_keeps_woken_devices_witness :
    (kmscon_input_wake_up
      { ref := 1, state := input_state.INPUT_ASLEEP,
        devices := [asleep_device "a", asleep_device "b", asleep_device "c"],
        eloop := some 7, monitor_fd := some 8 }
      (fun i => if i = 1 then wake_env_ok 5 9 else wake_env_fail)).1.devices =
    [{ features := FEATURE_HAS_KEYS, rfd := 5, devnode := "b", fd := some 9,
       kbd := kbd_dev_new }] := by
  rw [(wake_up_keeps_woken_devices _ _ rfl).2.1]
  decide

/-- C8. Sleep and wake-up are idempotent. A second `kmscon_input_device_sleep`
makes no call and changes nothing. After a `kmscon_input_device_wake_up` that
returned 0, a second one, whatever the environment would answer, returns 0,
makes no call (no open, no LED query, no registration) and leaves the device,
its keyboard state included, as it is; and with the same answers of the
environment two wake-ups leave the same device as one, also when they fail. A
second `kmscon_input_sleep` or `kmscon_input_wake_up` on the manager makes no
call and leaves the manager, device list included, as the first left it. -/
theorem sleep_wake_idempotent (eloop : Option Nat) (device : kmscon_input_device)
    (input : kmscon_input) (env env2 : wake_env) (menv menv2 : Nat → wake_env) :
    kmscon_input_device_sleep (kmscon_input_device_sleep device).1 =
      ((kmscon_input_device_sleep device).1, []) ∧
    ((kmscon_input_device_wake_up eloop device env).ret = 0 →
      kmscon_input_device_wake_up eloop (kmscon_input_device_wake_up eloop device env).device
          env2 =
        { ret := 0, device := (kmscon_input_device_wake_up eloop device env).device,
          calls := [] }) ∧
    (kmscon_input_device_wake_up eloop (kmscon_input_device_wake_up eloop device env).device
        env).device = (kmscon_input_device_wake_up eloop device env).device ∧
    kmscon_input_sleep (kmscon_input_sleep input).1 = ((kmscon_input_sleep input).1, []) ∧
    kmscon_input_wake_up (kmscon_input_wake_up input menv).1 menv2 =
      ((kmscon_input_wake_up input menv).1, []) := by
  refine ⟨?_, ?_, ?_, ?_, ?_⟩
  · unfold kmscon_input_device_sleep
    by_cases h : device.rfd < 0
    · simp [h]
    · simp [h]
  · intro hret
    cases eloop with
    | none => simp [kmscon_input_device_wake_up, EINVAL] at hret
    | some loop =>
      have hopen : 0 ≤ (kmscon_input_device_wake_up (some loop) device env).device.rfd := by
        revert hret
        unfold kmscon_input_device_wake_up
        by_cases h : 0 ≤ device.rfd
        · simp [h]
        · cases ho : env.open_node with
          | fail e => simp [h, ho]
          | ok n =>
            simp only [h, ho]
            split_ifs <;> simp_all
      generalize (kmscon_input_device_wake_up (some loop) device env).device = d at hopen
      simp [kmscon_input_device_wake_up, hopen]
  · cases eloop with
    | none => simp [kmscon_input_device_wake_up]
    | some loop =>
      unfold kmscon_input_device_wake_up
      by_cases h : 0 ≤ device.rfd
      · simp [h]
      · cases ho : env.open_node with
        | fail e => simp [h, ho]
        | ok n =>
          simp only [h, ho]
          split_ifs <;> simp_all [kmscon_kbd_reset, kbd_dev_reset_idem]
  · unfold kmscon_input_sleep
    by_cases h : input.state = input_state.INPUT_ASLEEP
    · simp [h]
    · simp [h]
  · unfold kmscon_input_wake_up
    by_cases h : input.state = input_state.INPUT_AWAKE
    · simp [h]
    · simp [h]

/-- Witness for C8: a second wake-up after a successful one. -/
theorem sleep_wake_idempotent_witness :
    kmscon_input_device_wake_up (some 7)
        (kmscon_input_device_wake_up (some 7) (asleep_device "a") (wake_env_ok 5 9)).device
        wake_env_fail =
      { ret := 0,
        device :=
          (kmscon_input_device_wake_up (some 7) (asleep_device "a") (wake_env_ok 5 9)).device,
        calls := [] } :=
  (sleep_wake_idempotent (some 7) (asleep_device "a") kmscon_input_new (wake_env_ok 5 9)
    wake_env_fail (fun _ => wake_env_fail) (fun _ => wake_env_fail)).2.1 (by decide)

theorem remove_device_head (input : kmscon_input) (d : kmscon_input_device) (node : String)
    (h : d.devnode = node) :
    remove_device { input with devices := d :: input.devices } node =
      (input, kmscon_input_device_free d) := by
  simp [remove_device, remove_device_loop, h]

theorem wake_up_success (eloop : Option Nat) (d : kmscon_input_device) (env : wake_env)
    (hret : (kmscon_input_device_wake_up eloop d env).ret = 0)
    (hrfd : d.rfd < 0) (hkeys : d.features &&& FEATURE_HAS_KEYS ≠ 0) :
    0 ≤ (kmscon_input_device_wake_up eloop d env).device.rfd ∧
    (kmscon_input_device_wake_up eloop d env).device.fd.isSome = true := by
  revert hret
  cases eloop with
  | none => simp [kmscon_input_device_wake_up, EINVAL]
  | some loop =>
    unfold kmscon_input_device_wake_up
    have h : ¬ 0 ≤ d.rfd := by omega
    cases ho : env.open_node with
    | fail e => simp [h, ho]
    | ok n =>
      simp only [h, ho]
      split_ifs <;> simp_all

/-- C9. Hot-plug add then remove is a round trip. For every manager, AWAKE or
ASLEEP, and every udev device that `add_device` accepts (node present, seat
equal to the configured one or absent with seat `seat0`, probe reports
`HAS_KEYS`, the device object can be allocated, and the wake-up returns 0 when
the manager is AWAKE): `add_device` links exactly one new device for that node
at the head of the list, open and loop-registered when the manager is AWAKE and
closed and unregistered when it is ASLEEP; `remove_device` with the same node
path then gives back the manager as it was before the add, the device list
unchanged in content and order, and makes exactly the calls that deregister and
close the new device's fd when it was open and none otherwise. From a manager
without devices the add yields one device and the remove yields none. -/
theorem add_remove_round_trip (conf_seat : String) (input : kmscon_input)
    (udev_dev : udev_device) (env : add_env) (node : String)
    (hnode : udev_dev.devnode = some node)
    (hseat : udev_dev.ID_SEAT = some conf_seat ∨
      (udev_dev.ID_SEAT = none ∧ conf_seat = "seat0"))
    (hkeys : (probe_device_features node env.probe).1 &&& FEATURE_HAS_KEYS ≠ 0)
    (halloc : env.alloc_ret = 0)
    (hwake : input.state = input_state.INPUT_AWAKE →
      (kmscon_input_device_wake_up input.eloop (fresh_device node env) env.wake).ret = 0) :
    (add_device conf_seat input udev_dev env).1 =
      { input with devices := linked_device input node env :: input.devices } ∧
    (linked_device input node env).devnode = node ∧
    (input.state = input_state.INPUT_AWAKE →
      0 ≤ (linked_device input node env).rfd ∧
      (linked_device input node env).fd.isSome = true) ∧
    (input.state = input_state.INPUT_ASLEEP →
      (linked_device input node env).rfd = -1 ∧ (linked_device input node env).fd = none) ∧
    remove_device (add_device conf_seat input udev_dev env).1 node =
      (input,
       if input.state = input_state.INPUT_AWAKE then
         [sys_call.ev_eloop_rm_fd (linked_device input node env).fd,
          sys_call.sys_close (linked_device input node env).rfd]
       else []) ∧
    (input.devices = [] →
      (add_device conf_seat input udev_dev env).1.devices.length = 1 ∧
      (remove_device (add_device conf_seat input udev_dev env).1 node).1.devices.length = 0) := by
  have hseat' : (match udev_dev.ID_SEAT with
      | none => "seat0"
      | some seat => seat) = conf_seat := by
    rcases hseat with h | ⟨h, h0⟩
    · rw [h]
    · rw [h, h0]
  have hadd : (add_device conf_seat input udev_dev env).1 =
      { input with devices := linked_device input node env :: input.devices } := by
    unfold add_device
    simp only [hnode, hseat', ne_eq, not_true_eq_false, if_false, kmscon_input_device_new,
      halloc]
    rw [if_neg hkeys]
    by_cases hst : input.state = input_state.INPUT_AWAKE
    · have hw := hwake hst
      simp only [fresh_device] at hw
      simp [hst, hw, linked_device, fresh_device]
    · simp [hst, linked_device, fresh_device]
  have hdn : (linked_device input node env).devnode = node := by
    unfold linked_device
    by_cases hst : input.state = input_state.INPUT_AWAKE
    · simp only [hst, if_true]
      rw [(woken_devnode _ _ _).1]
      rfl
    · simp only [hst, if_false]
      rfl
  have hawake : input.state = input_state.INPUT_AWAKE →
      0 ≤ (linked_device input node env).rfd ∧
      (linked_device input node env).fd.isSome = true := by
    intro hst
    simp only [linked_device, hst, if_true]
    exact wake_up_success _ _ _ (hwake hst) (by simp [fresh_device]) hkeys
  have hrem : remove_device (add_device conf_seat input udev_dev env).1 node =
      (input,
       if input.state = input_state.INPUT_AWAKE then
         [sys_call.ev_eloop_rm_fd (linked_device input node env).fd,
          sys_call.sys_close (linked_device input node env).rfd]
       else []) := by
    rw [hadd, remove_device_head input _ node hdn]
    by_cases hst : input.state = input_state.INPUT_AWAKE
    · have h0 : ¬ (linked_device input node env).rfd < 0 := by
        have := (hawake hst).1
        omega
      simp [kmscon_input_device_free, kmscon_input_device_sleep, h0, hst]
    · simp [kmscon_input_device_free, kmscon_input_device_sleep, hst, linked_device,
        fresh_device]
  refine ⟨hadd, hdn, hawake, ?_, hrem, ?_⟩
  · intro hst
    have hne : ¬ input.state = input_state.INPUT_AWAKE := by rw [hst]; decide
    simp [linked_device, hne, fresh_device]
  · intro hempty
    rw [hrem, hadd]
    simp [hempty]

/-- Witness for C9: a keyboard is plugged into an AWAKE manager without
devices and unplugged again. -/
theorem add_remove_round_trip_witness :
    remove_device
        (add_device "seat0"
          { ref := 1, state := input_state.INPUT_AWAKE, devices := [], eloop := some 7,
            monitor_fd := some 8 }
          (udev_keyboard "/dev/input/event0") (add_env_keyboard 5 9)).1
        "/dev/input/event0" =
      ({ ref := 1, state := input_state.INPUT_AWAKE, devices := [], eloop := some 7,
         monitor_fd := some 8 },
       [sys_call.ev_eloop_rm_fd (some 9), sys_call.sys_close 5]) := by
  rw [(add_remove_round_trip "seat0" _ (udev_keyboard "/dev/input/event0")
    (add_env_keyboard 5 9) "/dev/input/event0" rfl (Or.inl rfl) (by decide) rfl
    (fun _ => by decide)).2.2.2.2.1]
  decide

/-- C10, as stated, fails: a device without `HAS_KEYS` whose open succeeds with
descriptor 5 comes back from `kmscon_input_device_wake_up` with `rfd = 5`, and
no `close` is among the calls made. -/
theorem wake_up_without_keys_keeps_fd_open :
    (kmscon_input_device_wake_up (some 7) (silent_device "a") (wake_env_ok 5 9)).ret = 0 ∧
    (kmscon_input_device_wake_up (some 7) (silent_device "a") (wake_env_ok 5 9)).device.rfd
      = 5 ∧
    sys_call.sys_close 5 ∉
      (kmscon_input_device_wake_up (some 7) (silent_device "a") (wake_env_ok 5 9)).calls := by
  decide

/-- C10, amended. For a sleeping device whose feature mask does not contain
`HAS_KEYS`, a `kmscon_input_device_wake_up` on a connected manager whose open
succeeds with descriptor `n` returns 0, keeps the descriptor open in `rfd`,
and makes no other call than the open: nothing is registered with the event
loop, nothing is closed, and the registration handle and the keyboard state
are as before. -/
theorem wake_up_without_keys (loop : Nat) (device : kmscon_input_device) (env : wake_env)
    (n : Nat) (hkeys : device.features &&& FEATURE_HAS_KEYS = 0) (hrfd : device.rfd < 0)
    (hopen : env.open_node = open_result.ok n) :
    kmscon_input_device_wake_up (some loop) device env =
      { ret := 0, device := { device with rfd := (n : Int) },
        calls := [sys_call.sys_open device.devnode] } := by
  unfold kmscon_input_device_wake_up
  have h : ¬ 0 ≤ device.rfd := by omega
  simp [h, hopen, hkeys]

/-- Witness for C10, amended: a device with LEDs but no keys. -/
theorem wake_up_without_keys_witness :
    kmscon_input_device_wake_up (some 7) (silent_device "a") (wake_env_ok 5 9) =
      { ret := 0, device := { silent_device "a" with rfd := 5 },
        calls := [sys_call.sys_open "a"] } :=
  wake_up_without_keys 7 (silent_device "a") (wake_env_ok 5 9) 5 (by decide) (by decide) rfl

theorem add_device_result (conf_seat : String) (input : kmscon_input)
    (udev_dev : udev_device) (env : add_env) :
    (add_device conf_seat input udev_dev env).1 = input ∨
    ∃ node, (probe_device_features node env.probe).1 &&& FEATURE_HAS_KEYS ≠ 0 ∧
      (input.state = input_state.INPUT_AWAKE →
        (kmscon_input_device_wake_up input.eloop (fresh_device node env) env.wake).ret = 0) ∧
      (add_device conf_seat input udev_dev env).1 =
        { input with devices := linked_device input node env :: input.devices } := by
  unfold add_device
  cases hn : udev_dev.devnode with
  | none => exact Or.inl rfl
  | some node =>
    simp only []
    by_cases hseat : (match udev_dev.ID_SEAT with
        | none => "seat0"
        | some seat => seat) ≠ conf_seat
    · rw [if_pos hseat]; exact Or.inl rfl
    · rw [if_neg hseat]
      by_cases hkeys : (probe_device_features node env.probe).1 &&& FEATURE_HAS_KEYS = 0
      · rw [if_pos hkeys]; exact Or.inl rfl
      · rw [if_neg hkeys]
        unfold kmscon_input_device_new
        by_cases ha : env.alloc_ret ≠ 0
        · rw [if_pos ha]; exact Or.inl rfl
        · rw [if_neg ha]
          simp only []
          by_cases hst : input.state = input_state.INPUT_AWAKE
          · rw [if_pos hst]
            by_cases hret : (kmscon_input_device_wake_up input.eloop
                { features := (probe_device_features node env.probe).1, rfd := -1,
                  devnode := node, fd := none, kbd := kmscon_kbd_new } env.wake).ret ≠ 0
            · rw [if_pos hret]; exact Or.inl rfl
            · rw [if_neg hret]
              refine Or.inr ⟨node, hkeys, fun _ => by simpa [fresh_device] using hret, ?_⟩
              simp only [linked_device, if_pos hst, fresh_device]
          · rw [if_neg hst]
            refine Or.inr ⟨node, hkeys, fun h => absurd h hst, ?_⟩
            simp only [linked_device, if_neg hst, fresh_device]

theorem linked_device_ok (input : kmscon_input) (node : String) (env : add_env)
    (hkeys : (probe_device_features node env.probe).1 &&& FEATURE_HAS_KEYS ≠ 0)
    (hwake : input.state = input_state.INPUT_AWAKE →
      (kmscon_input_device_wake_up input.eloop (fresh_device node env) env.wake).ret = 0) :
    device_ok input.state (linked_device input node env) := by
  unfold linked_device
  by_cases hst : input.state = input_state.INPUT_AWAKE
  · rw [if_pos hst]
    refine ⟨?_, fun _ => ?_, fun hs => ?_⟩
    · rw [(woken_devnode _ _ _).2]; exact hkeys
    · exact wake_up_success _ _ _ (hwake hst) (by simp [fresh_device]) hkeys
    · rw [hst] at hs; cases hs
  · rw [if_neg hst]
    exact ⟨hkeys, fun hs => absurd hs hst, fun _ => ⟨by simp [fresh_device], rfl⟩⟩

theorem add_device_ok (conf_seat : String) (input : kmscon_input) (udev_dev : udev_device)
    (env : add_env) (h : input_ok input) :
    input_ok (add_device conf_seat input udev_dev env).1 ∧
    (add_device conf_seat input udev_dev env).1.state = input.state := by
  rcases add_device_result conf_seat input udev_dev env with e | ⟨node, hkeys, hwake, e⟩
  · rw [e]; exact ⟨h, rfl⟩
  · rw [e]
    refine ⟨?_, rfl⟩
    intro d hd
    simp only [List.mem_cons] at hd
    rcases hd with rfl | hd
    · exact linked_device_ok input node env hkeys hwake
    · exact h d hd

theorem remove_device_loop_mem (node : String) :
    ∀ (iter before : List kmscon_input_device) (d : kmscon_input_device),
      d ∈ (remove_device_loop node before iter).1 → d ∈ before ++ iter := by
  intro iter
  induction iter with
  | nil => intro before d hd; simpa [remove_device_loop] using hd
  | cons x next ih =>
    intro before d hd
    unfold remove_device_loop at hd
    by_cases hx : x.devnode = node
    · simp only [hx, if_true] at hd
      simp only [List.mem_append, List.mem_cons] at hd ⊢
      tauto
    · simp only [hx, if_false] at hd
      have := ih (before ++ [x]) d hd
      simpa using this

theorem remove_device_ok (input : kmscon_input) (node : String) (h : input_ok input) :
    input_ok (remove_device input node).1 ∧ (remove_device input node).1.state = input.state := by
  unfold remove_device
  by_cases he : input.devices = []
  · rw [if_pos he]
    exact ⟨h, rfl⟩
  · rw [if_neg he]
    refine ⟨?_, rfl⟩
    intro d hd
    have := remove_device_loop_mem node input.devices [] d hd
    exact h d (by simpa using this)

theorem sleep_loop_ok :
    ∀ (l : List kmscon_input_device),
      (∀ d ∈ l, device_ok input_state.INPUT_AWAKE d) →
      ∀ d ∈ (sleep_loop l).1, device_ok input_state.INPUT_ASLEEP d := by
  intro l
  induction l with
  | nil => intro _ d hd; simp [sleep_loop] at hd
  | cons x next ih =>
    intro h d hd
    simp only [sleep_loop, List.mem_cons] at hd
    rcases hd with rfl | hd
    · have hx := h x (List.mem_cons_self _ _)
      have h0 : ¬ x.rfd < 0 := by
        have := (hx.2.1 rfl).1
        omega
      refine ⟨?_, fun hs => (by cases hs), fun _ => ?_⟩
      · simpa [kmscon_input_device_sleep, h0] using hx.1
      · simp [kmscon_input_device_sleep, h0]
    · exact ih (fun d hd => h d (List.mem_cons_of_mem _ hd)) d hd

theorem wake_up_loop_ok (eloop : Option Nat) (env : Nat → wake_env) :
    ∀ (iter : List kmscon_input_device) (i : Nat) (before : List kmscon_input_device),
      (∀ d ∈ before, device_ok input_state.INPUT_AWAKE d) →
      (∀ d ∈ iter, device_ok input_state.INPUT_ASLEEP d) →
      ∀ d ∈ (wake_up_loop eloop env i before iter).1, device_ok input_state.INPUT_AWAKE d := by
  intro iter
  induction iter with
  | nil => intro i before hb _ d hd; exact hb d (by simpa [wake_up_loop] using hd)
  | cons x next ih =>
    intro i before hb hi d hd
    unfold wake_up_loop at hd
    have hnext : ∀ d ∈ next, device_ok input_state.INPUT_ASLEEP d :=
      fun d hd => hi d (List.mem_cons_of_mem _ hd)
    by_cases hret : (kmscon_input_device_wake_up eloop x (env i)).ret = 0
    · simp only [hret, ne_eq, not_true_eq_false, if_false] at hd
      refine ih (i + 1) _ ?_ hnext d hd
      intro d' hd'
      simp only [List.mem_append, List.mem_singleton] at hd'
      rcases hd' with hd' | rfl
      · exact hb d' hd'
      · have hx := hi x (List.mem_cons_self _ _)
        have hw := wake_up_success eloop x (env i) hret (hx.2.2 rfl).1 hx.1
        refine ⟨?_, fun _ => hw, fun hs => by cases hs⟩
        rw [(woken_devnode _ _ _).2]; exact hx.1
    · simp only [hret, ne_eq, not_false_eq_true, if_true] at hd
      exact ih (i + 1) before hb hnext d hd

theorem add_initial_devices_loop_ok (conf_seat : String) :
    ∀ (items : List (Option udev_device × add_env)) (input : kmscon_input),
      input_ok input →
      input_ok (add_initial_devices_loop conf_seat input items).1 ∧
      (add_initial_devices_loop conf_seat input items).1.state = input.state := by
  intro items
  induction items with
  | nil => intro input h; exact ⟨h, rfl⟩
  | cons item items ih =>
    intro input h
    obtain ⟨u, env⟩ := item
    cases u with
    | none =>
      simp only [add_initial_devices_loop]
      exact ih input h
    | some u =>
      simp only [add_initial_devices_loop]
      obtain ⟨h1, h2⟩ := add_device_ok conf_seat input u env h
      obtain ⟨h3, h4⟩ := ih _ h1
      exact ⟨h3, h4.trans h2⟩

theorem connect_eloop_ok (conf_seat : String) (input : kmscon_input) (eloop : Nat)
    (env : connect_env) (h : input_ok input) :
    input_ok (kmscon_input_connect_eloop conf_seat input eloop env).input := by
  unfold kmscon_input_connect_eloop
  split_ifs with h1 h2
  · exact h
  · exact h
  · simp only
    unfold add_initial_devices
    split_ifs
    · exact h
    · exact h
    · exact h
    · exact h
    · exact (add_initial_devices_loop_ok conf_seat env.enumerate.entries
        { ({ input with monitor_fd := some env.new_fd.fd }) with eloop := some eloop } h).1

theorem reachable_input_ok (conf_seat : String) (input : kmscon_input)
    (h : reachable conf_seat input) : input_ok input := by
  induction h with
  | new => intro d hd; simp [kmscon_input_new] at hd
  | connect input eloop env _ ih => exact connect_eloop_ok conf_seat input eloop env ih
  | add input u env _ ih => exact (add_device_ok conf_seat input u env ih).1
  | remove input node _ ih => exact (remove_device_ok input node ih).1
  | sleep input _ ih =>
    unfold kmscon_input_sleep
    by_cases hs : input.state = input_state.INPUT_ASLEEP
    · simp only [hs, if_true]; exact ih
    · simp only [hs, if_false]
      have ha : input.state = input_state.INPUT_AWAKE := by
        cases hst : input.state with
        | INPUT_ASLEEP => exact absurd hst hs
        | INPUT_AWAKE => rfl
      exact sleep_loop_ok input.devices (fun d hd => ha ▸ ih d hd)
  | wake_up input env _ ih =>
    unfold kmscon_input_wake_up
    by_cases hs : input.state = input_state.INPUT_AWAKE
    · simp only [hs, if_true]; exact ih
    · simp only [hs, if_false]
      have ha : input.state = input_state.INPUT_ASLEEP := by
        cases hst : input.state with
        | INPUT_ASLEEP => rfl
        | INPUT_AWAKE => exact absurd hst hs
      exact wake_up_loop_ok input.eloop env input.devices 0 []
        (fun d hd => by simp at hd) (fun d hd => ha ▸ ih d hd)
  | disconnect input _ ih =>
    unfold kmscon_input_disconnect_eloop
    by_cases hs : input.eloop.isNone = true
    · simp only [hs, if_true]; exact ih
    · simp only [hs]
      intro d hd
      simp at hd

/-- C6. In every manager state reachable from `kmscon_input_new` by connect,
hot-plug `add_device`, `remove_device`, `kmscon_input_sleep`,
`kmscon_input_wake_up` and disconnect, with every outcome of the environment
arbitrary, each device of the list has `rfd >= 0` iff its loop registration is
present iff the manager is AWAKE. -/
theorem reachable_fd_iff_registered_iff_awake (conf_seat : String) (input : kmscon_input)
    (h : reachable conf_seat input) :
    ∀ d ∈ input.devices,
      (0 ≤ d.rfd ↔ d.fd.isSome = true) ∧
      (d.fd.isSome = true ↔ input.state = input_state.INPUT_AWAKE) := by
  intro d hd
  obtain ⟨-, ha, hs⟩ := reachable_input_ok conf_seat input h d hd
  cases hst : input.state with
  | INPUT_ASLEEP =>
    obtain ⟨h1, h2⟩ := hs hst
    have h3 : ¬ 0 ≤ d.rfd := by omega
    simp [h2, h3]
  | INPUT_AWAKE =>
    obtain ⟨h1, h2⟩ := ha hst
    simp [h1, h2]

/-- Witness for C6: the manager created, connected with one keyboard present
and woken up is reachable, and the keyboard in its list is open (descriptor 5)
and registered (handle 9). -/
theorem reachable_fd_iff_registered_iff_awake_witness :
    (0 ≤ (5 : Int) ↔ (some 9 : Option Nat).isSome = true) ∧
    ((some 9 : Option Nat).isSome = true ↔
      woken_manager.state = input_state.INPUT_AWAKE) :=
  reachable_fd_iff_registered_iff_awake "seat0" woken_manager
    (reachable.wake_up _ _ (reachable.connect _ _ _ reachable.new))
    { features := FEATURE_HAS_KEYS, rfd := 5, devnode := "/dev/input/event0", fd := some 9,
      kbd := kbd_dev_new }
    (by decide)

/-! ## Theorems: keysyms under Capslock and Numlock -/

/-- One call of `kbd_dev_process_key` on an in-range keycode without
modifier-map entry, for a key state other than 0. -/
theorem process_key_lookup (ucs : Nat → Nat) (kbd : kbd_dev) (s code : Nat)
    (hc : code < KEYTAB_SIZE) (hm : (modmap_at code).mod = 0) (hs : s ≠ 0) :
    kbd_dev_process_key ucs kbd s code =
      if layered_lookup kbd.mods code = 0 then { ret := -ENOKEY, kbd := kbd, out := none }
      else
        { ret := 0, kbd := kbd,
          out := some ⟨code, layered_lookup kbd.mods code,
            unicode_of ucs (layered_lookup kbd.mods code), kbd.mods⟩ } := by
  unfold kbd_dev_process_key layered_lookup unicode_of
  rw [if_neg (by omega), if_neg (by simpa using hm), if_neg hs]
  generalize keytab_numlock.getD code 0 = a
  generalize keytab_shift.getD code 0 = b
  generalize keytab_capslock.getD code 0 = c
  generalize keytab_normal.getD code 0 = n
  by_cases h2 : kbd.mods &&& UTERM_MOD2_MASK = 0 <;>
  by_cases hs : kbd.mods &&& UTERM_SHIFT_MASK = 0 <;>
  by_cases hl : kbd.mods &&& UTERM_LOCK_MASK = 0 <;>
  cases a <;> cases b <;> cases c <;> cases n <;>
  simp [h2, hs, hl, List.find?_cons]

/-- One call of `kbd_dev_process_key` on a keycode outside the tables. -/
theorem process_key_out_of_range (ucs : Nat → Nat) (kbd : kbd_dev) (s code : Nat)
    (hc : KEYTAB_SIZE ≤ code) :
    kbd_dev_process_key ucs kbd s code = { ret := -ENOKEY, kbd := kbd, out := none } := by
  unfold kbd_dev_process_key
  rw [if_pos hc]

set_option maxRecDepth 100000 in
theorem letter_keys_spec :
    ∀ p ∈ letter_keys,
      p.1 < KEYTAB_SIZE ∧ (modmap_at p.1).mod = 0 ∧
      layered_lookup UTERM_LOCK_MASK p.1 = p.2 ∧ p.2 ≠ 0 := by
  decide

set_option maxRecDepth 100000 in
theorem non_letter_lookup :
    ∀ code, code < KEYTAB_SIZE → (modmap_at code).mod = 0 →
      code ∉ letter_keys.map Prod.fst →
      layered_lookup UTERM_LOCK_MASK code = layered_lookup 0 code := by
  decide

/-- A press-like call of `kbd_dev_process_key` on a non-modifier key whose
layered lookup is the non-zero keysym `sym`. -/
theorem process_key_press (ucs : Nat → Nat) (ref mods s code sym : Nat)
    (hc : code < KEYTAB_SIZE) (hm : (modmap_at code).mod = 0) (hs : s ≠ 0)
    (hl : layered_lookup mods code = sym) (h0 : sym ≠ 0) :
    kbd_dev_process_key ucs ⟨ref, mods⟩ s code =
      { ret := 0, kbd := ⟨ref, mods⟩, out := some ⟨code, sym, unicode_of ucs sym, mods⟩ } := by
  rw [process_key_lookup ucs ⟨ref, mods⟩ s code hc hm hs]
  simp only [hl, if_neg h0]

/-- One call of `kbd_dev_process_key` on a LOCK modifier key, in full. -/
theorem process_key_lock_full (ucs : Nat → Nat) (ref mods s code mask mods2 : Nat)
    (hkey : (code, mask) ∈ lock_modifier_keys)
    (h2 : (if s = 1 then mods ^^^ mask else mods) = mods2) :
    kbd_dev_process_key ucs ⟨ref, mods⟩ s code =
      { ret := -ENOKEY, kbd := ⟨ref, mods2⟩, out := none } := by
  obtain ⟨hc, hmap, hm0⟩ := lock_modifier_keys_spec (code, mask) hkey
  have h := process_key_lock_step ucs ⟨ref, mods⟩ s code mask hc hmap hm0
  rw [process_key_modifier_step ucs ⟨ref, mods⟩ s code hc (by rw [hmap]; exact hm0)] at h ⊢
  simp only at h
  rw [h, h2]

/-- One call of `kbd_dev_process_key` on a NORMAL modifier key, in full. -/
theorem process_key_normal_full (ucs : Nat → Nat) (ref mods s code mask mods2 : Nat)
    (hkey : (code, mask) ∈ normal_modifier_keys)
    (h2 : (if s = 1 then mods ||| mask
      else if s = 0 then mods &&& u32_not mask else mods) = mods2) :
    kbd_dev_process_key ucs ⟨ref, mods⟩ s code =
      { ret := -ENOKEY, kbd := ⟨ref, mods2⟩, out := none } := by
  obtain ⟨hc, hmap, hm0, -⟩ := normal_modifier_keys_spec (code, mask) hkey
  have h := process_key_normal_step ucs ⟨ref, mods⟩ s code mask hc hmap hm0
  rw [process_key_modifier_step ucs ⟨ref, mods⟩ s code hc (by rw [hmap]; exact hm0)] at h ⊢
  simp only at h
  rw [h, h2]

theorem process_keys_cons_event (ucs : Nat → Nat) (kbd kbd2 : kbd_dev) (s code : Nat)
    (e : uterm_input_event) (keys : List (Nat × Nat))
    (h : kbd_dev_process_key ucs kbd s code = { ret := 0, kbd := kbd2, out := some e }) :
    process_keys ucs ((s, code) :: keys) kbd =
      ((process_keys ucs keys kbd2).1, e :: (process_keys ucs keys kbd2).2) := by
  simp [process_keys, h]

theorem process_keys_cons_no_event (ucs : Nat → Nat) (kbd kbd2 : kbd_dev) (s code : Nat)
    (keys : List (Nat × Nat))
    (h : kbd_dev_process_key ucs kbd s code = { ret := -ENOKEY, kbd := kbd2, out := none }) :
    process_keys ucs ((s, code) :: keys) kbd = process_keys ucs keys kbd2 := by
  simp [process_keys, h]

set_option maxRecDepth 100000 in
/-- C11. Capslock affects letters only. With `LOCK` the only modifier bit set, a
press of each of the 26 letter keys gives the event with the upper-case keysym
and `mods = LOCK`; a press of any other non-modifier keycode returns what it
returns with no modifier set, the same keysym in particular (`KEY_1` gives
`XK_1`), with `mods = LOCK`. The trace Capslock press, Capslock release,
`KEY_A` press, `KEY_1` press from `mods = 0` gives the events `XK_A` and `XK_1`
with `mods = LOCK`; a further Capslock press and `KEY_A` press give `XK_a` with
`mods = 0`. -/
theorem capslock_affects_letters_only (KeysymToUcs4 : Nat → Nat) (ref : Nat) :
    (∀ p ∈ letter_keys,
      kbd_dev_process_key KeysymToUcs4 ⟨ref, UTERM_LOCK_MASK⟩ 1 p.1 =
        { ret := 0, kbd := ⟨ref, UTERM_LOCK_MASK⟩,
          out := some ⟨p.1, p.2, unicode_of KeysymToUcs4 p.2, UTERM_LOCK_MASK⟩ }) ∧
    (∀ code, code ∉ modifier_keys → code ∉ letter_keys.map Prod.fst →
      (kbd_dev_process_key KeysymToUcs4 ⟨ref, UTERM_LOCK_MASK⟩ 1 code).ret =
        (kbd_dev_process_key KeysymToUcs4 ⟨ref, 0⟩ 1 code).ret ∧
      (kbd_dev_process_key KeysymToUcs4 ⟨ref, UTERM_LOCK_MASK⟩ 1 code).out =
        (kbd_dev_process_key KeysymToUcs4 ⟨ref, 0⟩ 1 code).out.map
          (fun e => { e with mods := UTERM_LOCK_MASK })) ∧
    kbd_dev_process_key KeysymToUcs4 ⟨ref, UTERM_LOCK_MASK⟩ 1 KEY_1 =
      { ret := 0, kbd := ⟨ref, UTERM_LOCK_MASK⟩,
        out := some ⟨KEY_1, XK_1, unicode_of KeysymToUcs4 XK_1, UTERM_LOCK_MASK⟩ } ∧
    process_keys KeysymToUcs4
        [(1, KEY_CAPSLOCK), (0, KEY_CAPSLOCK), (1, KEY_A), (1, KEY_1)] ⟨ref, 0⟩ =
      (⟨ref, UTERM_LOCK_MASK⟩,
       [⟨KEY_A, XK_A, unicode_of KeysymToUcs4 XK_A, UTERM_LOCK_MASK⟩,
        ⟨KEY_1, XK_1, unicode_of KeysymToUcs4 XK_1, UTERM_LOCK_MASK⟩]) ∧
    process_keys KeysymToUcs4 [(1, KEY_CAPSLOCK), (1, KEY_A)] ⟨ref, UTERM_LOCK_MASK⟩ =
      (⟨ref, 0⟩, [⟨KEY_A, XK_a, unicode_of KeysymToUcs4 XK_a, 0⟩]) := by
  refine ⟨?_, ?_, ?_, ?_, ?_⟩
  · intro p hp
    obtain ⟨hc, hm, hl, h0⟩ := letter_keys_spec p hp
    exact process_key_press KeysymToUcs4 ref UTERM_LOCK_MASK 1 p.1 p.2 hc hm (by decide) hl h0
  · intro code hmod hlet
    by_cases hc : code < KEYTAB_SIZE
    · have hm : (modmap_at code).mod = 0 := by
        by_contra h
        exact hmod ((modifier_keys_iff code).2 ⟨hc, h⟩)
      rw [process_key_lookup KeysymToUcs4 ⟨ref, UTERM_LOCK_MASK⟩ 1 code hc hm (by decide),
        process_key_lookup KeysymToUcs4 ⟨ref, 0⟩ 1 code hc hm (by decide)]
      simp only [non_letter_lookup code hc hm hlet]
      by_cases h0 : layered_lookup 0 code = 0
      · simp [h0]
      · simp [h0]
    · rw [process_key_out_of_range KeysymToUcs4 _ 1 code (by omega),
        process_key_out_of_range KeysymToUcs4 _ 1 code (by omega)]
      exact ⟨rfl, rfl⟩
  · exact process_key_press KeysymToUcs4 ref UTERM_LOCK_MASK 1 KEY_1 XK_1 (by decide)
      (by decide) (by decide) (by decide) (by decide)
  · rw [process_keys_cons_no_event KeysymToUcs4 _ _ _ _ _
        (process_key_lock_full KeysymToUcs4 ref 0 1 KEY_CAPSLOCK UTERM_LOCK_MASK
          UTERM_LOCK_MASK (by decide) (by decide)),
      process_keys_cons_no_event KeysymToUcs4 _ _ _ _ _
        (process_key_lock_full KeysymToUcs4 ref UTERM_LOCK_MASK 0 KEY_CAPSLOCK
          UTERM_LOCK_MASK UTERM_LOCK_MASK (by decide) (by decide)),
      process_keys_cons_event KeysymToUcs4 _ _ _ _ _ _
        (process_key_press KeysymToUcs4 ref UTERM_LOCK_MASK 1 KEY_A XK_A (by decide)
          (by decide) (by decide) (by decide) (by decide)),
      process_keys_cons_event KeysymToUcs4 _ _ _ _ _ _
        (process_key_press KeysymToUcs4 ref UTERM_LOCK_MASK 1 KEY_1 XK_1 (by decide)
          (by decide) (by decide) (by decide) (by decide))]
    rfl
  · rw [process_keys_cons_no_event KeysymToUcs4 _ _ _ _ _
        (process_key_lock_full KeysymToUcs4 ref UTERM_LOCK_MASK 1 KEY_CAPSLOCK
          UTERM_LOCK_MASK 0 (by decide) (by decide)),
      process_keys_cons_event KeysymToUcs4 _ _ _ _ _ _
        (process_key_press KeysymToUcs4 ref 0 1 KEY_A XK_a (by decide)
          (by decide) (by decide) (by decide) (by decide))]
    rfl

set_option maxRecDepth 100000 in
/-- Witness for C11: the letter key `KEY_Q` pressed with `LOCK` set. -/
theorem capslock_affects_letters_only_witness :
    kbd_dev_process_key id ⟨1, UTERM_LOCK_MASK⟩ 1 KEY_Q =
      { ret := 0, kbd := ⟨1, UTERM_LOCK_MASK⟩,
        out := some ⟨KEY_Q, XK_Q, unicode_of id XK_Q, UTERM_LOCK_MASK⟩ } :=
  (capslock_affects_letters_only id 1).1 (KEY_Q, XK_Q) (by decide)

set_option maxRecDepth 100000 in
theorem keypad_keys_spec :
    ∀ p ∈ keypad_keys,
      p.1 < KEYTAB_SIZE ∧ (modmap_at p.1).mod = 0 ∧
      keytab_numlock.getD p.1 0 = XK_KP_0 + p.2.1 ∧ keytab_shift.getD p.1 0 = 0 ∧
      keytab_capslock.getD p.1 0 = 0 ∧ keytab_normal.getD p.1 0 = p.2.2 ∧ p.2.2 ≠ 0 := by
  decide

theorem layered_lookup_keypad (mods : Nat) (p : Nat × Nat × Nat) (hp : p ∈ keypad_keys) :
    layered_lookup mods p.1 =
      if mods &&& UTERM_MOD2_MASK ≠ 0 then XK_KP_0 + p.2.1 else p.2.2 := by
  obtain ⟨-, -, hn, hs, hl, hnorm, h0⟩ := keypad_keys_spec p hp
  unfold layered_lookup
  rw [hn, hs, hl, hnorm]
  have hk : XK_KP_0 + p.2.1 ≠ 0 := by simp [XK_KP_0]
  by_cases h2 : mods &&& UTERM_MOD2_MASK = 0 <;>
  by_cases hsh : mods &&& UTERM_SHIFT_MASK = 0 <;>
  by_cases hlk : mods &&& UTERM_LOCK_MASK = 0 <;>
  simp [h2, hsh, hlk, List.find?_cons, hk, h0]

set_option maxRecDepth 100000 in
/-- C12. Numlock switches the keypad. For every keypad digit key `KEY_KPd` and
every modifier mask: a press with `MOD2` set gives the keysym `XK_KP_0 + d`, a
press with `MOD2` clear gives the navigation keysym of the normal table
(`KP_Insert`, `KP_End`, `KP_Down`, `KP_Page_Down`, `KP_Left`, `KP_Begin`,
`KP_Right`, `KP_Home`, `KP_Up`, `KP_Page_Up` for `d` = 0..9), whatever the
other bits (`SHIFT` and `LOCK` among them) are. From `mods = 0` a `KEY_KP7`
press gives `KP_Home`; Numlock press, Numlock release, `KEY_KP7` press then give
`KP_7` with `mods = MOD2`. -/
theorem numlock_switches_keypad (KeysymToUcs4 : Nat → Nat) (kbd : kbd_dev) (ref : Nat) :
    (∀ p ∈ keypad_keys, kbd.mods &&& UTERM_MOD2_MASK ≠ 0 →
      kbd_dev_process_key KeysymToUcs4 kbd 1 p.1 =
        { ret := 0, kbd := kbd,
          out := some ⟨p.1, XK_KP_0 + p.2.1, unicode_of KeysymToUcs4 (XK_KP_0 + p.2.1),
            kbd.mods⟩ }) ∧
    (∀ p ∈ keypad_keys, kbd.mods &&& UTERM_MOD2_MASK = 0 →
      kbd_dev_process_key KeysymToUcs4 kbd 1 p.1 =
        { ret := 0, kbd := kbd,
          out := some ⟨p.1, p.2.2, unicode_of KeysymToUcs4 p.2.2, kbd.mods⟩ }) ∧
    process_keys KeysymToUcs4 [(1, KEY_KP7)] ⟨ref, 0⟩ =
      (⟨ref, 0⟩, [⟨KEY_KP7, XK_KP_Home, unicode_of KeysymToUcs4 XK_KP_Home, 0⟩]) ∧
    process_keys KeysymToUcs4 [(1, KEY_NUMLOCK), (0, KEY_NUMLOCK), (1, KEY_KP7)] ⟨ref, 0⟩ =
      (⟨ref, UTERM_MOD2_MASK⟩,
       [⟨KEY_KP7, XK_KP_7, unicode_of KeysymToUcs4 XK_KP_7, UTERM_MOD2_MASK⟩]) := by
  refine ⟨?_, ?_, ?_, ?_⟩
  · intro p hp h2
    obtain ⟨hc, hm, -⟩ := keypad_keys_spec p hp
    exact process_key_press KeysymToUcs4 kbd.ref kbd.mods 1 p.1 _ hc hm (by decide)
      (by rw [layered_lookup_keypad kbd.mods p hp, if_pos h2]) (by simp [XK_KP_0])
  · intro p hp h2
    obtain ⟨hc, hm, -, -, -, -, h0⟩ := keypad_keys_spec p hp
    exact process_key_press KeysymToUcs4 kbd.ref kbd.mods 1 p.1 _ hc hm (by decide)
      (by rw [layered_lookup_keypad kbd.mods p hp, if_neg (by simpa using h2)]) h0
  · rw [process_keys_cons_event KeysymToUcs4 _ _ _ _ _ _
        (process_key_press KeysymToUcs4 ref 0 1 KEY_KP7 XK_KP_Home (by decide)
          (by decide) (by decide) (by decide) (by decide))]
    rfl
  · rw [process_keys_cons_no_event KeysymToUcs4 _ _ _ _ _
        (process_key_lock_full KeysymToUcs4 ref 0 1 KEY_NUMLOCK UTERM_MOD2_MASK
          UTERM_MOD2_MASK (by decide) (by decide)),
      process_keys_cons_no_event KeysymToUcs4 _ _ _ _ _
        (process_key_lock_full KeysymToUcs4 ref UTERM_MOD2_MASK 0 KEY_NUMLOCK
          UTERM_MOD2_MASK UTERM_MOD2_MASK (by decide) (by decide)),
      process_keys_cons_event KeysymToUcs4 _ _ _ _ _ _
        (process_key_press KeysymToUcs4 ref UTERM_MOD2_MASK 1 KEY_KP7 XK_KP_7 (by decide)
          (by decide) (by decide) (by decide) (by decide))]
    rfl

set_option maxRecDepth 100000 in
/-- Witness for C12: `KEY_KP3` pressed with `MOD2`, `SHIFT` and `LOCK` set. -/
theorem numlock_switches_keypad_witness :
    kbd_dev_process_key id
        ⟨1, UTERM_MOD2_MASK ||| UTERM_SHIFT_MASK ||| UTERM_LOCK_MASK⟩ 1 KEY_KP3 =
      { ret := 0, kbd := ⟨1, UTERM_MOD2_MASK ||| UTERM_SHIFT_MASK ||| UTERM_LOCK_MASK⟩,
        out := some ⟨KEY_KP3, XK_KP_0 + 3, unicode_of id (XK_KP_0 + 3),
          UTERM_MOD2_MASK ||| UTERM_SHIFT_MASK ||| UTERM_LOCK_MASK⟩ } :=
  (numlock_switches_keypad id
    ⟨1, UTERM_MOD2_MASK ||| UTERM_SHIFT_MASK ||| UTERM_LOCK_MASK⟩ 1).1
    (KEY_KP3, 3, XK_KP_Page_Down) (by decide) (by decide)

/-! ## Theorems: frames, connect, state, probe -/

theorem notify_key_other_type (ucs : Nat → Nat) (device : kmscon_input_device)
    (type code : Nat) (value : Int) (h : type ≠ EV_KEY) :
    notify_key ucs device type code value = (device, []) := by
  unfold notify_key
  rw [if_pos h]

theorem notify_key_ev_key (ucs : Nat → Nat) (device : kmscon_input_device)
    (code : Nat) (value : Int) :
    notify_key ucs device EV_KEY code value =
      ({ device with
          kbd := (kbd_dev_process_key ucs device.kbd (value % 65536).toNat code).kbd },
       if (kbd_dev_process_key ucs device.kbd (value % 65536).toNat code).ret = 0
       then (kbd_dev_process_key ucs device.kbd (value % 65536).toNat code).out.toList
       else []) := by
  unfold notify_key kmscon_kbd_process_key
  simp only [ne_eq, not_true_eq_false, if_false]
  by_cases h0 : (kbd_dev_process_key ucs device.kbd (value % 65536).toNat code).ret = 0
  · simp [h0, ENOKEY]
  · by_cases h1 : (kbd_dev_process_key ucs device.kbd (value % 65536).toNat code).ret = -ENOKEY
    · simp [h1, ENOKEY]
    · simp [h0, h1]

theorem notify_key_loop_eq (ucs : Nat → Nat) :
    ∀ (ev : List input_event) (device : kmscon_input_device),
      notify_key_loop ucs device ev =
        ({ device with kbd := (process_keys ucs (key_records ev) device.kbd).1 },
         (process_keys ucs (key_records ev) device.kbd).2) := by
  intro ev
  induction ev with
  | nil => intro device; simp [notify_key_loop, key_records, process_keys]
  | cons e evs ih =>
    intro device
    unfold notify_key_loop
    by_cases ht : e.type = EV_KEY
    · have hk : key_records (e :: evs) =
          ((e.value % 65536).toNat, e.code) :: key_records evs := by
        simp [key_records, ht]
      rw [hk, ht, notify_key_ev_key]
      simp only [ih, process_keys]
    · have hk : key_records (e :: evs) = key_records evs := by
        simp [key_records, ht]
      rw [hk, notify_key_other_type ucs device e.type e.code e.value ht]
      simp only [ih, List.nil_append]

/-- C13. For a frame that `read` returns as a whole number `n` (1 to 16) of
records, `device_data_arrived` feeds exactly the records of type `EV_KEY`, in
frame order, to the keymap engine as `(value, code)`: the device's keyboard
state afterwards is the one after those calls, and the events passed to the
observers are exactly the events of the calls that returned 0, in the same
order (after a full frame of 16 records the next read follows). A record of
another type causes no observer call and leaves the device unchanged; a record
of type `EV_KEY` causes an observer call only when `kbd_dev_process_key`
returned 0. -/
theorem frame_feeds_key_records (KeysymToUcs4 : Nat → Nat) (input : kmscon_input) (i : Nat)
    (device : kmscon_input_device) (n : Nat) (ev : List input_event)
    (reads : List read_result)
    (hdev : input.devices[i]? = some device) (hn1 : 1 ≤ n) (hn16 : n ≤ 16)
    (hlen : ev.length = n) :
    device_data_arrived KeysymToUcs4 i input
        (read_result.ok (n * sizeof_input_event) ev :: reads) =
      (if n = 16 then
        { input := (device_data_arrived KeysymToUcs4 i
            (with_kbd input i device
              (process_keys KeysymToUcs4 (key_records ev) device.kbd).1) reads).input,
          hook_calls := (process_keys KeysymToUcs4 (key_records ev) device.kbd).2 ++
            (device_data_arrived KeysymToUcs4 i
              (with_kbd input i device
                (process_keys KeysymToUcs4 (key_records ev) device.kbd).1) reads).hook_calls,
          calls := (device_data_arrived KeysymToUcs4 i
            (with_kbd input i device
              (process_keys KeysymToUcs4 (key_records ev) device.kbd).1) reads).calls }
       else
        { input := with_kbd input i device
            (process_keys KeysymToUcs4 (key_records ev) device.kbd).1,
          hook_calls := (process_keys KeysymToUcs4 (key_records ev) device.kbd).2,
          calls := [] }) ∧
    (∀ (d : kmscon_input_device) (e : input_event), e.type ≠ EV_KEY →
      notify_key KeysymToUcs4 d e.type e.code e.value = (d, [])) ∧
    (∀ (d : kmscon_input_device) (e : input_event), e.type = EV_KEY →
      (kbd_dev_process_key KeysymToUcs4 d.kbd (e.value % 65536).toNat e.code).ret ≠ 0 →
      (notify_key KeysymToUcs4 d e.type e.code e.value).2 = []) := by
  refine ⟨?_, ?_, ?_⟩
  · have hne : ¬ n * sizeof_input_event = 0 := by
      simp only [sizeof_input_event]; omega
    have hmod : n * sizeof_input_event % sizeof_input_event = 0 := Nat.mul_mod_left _ _
    have hdiv : n * sizeof_input_event / sizeof_input_event = n :=
      Nat.mul_div_cancel n (by decide)
    have htake : ev.take n = ev := by rw [← hlen]; exact List.take_length ev
    have h16 : (n * sizeof_input_event = 16 * sizeof_input_event) ↔ n = 16 := by
      simp only [sizeof_input_event]; omega
    rw [device_data_arrived]
    simp only [hdev, hne, hmod, hdiv, htake, notify_key_loop_eq, h16, if_false, ne_eq,
      not_true_eq_false, with_kbd]
  · intro d e h
    exact notify_key_other_type KeysymToUcs4 d e.type e.code e.value h
  · intro d e h hret
    rw [h, notify_key_ev_key]
    simp only [hret, if_false]

set_option maxRecDepth 100000 in
/-- Witness for C13: a frame of three records, of which the press of `KEY_A` is
the only one that reaches the observers. -/
theorem frame_feeds_key_records_witness :
    (device_data_arrived id 0 awake_manager
      [read_result.ok (3 * sizeof_input_event) frame_key_a]).hook_calls =
      [⟨KEY_A, XK_a, XK_a, 0⟩] := by
  rw [(frame_feeds_key_records id awake_manager 0
    { features := FEATURE_HAS_KEYS, rfd := 5, devnode := "/dev/input/event0",
      fd := some 9, kbd := kbd_dev_new }
    3 frame_key_a [] rfl (by decide) (by decide) rfl).1]
  decide

/-- C14. A failed `kmscon_input_connect_eloop` leaves the manager as it was. On
a connected manager it returns `-EALREADY`, makes no call and changes nothing
(loop binding, monitor registration, device list and state included). When the
registration of the monitor fd fails it returns that error, the manager is
unchanged, so still unconnected, and the registration attempt is the only call
made: no enumeration, no probe, no device added. -/
theorem connect_failure_leaves_manager (conf_seat : String) (input : kmscon_input)
    (eloop : Nat) (env : connect_env) :
    (input.eloop.isSome = true →
      (kmscon_input_connect_eloop conf_seat input eloop env).ret = -EALREADY ∧
      (kmscon_input_connect_eloop conf_seat input eloop env).input = input ∧
      (kmscon_input_connect_eloop conf_seat input eloop env).calls = []) ∧
    (input.eloop = none → env.new_fd.ret ≠ 0 →
      (kmscon_input_connect_eloop conf_seat input eloop env).ret = env.new_fd.ret ∧
      (kmscon_input_connect_eloop conf_seat input eloop env).input = input ∧
      (kmscon_input_connect_eloop conf_seat input eloop env).input.eloop = none ∧
      (kmscon_input_connect_eloop conf_seat input eloop env).calls =
        [sys_call.ev_eloop_new_fd eloop env.monitor_rfd]) := by
  constructor
  · intro h
    unfold kmscon_input_connect_eloop
    rw [if_pos h]
    exact ⟨rfl, rfl, rfl⟩
  · intro h hret
    unfold kmscon_input_connect_eloop
    have h1 : ¬ input.eloop.isSome = true := by rw [h]; simp
    rw [if_neg h1]
    simp only [if_pos hret]
    exact ⟨trivial, trivial, h, trivial⟩

/-- Witness for C14: connecting the woken manager again, and connecting a new
manager when the registration of the monitor fails. -/
theorem connect_failure_leaves_manager_witness :
    (kmscon_input_connect_eloop "seat0" woken_manager 7 connect_env_one_keyboard).input =
      woken_manager ∧
    (kmscon_input_connect_eloop "seat0" kmscon_input_new 7 connect_env_fail).input =
      kmscon_input_new :=
  ⟨((connect_failure_leaves_manager "seat0" woken_manager 7 connect_env_one_keyboard).1
      (by decide)).2.1,
   ((connect_failure_leaves_manager "seat0" kmscon_input_new 7 connect_env_fail).2
      rfl (by decide)).2.1⟩

theorem add_device_state (conf_seat : String) (input : kmscon_input) (udev_dev : udev_device)
    (env : add_env) : (add_device conf_seat input udev_dev env).1.state = input.state := by
  rcases add_device_result conf_seat input udev_dev env with e | ⟨node, -, -, e⟩
  · rw [e]
  · rw [e]

theorem remove_device_state (input : kmscon_input) (node : String) :
    (remove_device input node).1.state = input.state := by
  unfold remove_device
  by_cases he : input.devices = []
  · rw [if_pos he]
  · rw [if_neg he]

theorem add_initial_devices_loop_state (conf_seat : String) :
    ∀ (items : List (Option udev_device × add_env)) (input : kmscon_input),
      (add_initial_devices_loop conf_seat input items).1.state = input.state := by
  intro items
  induction items with
  | nil => intro input; rfl
  | cons item items ih =>
    intro input
    obtain ⟨u, env⟩ := item
    cases u with
    | none => simp only [add_initial_devices_loop]; exact ih input
    | some u =>
      simp only [add_initial_devices_loop]
      rw [ih, add_device_state]

theorem connect_eloop_state (conf_seat : String) (input : kmscon_input) (eloop : Nat)
    (env : connect_env) :
    (kmscon_input_connect_eloop conf_seat input eloop env).input.state = input.state := by
  unfold kmscon_input_connect_eloop
  split_ifs with h1 h2
  · rfl
  · rfl
  · simp only
    unfold add_initial_devices
    split_ifs
    · rfl
    · rfl
    · rfl
    · rfl
    · rw [add_initial_devices_loop_state]

theorem device_data_arrived_state (ucs : Nat → Nat) (i : Nat) :
    ∀ (reads : List read_result) (input : kmscon_input),
      (device_data_arrived ucs i input reads).input.state = input.state := by
  intro reads
  induction reads with
  | nil => intro input; rfl
  | cons r reads ih =>
    intro input
    rw [device_data_arrived]
    cases hd : input.devices[i]? with
    | none => rfl
    | some device =>
      cases r with
      | fail errno =>
        simp only
        split_ifs
        · rfl
        · exact remove_device_state _ _
      | ok len ev =>
        simp only
        split_ifs
        · exact remove_device_state _ _
        · exact ih input
        · rfl
        · simp only [ih]
        · rfl

/-- C15. A manager created by `kmscon_input_new` is ASLEEP. `kmscon_input_sleep`
always leaves the state ASLEEP and `kmscon_input_wake_up` always leaves it
AWAKE; `add_device`, `remove_device`, the hot-plug handler `device_changed`,
connect, disconnect, observer registration and deregistration, and the read
handler `device_data_arrived` leave the state as it is, whatever the
environment answers. -/
theorem state_changes_only_by_sleep_and_wake_up (KeysymToUcs4 : Nat → Nat)
    (conf_seat : String) (input : kmscon_input) :
    kmscon_input_new.state = input_state.INPUT_ASLEEP ∧
    kmscon_input_is_asleep kmscon_input_new = true ∧
    (kmscon_input_sleep input).1.state = input_state.INPUT_ASLEEP ∧
    (∀ env, (kmscon_input_wake_up input env).1.state = input_state.INPUT_AWAKE) ∧
    (∀ udev_dev env, (add_device conf_seat input udev_dev env).1.state = input.state) ∧
    (∀ node, (remove_device input node).1.state = input.state) ∧
    (∀ received env, (device_changed conf_seat input received env).1.state = input.state) ∧
    (∀ eloop env,
      (kmscon_input_connect_eloop conf_seat input eloop env).input.state = input.state) ∧
    (kmscon_input_disconnect_eloop input).1.state = input.state ∧
    (∀ hook cb data add_ret,
      (kmscon_input_register_cb input hook cb data add_ret).2.1 = input) ∧
    (∀ hook cb data, (kmscon_input_unregister_cb input hook cb data).1 = input) ∧
    (∀ i reads, (device_data_arrived KeysymToUcs4 i input reads).input.state = input.state) := by
  refine ⟨rfl, rfl, ?_, ?_, ?_, ?_, ?_, ?_, ?_, ?_, ?_, ?_⟩
  · unfold kmscon_input_sleep
    by_cases h : input.state = input_state.INPUT_ASLEEP
    · rw [if_pos h]; exact h
    · rw [if_neg h]
  · intro env
    unfold kmscon_input_wake_up
    by_cases h : input.state = input_state.INPUT_AWAKE
    · rw [if_pos h]; exact h
    · rw [if_neg h]
  · intro u env
    exact add_device_state conf_seat input u env
  · intro node
    exact remove_device_state input node
  · intro received env
    unfold device_changed
    cases received with
    | none => rfl
    | some u =>
      cases ha : u.action with
      | none => simp only [ha]
      | some action =>
        simp only [ha]
        split_ifs
        · exact add_device_state conf_seat input u env
        · unfold remove_device_udev
          cases u.devnode with
          | none => rfl
          | some node => exact remove_device_state input node
        · rfl
  · intro eloop env
    exact connect_eloop_state conf_seat input eloop env
  · unfold kmscon_input_disconnect_eloop
    by_cases h : input.eloop.isNone = true
    · rw [if_pos h]
    · rw [if_neg h]
  · intro hook cb data add_ret
    unfold kmscon_input_register_cb
    cases cb with
    | none => rfl
    | some f =>
      simp only
      split_ifs <;> rfl
  · intro hook cb data
    unfold kmscon_input_unregister_cb
    cases cb <;> rfl
  · intro i reads
    exact device_data_arrived_state KeysymToUcs4 i reads input

theorem interesting_key_any (keybits : List Nat) :
    (List.range' KEY_RESERVED (KEY_MIN_INTERESTING + 1 - KEY_RESERVED)).any
        (fun i => input_bit_is_set keybits i) = true ↔
      ∃ i, KEY_RESERVED ≤ i ∧ i ≤ KEY_MIN_INTERESTING ∧ input_bit_is_set keybits i = true := by
  rw [List.any_eq_true]
  constructor
  · rintro ⟨i, hi, hb⟩
    rw [List.mem_range'_1] at hi
    refine ⟨i, hi.1, ?_, hb⟩
    have := hi.2
    simp only [KEY_RESERVED, KEY_MIN_INTERESTING, KEY_MUTE] at this ⊢
    omega
  · rintro ⟨i, h1, h2, hb⟩
    refine ⟨i, ?_, hb⟩
    rw [List.mem_range'_1]
    refine ⟨h1, ?_⟩
    simp only [KEY_RESERVED, KEY_MIN_INTERESTING, KEY_MUTE] at h2 ⊢
    omega

/-- C16. When the open and both `EVIOCGBIT` ioctls succeed, the mask that
`probe_device_features` returns contains `HAS_KEYS` iff `EV_KEY` is set in the
type array and some key bit with index in the inclusive range
`[KEY_RESERVED, KEY_MIN_INTERESTING]` is set, contains `HAS_LEDS` iff `EV_LED`
is set in the type array, and contains nothing else. When the open fails, the
type ioctl fails, or the key ioctl (made when `EV_KEY` is set) fails, the mask
is empty. `add_device` leaves the manager as it is, creating no device, unless
the mask contains `HAS_KEYS`. -/
theorem probe_features_spec (node : String) (env : probe_env) :
    (∀ fd evbits keybits, env.open_node = open_result.ok fd →
      env.evbits = ioctl_result.ok evbits → env.keybits = ioctl_result.ok keybits →
      ((probe_device_features node env).1 &&& FEATURE_HAS_KEYS ≠ 0 ↔
        (input_bit_is_set evbits EV_KEY = true ∧
          ∃ i, KEY_RESERVED ≤ i ∧ i ≤ KEY_MIN_INTERESTING ∧
            input_bit_is_set keybits i = true)) ∧
      ((probe_device_features node env).1 &&& FEATURE_HAS_LEDS ≠ 0 ↔
        input_bit_is_set evbits EV_LED = true) ∧
      (probe_device_features node env).1 &&& (FEATURE_HAS_KEYS ||| FEATURE_HAS_LEDS) =
        (probe_device_features node env).1) ∧
    (∀ e, env.open_node = open_result.fail e → (probe_device_features node env).1 = 0) ∧
    (∀ e, env.evbits = ioctl_result.fail e → (probe_device_features node env).1 = 0) ∧
    (∀ fd evbits e, env.open_node = open_result.ok fd →
      env.evbits = ioctl_result.ok evbits → input_bit_is_set evbits EV_KEY = true →
      env.keybits = ioctl_result.fail e → (probe_device_features node env).1 = 0) ∧
    (∀ (conf_seat : String) (input : kmscon_input) (udev_dev : udev_device) (aenv : add_env),
      udev_dev.devnode = some node → aenv.probe = env →
      (probe_device_features node env).1 &&& FEATURE_HAS_KEYS = 0 →
      (add_device conf_seat input udev_dev aenv).1 = input) := by
  refine ⟨?_, ?_, ?_, ?_, ?_⟩
  · intro fd evbits keybits ho he hk
    have hany := interesting_key_any keybits
    unfold probe_device_features
    simp only [ho, he, hk]
    generalize (List.range' KEY_RESERVED (KEY_MIN_INTERESTING + 1 - KEY_RESERVED)).any
        (fun i => input_bit_is_set keybits i) = a at hany
    rw [← hany]
    cases input_bit_is_set evbits EV_KEY <;> cases a <;>
      cases input_bit_is_set evbits EV_LED <;> simp <;> decide
  · intro e ho
    unfold probe_device_features
    simp only [ho]
  · intro e he
    unfold probe_device_features
    cases ho : env.open_node with
    | fail e2 => rfl
    | ok fd => simp only [he]
  · intro fd evbits e ho he hkey hk
    unfold probe_device_features
    simp only [ho, he, hkey, hk, if_true]
  · intro conf_seat input udev_dev aenv hnode henv hkeys
    unfold add_device
    simp only [hnode, henv]
    split_ifs with h1
    · rfl
    · rfl

/-- Witness for C16: a device with `EV_KEY` and `EV_LED` whose only key is
`KEY_POWER`, above `KEY_MIN_INTERESTING`: the mask is `HAS_LEDS` alone. -/
theorem probe_features_spec_witness :
    (probe_device_features "/dev/input/event1" probe_env_power_button).1
      &&& FEATURE_HAS_LEDS ≠ 0 :=
  (((probe_features_spec "/dev/input/event1" probe_env_power_button).1 3
    [1 <<< EV_KEY ||| 1 <<< EV_LED] [0, 1 <<< (116 - LONG_BIT)] rfl rfl rfl).2.1).2
    (by decide)

/-! ## Theorems: reachable keyboard states, range, autorepeat, wake-up -/

theorem mask_subset_iff (a m : Nat) :
    a &&& m = a ↔ ∀ i, a.testBit i = true → m.testBit i = true := by
  constructor
  · intro h i hi
    rw [← h, Nat.testBit_and] at hi
    simp only [Bool.and_eq_true] at hi
    exact hi.2
  · intro h
    apply Nat.eq_of_testBit_eq
    intro i
    rw [Nat.testBit_and]
    cases ha : a.testBit i
    · rfl
    · rw [h i ha]; rfl

theorem mask_subset_or (a b m : Nat) (ha : a &&& m = a) (hb : b &&& m = b) :
    (a ||| b) &&& m = a ||| b := by
  rw [mask_subset_iff] at ha hb ⊢
  intro i hi
  rw [Nat.testBit_or, Bool.or_eq_true] at hi
  rcases hi with hi | hi
  · exact ha i hi
  · exact hb i hi

theorem mask_subset_xor (a b m : Nat) (ha : a &&& m = a) (hb : b &&& m = b) :
    (a ^^^ b) &&& m = a ^^^ b := by
  rw [mask_subset_iff] at ha hb ⊢
  intro i hi
  rw [Nat.testBit_xor] at hi
  cases hai : a.testBit i
  · cases hbi : b.testBit i
    · rw [hai, hbi] at hi; cases hi
    · exact hb i hbi
  · exact ha i hai

theorem mask_subset_and (a x m : Nat) (ha : a &&& m = a) : (a &&& x) &&& m = a &&& x := by
  rw [mask_subset_iff] at ha ⊢
  intro i hi
  rw [Nat.testBit_and, Bool.and_eq_true] at hi
  exact ha i hi.1

theorem disjoint_or (a m k : Nat) (h : m &&& k = 0) : (a ||| m) &&& k = a &&& k := by
  apply Nat.eq_of_testBit_eq
  intro i
  have hi : (m &&& k).testBit i = false := by rw [h]; exact Nat.zero_testBit i
  rw [Nat.testBit_and] at hi
  simp only [Nat.testBit_and, Nat.testBit_or]
  cases hm : m.testBit i <;> cases hk : k.testBit i <;> simp_all

theorem disjoint_xor (a m k : Nat) (h : m &&& k = 0) : (a ^^^ m) &&& k = a &&& k := by
  apply Nat.eq_of_testBit_eq
  intro i
  have hi : (m &&& k).testBit i = false := by rw [h]; exact Nat.zero_testBit i
  rw [Nat.testBit_and] at hi
  simp only [Nat.testBit_and, Nat.testBit_xor]
  cases hm : m.testBit i <;> cases hk : k.testBit i <;> simp_all

theorem disjoint_and_not (a m k : Nat) (h : m &&& k = 0) (hk : k < 2 ^ 32) :
    (a &&& u32_not m) &&& k = a &&& k := by
  apply Nat.eq_of_testBit_eq
  intro i
  have hi : (m &&& k).testBit i = false := by rw [h]; exact Nat.zero_testBit i
  rw [Nat.testBit_and] at hi
  simp only [Nat.testBit_and, testBit_u32_not]
  by_cases h32 : i < 32
  · cases hm : m.testBit i <;> cases hk' : k.testBit i <;> simp_all
  · have hki : k.testBit i = false :=
      Nat.testBit_lt_two_pow (lt_of_lt_of_le hk (Nat.pow_le_pow_right (by norm_num) (by omega)))
    simp [hki]

theorem modifier_keys_kind :
    ∀ c ∈ modifier_keys,
      (∃ p ∈ normal_modifier_keys, p.1 = c) ∨ (∃ p ∈ lock_modifier_keys, p.1 = c) := by
  decide

theorem modifier_masks_spec :
    (∀ p ∈ normal_modifier_keys,
      p.2 &&& MODIFIER_SET = p.2 ∧ p.2 &&& UTERM_LOCK_MASK = 0 ∧
        p.2 &&& UTERM_MOD2_MASK = 0) ∧
    (∀ p ∈ lock_modifier_keys,
      p.2 &&& MODIFIER_SET = p.2 ∧
      (p.1 ≠ KEY_CAPSLOCK → p.2 &&& UTERM_LOCK_MASK = 0) ∧
      (p.1 ≠ KEY_NUMLOCK → p.2 &&& UTERM_MOD2_MASK = 0)) := by
  decide

/-- The keyboard record after one call of `kbd_dev_process_key`, by the kind of
the keycode. -/
theorem process_key_kbd_cases (ucs : Nat → Nat) (kbd : kbd_dev) (s code : Nat) :
    (kbd_dev_process_key ucs kbd s code).kbd = kbd ∨
    (∃ mask, (code, mask) ∈ normal_modifier_keys ∧
      ((kbd_dev_process_key ucs kbd s code).kbd = { kbd with mods := kbd.mods ||| mask } ∨
       (kbd_dev_process_key ucs kbd s code).kbd =
         { kbd with mods := kbd.mods &&& u32_not mask })) ∨
    (∃ mask, (code, mask) ∈ lock_modifier_keys ∧ s = 1 ∧
      (kbd_dev_process_key ucs kbd s code).kbd = { kbd with mods := kbd.mods ^^^ mask }) := by
  by_cases hc : code < KEYTAB_SIZE
  · by_cases hm : (modmap_at code).mod = 0
    · left
      by_cases h0 : s = 0
      · unfold kbd_dev_process_key
        rw [if_neg (by omega), if_neg (by simpa using hm), if_pos h0]
      · rw [process_key_lookup ucs kbd s code hc hm h0]
        split_ifs <;> rfl
    · have hmem : code ∈ modifier_keys := (modifier_keys_iff code).2 ⟨hc, hm⟩
      rcases modifier_keys_kind code hmem with ⟨p, hp, rfl⟩ | ⟨p, hp, rfl⟩
      · obtain ⟨-, hmap, hm0, -⟩ := normal_modifier_keys_spec p hp
        have h := process_key_normal_step ucs kbd s p.1 p.2 hc hmap hm0
        by_cases h1 : s = 1
        · right; left
          refine ⟨p.2, hp, Or.inl ?_⟩
          rw [h, if_pos h1]
        · by_cases h0 : s = 0
          · right; left
            refine ⟨p.2, hp, Or.inr ?_⟩
            rw [h, if_neg h1, if_pos h0]
          · left
            rw [h, if_neg h1, if_neg h0]
      · obtain ⟨-, hmap, hm0⟩ := lock_modifier_keys_spec p hp
        have h := process_key_lock_step ucs kbd s p.1 p.2 hc hmap hm0
        by_cases h1 : s = 1
        · right; right
          refine ⟨p.2, hp, h1, ?_⟩
          rw [h, if_pos h1]
        · left
          rw [h, if_neg h1]
  · left
    rw [process_key_out_of_range ucs kbd s code (by omega)]

theorem kbd_dev_reset_mods (kbd : kbd_dev) (ledbits : List Nat) :
    (kbd_dev_reset kbd ledbits).mods =
      (if input_bit_is_set ledbits LED_NUML = true then UTERM_MOD2_MASK else 0) |||
      (if input_bit_is_set ledbits LED_CAPSL = true then UTERM_LOCK_MASK else 0) := by
  unfold kbd_dev_reset
  cases input_bit_is_set ledbits LED_NUML <;> cases input_bit_is_set ledbits LED_CAPSL <;>
    simp

theorem kbd_dev_reset_subset (kbd : kbd_dev) (ledbits : List Nat) :
    (kbd_dev_reset kbd ledbits).mods &&& (UTERM_LOCK_MASK ||| UTERM_MOD2_MASK) =
      (kbd_dev_reset kbd ledbits).mods ∧
    (kbd_dev_reset kbd ledbits).mods &&& MODIFIER_SET = (kbd_dev_reset kbd ledbits).mods := by
  rw [kbd_dev_reset_mods]
  cases input_bit_is_set ledbits LED_NUML <;> cases input_bit_is_set ledbits LED_CAPSL <;>
    simp <;> decide

theorem kbd_reachable_subset (ucs : Nat → Nat) (kbd : kbd_dev) (h : kbd_reachable ucs kbd) :
    kbd.mods &&& MODIFIER_SET = kbd.mods := by
  induction h with
  | new => decide
  | reset kbd ledbits _ _ => exact (kbd_dev_reset_subset kbd ledbits).2
  | process_key kbd s code _ ih =>
    rcases process_key_kbd_cases ucs kbd s code with h | ⟨m, hm, h | h⟩ | ⟨m, hm, -, h⟩
    · rw [h]; exact ih
    · rw [h]
      exact mask_subset_or _ _ _ ih (modifier_masks_spec.1 (code, m) hm).1
    · rw [h]
      exact mask_subset_and _ _ _ ih
    · rw [h]
      exact mask_subset_xor _ _ _ ih (modifier_masks_spec.2 (code, m) hm).1

/-- C17. In every keyboard state reachable from `kbd_dev_new` (which has
`mods = 0`) by `kbd_dev_reset` with arbitrary LED bits and
`kbd_dev_process_key` with arbitrary key state and keycode (the 16-bit ones in
particular), the mask holds only bits of `SHIFT`, `LOCK`, `CONTROL`, `MOD1`,
`MOD2`, `MOD4`; and a call of `kbd_dev_process_key` changes the `LOCK` bit only
when it is a key-state-1 event of Capslock, and the `MOD2` bit only when it is a
key-state-1 event of Numlock (the only other function that writes the mask is
`kbd_dev_reset`). -/
theorem reachable_mods_in_modifier_set (KeysymToUcs4 : Nat → Nat) (kbd : kbd_dev)
    (h : kbd_reachable KeysymToUcs4 kbd) :
    kbd_dev_new.mods = 0 ∧
    kbd.mods &&& MODIFIER_SET = kbd.mods ∧
    (∀ s code,
      (kbd_dev_process_key KeysymToUcs4 kbd s code).kbd.mods &&& UTERM_LOCK_MASK ≠
          kbd.mods &&& UTERM_LOCK_MASK →
        s = 1 ∧ code = KEY_CAPSLOCK) ∧
    (∀ s code,
      (kbd_dev_process_key KeysymToUcs4 kbd s code).kbd.mods &&& UTERM_MOD2_MASK ≠
          kbd.mods &&& UTERM_MOD2_MASK →
        s = 1 ∧ code = KEY_NUMLOCK) := by
  refine ⟨rfl, kbd_reachable_subset KeysymToUcs4 kbd h, ?_, ?_⟩
  · intro s code hne
    rcases process_key_kbd_cases KeysymToUcs4 kbd s code with
      h | ⟨m, hm, h | h⟩ | ⟨m, hm, h1, h⟩
    · rw [h] at hne; exact absurd rfl hne
    · rw [h] at hne
      exact absurd (disjoint_or _ _ _ (modifier_masks_spec.1 (code, m) hm).2.1) hne
    · rw [h] at hne
      exact absurd
        (disjoint_and_not _ _ _ (modifier_masks_spec.1 (code, m) hm).2.1 (by decide)) hne
    · refine ⟨h1, ?_⟩
      by_contra hcode
      rw [h] at hne
      exact absurd (disjoint_xor _ _ _ ((modifier_masks_spec.2 (code, m) hm).2.1 hcode)) hne
  · intro s code hne
    rcases process_key_kbd_cases KeysymToUcs4 kbd s code with
      h | ⟨m, hm, h | h⟩ | ⟨m, hm, h1, h⟩
    · rw [h] at hne; exact absurd rfl hne
    · rw [h] at hne
      exact absurd (disjoint_or _ _ _ (modifier_masks_spec.1 (code, m) hm).2.2) hne
    · rw [h] at hne
      exact absurd
        (disjoint_and_not _ _ _ (modifier_masks_spec.1 (code, m) hm).2.2 (by decide)) hne
    · refine ⟨h1, ?_⟩
      by_contra hcode
      rw [h] at hne
      exact absurd (disjoint_xor _ _ _ ((modifier_masks_spec.2 (code, m) hm).2.2 hcode)) hne

/-- Witness for C17: the state after Left Shift and Capslock were pressed. -/
theorem reachable_mods_in_modifier_set_witness :
    (kbd_dev_process_key id (kbd_dev_process_key id kbd_dev_new 1 KEY_LEFTSHIFT).kbd 1
        KEY_CAPSLOCK).kbd.mods &&& MODIFIER_SET =
      (kbd_dev_process_key id (kbd_dev_process_key id kbd_dev_new 1 KEY_LEFTSHIFT).kbd 1
        KEY_CAPSLOCK).kbd.mods :=
  (reachable_mods_in_modifier_set id _
    (kbd_reachable.process_key _ 1 KEY_CAPSLOCK
      (kbd_reachable.process_key _ 1 KEY_LEFTSHIFT kbd_reachable.new))).2.1

set_option maxRecDepth 100000 in
/-- C18. `kbd_dev_process_key` returns `-ENOKEY`, writes no event and leaves the
keyboard record unchanged for every keycode at or above `KEYTAB_SIZE`
(`KEY_RIGHTMETA + 1`, so every code above `KEY_RIGHTMETA`) with any key state,
and for key state 0 on every in-range keycode without modifier-map entry.
Conversely every keycode up to `KEY_RIGHTMETA` passes the range check: on such
a code with a modifier-map entry the modifier step is taken, on one without
entry and with a key state other than 0 the layered lookup decides; the last
in-range code, `KEY_RIGHTMETA`, pressed from `mods = 0` sets `MOD4`. -/
theorem out_of_range_and_release_no_event (KeysymToUcs4 : Nat → Nat) (kbd : kbd_dev) :
    KEYTAB_SIZE = KEY_RIGHTMETA + 1 ∧
    (∀ s code, KEY_RIGHTMETA < code →
      kbd_dev_process_key KeysymToUcs4 kbd s code =
        { ret := -ENOKEY, kbd := kbd, out := none }) ∧
    (∀ code, code < KEYTAB_SIZE → (modmap_at code).mod = 0 →
      kbd_dev_process_key KeysymToUcs4 kbd 0 code =
        { ret := -ENOKEY, kbd := kbd, out := none }) ∧
    (∀ s code, code ≤ KEY_RIGHTMETA → (modmap_at code).mod ≠ 0 →
      kbd_dev_process_key KeysymToUcs4 kbd s code =
        { ret := -ENOKEY,
          kbd :=
            if s = 1 then
              if (modmap_at code).type = MOD_NORMAL then
                { kbd with mods := kbd.mods ||| (modmap_at code).mod }
              else if (modmap_at code).type = MOD_LOCK then
                { kbd with mods := kbd.mods ^^^ (modmap_at code).mod }
              else kbd
            else if s = 0 then
              if (modmap_at code).type = MOD_NORMAL then
                { kbd with mods := kbd.mods &&& u32_not (modmap_at code).mod }
              else kbd
            else kbd,
          out := none }) ∧
    (∀ s code, code ≤ KEY_RIGHTMETA → (modmap_at code).mod = 0 → s ≠ 0 →
      kbd_dev_process_key KeysymToUcs4 kbd s code =
        if layered_lookup kbd.mods code = 0 then
          { ret := -ENOKEY, kbd := kbd, out := none }
        else
          { ret := 0, kbd := kbd,
            out := some ⟨code, layered_lookup kbd.mods code,
              unicode_of KeysymToUcs4 (layered_lookup kbd.mods code), kbd.mods⟩ }) ∧
    (kbd_dev_process_key KeysymToUcs4 ⟨kbd.ref, 0⟩ 1 KEY_RIGHTMETA).kbd =
      ⟨kbd.ref, UTERM_MOD4_MASK⟩ := by
  refine ⟨rfl, ?_, ?_, ?_, ?_, ?_⟩
  · intro s code h
    exact process_key_out_of_range KeysymToUcs4 kbd s code
      (by simp only [KEYTAB_SIZE]; omega)
  · intro code hc hm
    unfold kbd_dev_process_key
    rw [if_neg (by omega), if_neg (by simpa using hm), if_pos rfl]
  · intro s code hc hm
    exact process_key_modifier_step KeysymToUcs4 kbd s code
      (by simp only [KEYTAB_SIZE]; omega) hm
  · intro s code hc hm hs
    exact process_key_lookup KeysymToUcs4 kbd s code (by simp only [KEYTAB_SIZE]; omega) hm hs
  · rw [process_key_normal_full KeysymToUcs4 kbd.ref 0 1 KEY_RIGHTMETA UTERM_MOD4_MASK
      UTERM_MOD4_MASK (by decide) (by decide)]

set_option maxRecDepth 100000 in
/-- Witness for C18: the release of `KEY_A`, an in-range key without
modifier-map entry, with `SHIFT` set. -/
theorem out_of_range_and_release_no_event_witness :
    kbd_dev_process_key id ⟨1, UTERM_SHIFT_MASK⟩ 0 KEY_A =
      { ret := -ENOKEY, kbd := ⟨1, UTERM_SHIFT_MASK⟩, out := none } :=
  (out_of_range_and_release_no_event id ⟨1, UTERM_SHIFT_MASK⟩).2.2.1 KEY_A (by decide)
    (by decide)

/-- C19. Autorepeat on a non-modifier key is press-like: for every keyboard
state and every keycode that is not a modifier key, `kbd_dev_process_key` with
key state 2 returns exactly what it returns with key state 1: the same return
value, the same event or none, and the same keyboard record. -/
theorem autorepeat_is_press_like (KeysymToUcs4 : Nat → Nat) (kbd : kbd_dev) (code : Nat)
    (hcode : code ∉ modifier_keys) :
    kbd_dev_process_key KeysymToUcs4 kbd 2 code =
      kbd_dev_process_key KeysymToUcs4 kbd 1 code := by
  by_cases hc : code < KEYTAB_SIZE
  · have hm : (modmap_at code).mod = 0 := by
      by_contra h
      exact hcode ((modifier_keys_iff code).2 ⟨hc, h⟩)
    rw [process_key_lookup KeysymToUcs4 kbd 2 code hc hm (by decide),
      process_key_lookup KeysymToUcs4 kbd 1 code hc hm (by decide)]
  · rw [process_key_out_of_range KeysymToUcs4 kbd 2 code (by omega),
      process_key_out_of_range KeysymToUcs4 kbd 1 code (by omega)]

set_option maxRecDepth 100000 in
/-- Witness for C19: autorepeat of `KEY_A` with `SHIFT` set. -/
theorem autorepeat_is_press_like_witness :
    kbd_dev_process_key id ⟨1, UTERM_SHIFT_MASK⟩ 2 KEY_A =
      kbd_dev_process_key id ⟨1, UTERM_SHIFT_MASK⟩ 1 KEY_A :=
  autorepeat_is_press_like id ⟨1, UTERM_SHIFT_MASK⟩ KEY_A (by decide)

theorem input_bit_is_set_zero (n bit : Nat) :
    input_bit_is_set (List.replicate n 0) bit = false := by
  unfold input_bit_is_set
  have h : (List.replicate n 0).getD (bit / LONG_BIT) 0 = 0 := by
    rw [List.getD_eq_getElem?_getD]
    by_cases hlt : bit / LONG_BIT < n
    · simp [List.getElem?_replicate, hlt]
    · simp [List.getElem?_replicate, hlt]
  rw [h]
  exact Nat.zero_testBit _

/-- C20. Wake-up re-synchronises the keymap state: after a
`kmscon_input_device_wake_up` that returns 0 on a sleeping device with
`HAS_KEYS`, the device's keyboard record is the result of the reset on the LED
bitmap, which is the one returned by `EVIOCGLED` if the device has `HAS_LEDS`
and the ioctl succeeded, and all zero otherwise. So whatever the mask was
before, afterwards it holds no bit besides `LOCK` and `MOD2`, and on a device
without `HAS_LEDS` it is 0. -/
theorem wake_up_resets_keymap (eloop : Option Nat) (device : kmscon_input_device)
    (env : wake_env) (hrfd : device.rfd < 0)
    (hkeys : device.features &&& FEATURE_HAS_KEYS ≠ 0)
    (hret : (kmscon_input_device_wake_up eloop device env).ret = 0) :
    (kmscon_input_device_wake_up eloop device env).device.kbd =
      kbd_dev_reset device.kbd (wake_ledbits device env) ∧
    (kmscon_input_device_wake_up eloop device env).device.kbd.mods &&&
        (UTERM_LOCK_MASK ||| UTERM_MOD2_MASK) =
      (kmscon_input_device_wake_up eloop device env).device.kbd.mods ∧
    (device.features &&& FEATURE_HAS_LEDS = 0 →
      (kmscon_input_device_wake_up eloop device env).device.kbd.mods = 0) := by
  have hkbd : (kmscon_input_device_wake_up eloop device env).device.kbd =
      kbd_dev_reset device.kbd (wake_ledbits device env) := by
    revert hret
    cases eloop with
    | none => simp [kmscon_input_device_wake_up, EINVAL]
    | some loop =>
      unfold kmscon_input_device_wake_up wake_ledbits kmscon_kbd_reset
      have h : ¬ 0 ≤ device.rfd := by omega
      cases ho : env.open_node with
      | fail e => simp [h, ho]
      | ok n =>
        simp only [h, ho]
        split_ifs <;> simp_all
  refine ⟨hkbd, ?_, ?_⟩
  · rw [hkbd]
    exact (kbd_dev_reset_subset _ _).1
  · intro hleds
    rw [hkbd, kbd_dev_reset_mods]
    have hz : wake_ledbits device env = List.replicate (NLONGS LED_CNT) 0 := by
      unfold wake_ledbits
      rw [if_neg (by simpa using hleds)]
    rw [hz, input_bit_is_set_zero, input_bit_is_set_zero]
    rfl

/-- Witness for C20: a keyboard with LEDs that held `SHIFT` and `CONTROL`
before the sleep wakes up with the Capslock LED on: the mask is `LOCK`. -/
theorem wake_up_resets_keymap_witness :
    (kmscon_input_device_wake_up (some 7)
      { features := FEATURE_HAS_KEYS ||| FEATURE_HAS_LEDS, rfd := -1, devnode := "a",
        fd := none, kbd := ⟨1, UTERM_SHIFT_MASK ||| UTERM_CONTROL_MASK⟩ }
      { open_node := open_result.ok 5, led := ioctl_result.ok [1 <<< LED_CAPSL],
        new_fd := { ret := 0, fd := 9 } }).device.kbd = ⟨1, UTERM_LOCK_MASK⟩ := by
  rw [(wake_up_resets_keymap (some 7) _ _ (by decide) (by decide) (by decide)).1]
  decide

/-! ## Theorems: shared masks -/

theorem process_keys_fst_cons (ucs : Nat → Nat) (s code : Nat) (keys : List (Nat × Nat))
    (kbd : kbd_dev) :
    (process_keys ucs ((s, code) :: keys) kbd).1 =
      (process_keys ucs keys (kbd_dev_process_key ucs kbd s code).kbd).1 := by
  simp [process_keys]

theorem modifier_masks_disjoint :
    (∀ p ∈ normal_modifier_keys, ∀ q ∈ normal_modifier_keys,
      (p.1 = q.1 → p.2 = q.2) ∧ (p.2 ≠ q.2 → p.2 &&& q.2 = 0)) ∧
    (∀ p ∈ lock_modifier_keys, ∀ q ∈ normal_modifier_keys, p.2 &&& q.2 = 0) := by
  decide

/-- A call of `kbd_dev_process_key` that is no press or release of a key
carrying the NORMAL mask `mask` leaves the bits of `mask` as they are. -/
theorem process_key_other_keeps_mask (ucs : Nat → Nat) (kbd : kbd_dev) (s code mask code0 : Nat)
    (hmask : (code0, mask) ∈ normal_modifier_keys)
    (hother : ¬ ((code, mask) ∈ normal_modifier_keys ∧ (s = 0 ∨ s = 1))) :
    (kbd_dev_process_key ucs kbd s code).kbd.mods &&& mask = kbd.mods &&& mask := by
  have hlt : mask < 2 ^ 32 := (normal_modifier_keys_spec (code0, mask) hmask).2.2.2
  by_cases hin : (code, mask) ∈ normal_modifier_keys
  · have hs : s ≠ 0 ∧ s ≠ 1 := by
      constructor
      · intro h; exact hother ⟨hin, Or.inl h⟩
      · intro h; exact hother ⟨hin, Or.inr h⟩
    obtain ⟨hc, hmap, hm0, -⟩ := normal_modifier_keys_spec (code, mask) hin
    rw [process_key_normal_step ucs kbd s code mask hc hmap hm0, if_neg hs.2, if_neg hs.1]
  · rcases process_key_kbd_cases ucs kbd s code with h | ⟨m, hm, h | h⟩ | ⟨m, hm, -, h⟩
    · rw [h]
    · have hne : m ≠ mask := fun e => hin (e ▸ hm)
      have hd := ((modifier_masks_disjoint.1 (code, m) hm (code0, mask) hmask).2 hne)
      rw [h]
      exact disjoint_or _ _ _ hd
    · have hne : m ≠ mask := fun e => hin (e ▸ hm)
      have hd := ((modifier_masks_disjoint.1 (code, m) hm (code0, mask) hmask).2 hne)
      rw [h]
      exact disjoint_and_not _ _ _ hd hlt
    · have hd := modifier_masks_disjoint.2 (code, m) hm (code0, mask) hmask
      rw [h]
      exact disjoint_xor _ _ _ hd

theorem last_press_or_release_cons (mask : Nat) (s code : Nat) (keys : List (Nat × Nat)) :
    last_press_or_release mask ((s, code) :: keys) =
      match last_press_or_release mask keys with
      | some t => some t
      | none =>
        if (code, mask) ∈ normal_modifier_keys ∧ (s = 0 ∨ s = 1) then some s else none := by
  unfold last_press_or_release
  rw [List.filter_cons]
  generalize keys.filter (fun p =>
    decide ((p.2, mask) ∈ normal_modifier_keys) && (p.1 == 0 || p.1 == 1)) = l
  by_cases h : (code, mask) ∈ normal_modifier_keys ∧ (s = 0 ∨ s = 1)
  · have hb : (decide ((code, mask) ∈ normal_modifier_keys) && (s == 0 || s == 1)) = true := by
      simpa using h
    rw [if_pos hb, if_pos h]
    cases l with
    | nil => rfl
    | cons x t =>
      rw [List.getLast?_cons_cons]
      obtain ⟨y, hy⟩ : ∃ y, (x :: t).getLast? = some y :=
        ⟨_, List.getLast?_eq_getLast _ (by simp)⟩
      rw [hy]
      rfl
  · have hb : ¬ (decide ((code, mask) ∈ normal_modifier_keys) && (s == 0 || s == 1)) = true := by
      simpa using h
    rw [if_neg hb, if_neg h]
    cases l.getLast? <;> rfl

theorem process_keys_mask_bits (ucs : Nat → Nat) (mask code0 : Nat)
    (hmask : (code0, mask) ∈ normal_modifier_keys) :
    ∀ (keys : List (Nat × Nat)) (kbd : kbd_dev),
      (process_keys ucs keys kbd).1.mods &&& mask =
        match last_press_or_release mask keys with
        | none => kbd.mods &&& mask
        | some s => if s = 1 then mask else 0 := by
  intro keys
  induction keys with
  | nil => intro kbd; simp [process_keys, last_press_or_release]
  | cons x t ih =>
    intro kbd
    obtain ⟨s, code⟩ := x
    rw [process_keys_fst_cons, ih, last_press_or_release_cons]
    cases hl : last_press_or_release mask t with
    | some r => rfl
    | none =>
      simp only
      by_cases h : (code, mask) ∈ normal_modifier_keys ∧ (s = 0 ∨ s = 1)
      · rw [if_pos h]
        obtain ⟨hc, hmap, hm0, -⟩ := normal_modifier_keys_spec (code, mask) h.1
        rw [process_key_normal_step ucs kbd s code mask hc hmap hm0]
        rcases h.2 with h0 | h1
        · subst h0
          simp only [if_neg (by decide : ¬ (0 : Nat) = 1), if_true]
          exact and_not_and_mask _ _
        · subst h1
          simp only [if_true]
          exact or_and_self_mask _ _
      · rw [if_neg h]
        exact process_key_other_keeps_mask ucs kbd s code mask code0 hmask h

set_option maxRecDepth 100000 in
/-- C21. A NORMAL modifier bit does not track whether some key with its mask is
held. After Left Shift press, Right Shift press, Right Shift release from
`mods = 0` the mask is 0 although the events of Left Shift end in a press (it
is still held), and a following `KEY_A` press gives lower-case `XK_a` with
`mods = 0`. In general, for every NORMAL modifier mask and every sequence of
events on any keys, the bits of the mask afterwards are decided by the last
press-or-release event among all keys carrying the mask alone: set after a
press, clear after a release, and as before when there is no such event. -/
theorem shared_mask_last_event_wins (KeysymToUcs4 : Nat → Nat) (ref : Nat) (kbd : kbd_dev)
    (code mask : Nat) (hmask : (code, mask) ∈ normal_modifier_keys)
    (keys : List (Nat × Nat)) :
    process_keys KeysymToUcs4
        [(1, KEY_LEFTSHIFT), (1, KEY_RIGHTSHIFT), (0, KEY_RIGHTSHIFT)] ⟨ref, 0⟩ =
      (⟨ref, 0⟩, []) ∧
    in_press_interval
        (([(1, KEY_LEFTSHIFT), (1, KEY_RIGHTSHIFT), (0, KEY_RIGHTSHIFT)].filter
          (fun p => p.2 = KEY_LEFTSHIFT)).map Prod.fst) = true ∧
    process_keys KeysymToUcs4
        [(1, KEY_LEFTSHIFT), (1, KEY_RIGHTSHIFT), (0, KEY_RIGHTSHIFT), (1, KEY_A)] ⟨ref, 0⟩ =
      (⟨ref, 0⟩, [⟨KEY_A, XK_a, unicode_of KeysymToUcs4 XK_a, 0⟩]) ∧
    (process_keys KeysymToUcs4 keys kbd).1.mods &&& mask =
      match last_press_or_release mask keys with
      | none => kbd.mods &&& mask
      | some s => if s = 1 then mask else 0 := by
  refine ⟨?_, by decide, ?_, process_keys_mask_bits KeysymToUcs4 mask code hmask keys kbd⟩
  · rw [process_keys_cons_no_event KeysymToUcs4 _ _ _ _ _
        (process_key_normal_full KeysymToUcs4 ref 0 1 KEY_LEFTSHIFT UTERM_SHIFT_MASK
          UTERM_SHIFT_MASK (by decide) (by decide)),
      process_keys_cons_no_event KeysymToUcs4 _ _ _ _ _
        (process_key_normal_full KeysymToUcs4 ref UTERM_SHIFT_MASK 1 KEY_RIGHTSHIFT
          UTERM_SHIFT_MASK UTERM_SHIFT_MASK (by decide) (by decide)),
      process_keys_cons_no_event KeysymToUcs4 _ _ _ _ _
        (process_key_normal_full KeysymToUcs4 ref UTERM_SHIFT_MASK 0 KEY_RIGHTSHIFT
          UTERM_SHIFT_MASK 0 (by decide) (by decide))]
    rfl
  · rw [process_keys_cons_no_event KeysymToUcs4 _ _ _ _ _
        (process_key_normal_full KeysymToUcs4 ref 0 1 KEY_LEFTSHIFT UTERM_SHIFT_MASK
          UTERM_SHIFT_MASK (by decide) (by decide)),
      process_keys_cons_no_event KeysymToUcs4 _ _ _ _ _
        (process_key_normal_full KeysymToUcs4 ref UTERM_SHIFT_MASK 1 KEY_RIGHTSHIFT
          UTERM_SHIFT_MASK UTERM_SHIFT_MASK (by decide) (by decide)),
      process_keys_cons_no_event KeysymToUcs4 _ _ _ _ _
        (process_key_normal_full KeysymToUcs4 ref UTERM_SHIFT_MASK 0 KEY_RIGHTSHIFT
          UTERM_SHIFT_MASK 0 (by decide) (by decide)),
      process_keys_cons_event KeysymToUcs4 _ _ _ _ _ _
        (process_key_press KeysymToUcs4 ref 0 1 KEY_A XK_a (by decide) (by decide)
          (by decide) (by decide) (by decide))]
    rfl

set_option maxRecDepth 100000 in
/-- Witness for C21: Left Control pressed, `KEY_A` pressed, Right Control
pressed and released, starting with `LOCK` set: `CONTROL` is clear at the end. -/
theorem shared_mask_last_event_wins_witness :
    (process_keys id
        [(1, KEY_LEFTCTRL), (1, KEY_A), (1, KEY_RIGHTCTRL), (0, KEY_RIGHTCTRL)]
        ⟨1, UTERM_LOCK_MASK⟩).1.mods &&& UTERM_CONTROL_MASK = 0 := by
  rw [(shared_mask_last_event_wins id 1 ⟨1, UTERM_LOCK_MASK⟩ KEY_LEFTCTRL UTERM_CONTROL_MASK
    (by decide) _).2.2.2]
  decide

/-! ## Theorems: table priority -/

set_option maxRecDepth 100000 in
theorem tables_no_conflict_in_range :
    ∀ code, code < KEYTAB_SIZE →
      (keytab_capslock.getD code 0 ≠ 0 →
        keytab_shift.getD code 0 = keytab_capslock.getD code 0) ∧
      (keytab_numlock.getD code 0 ≠ 0 →
        keytab_shift.getD code 0 = 0 ∧ keytab_capslock.getD code 0 = 0) := by
  decide

theorem tables_no_conflict (code : Nat) :
    (keytab_capslock.getD code 0 ≠ 0 →
      keytab_shift.getD code 0 = keytab_capslock.getD code 0) ∧
    (keytab_numlock.getD code 0 ≠ 0 →
      keytab_shift.getD code 0 = 0 ∧ keytab_capslock.getD code 0 = 0) := by
  by_cases hc : code < KEYTAB_SIZE
  · exact tables_no_conflict_in_range code hc
  · have hn : keytab_numlock.getD code 0 = 0 :=
      List.getD_eq_default _ _ (by rw [keytab_numlock, C_array_length]; omega)
    have hl : keytab_capslock.getD code 0 = 0 :=
      List.getD_eq_default _ _ (by rw [keytab_capslock, C_array_length]; omega)
    exact ⟨fun h => absurd hl h, fun h => absurd hn h⟩

theorem priority_orders (order : List modifier_table)
    (h : order.Perm [modifier_table.numlock, modifier_table.shift, modifier_table.capslock]) :
    order ∈
      [[modifier_table.numlock, modifier_table.shift, modifier_table.capslock],
       [modifier_table.numlock, modifier_table.capslock, modifier_table.shift],
       [modifier_table.shift, modifier_table.numlock, modifier_table.capslock],
       [modifier_table.shift, modifier_table.capslock, modifier_table.numlock],
       [modifier_table.capslock, modifier_table.numlock, modifier_table.shift],
       [modifier_table.capslock, modifier_table.shift, modifier_table.numlock]] := by
  have hlen := h.length_eq
  have c1 := h.count_eq modifier_table.numlock
  have c2 := h.count_eq modifier_table.shift
  have c3 := h.count_eq modifier_table.capslock
  rcases order with _ | ⟨x, _ | ⟨y, _ | ⟨z, _ | ⟨w, t⟩⟩⟩⟩
  · simp at hlen
  · simp at hlen
  · simp at hlen
  · clear h hlen
    cases x <;> cases y <;> cases z <;> (revert c1 c2 c3; decide)
  · simp at hlen

set_option maxHeartbeats 1600000 in
theorem first_nonzero_any_order (a b c n : Nat) (p2 ps pl : Prop) [Decidable p2]
    [Decidable ps] [Decidable pl] (cand : modifier_table → List Nat)
    (hn : cand modifier_table.numlock = if p2 then [a] else [])
    (hs : cand modifier_table.shift = if ps then [b] else [])
    (hl : cand modifier_table.capslock = if pl then [c] else [])
    (h1 : c ≠ 0 → b = c) (h2 : a ≠ 0 → b = 0 ∧ c = 0) (order : List modifier_table)
    (ho : order ∈
      [[modifier_table.numlock, modifier_table.shift, modifier_table.capslock],
       [modifier_table.numlock, modifier_table.capslock, modifier_table.shift],
       [modifier_table.shift, modifier_table.numlock, modifier_table.capslock],
       [modifier_table.shift, modifier_table.capslock, modifier_table.numlock],
       [modifier_table.capslock, modifier_table.numlock, modifier_table.shift],
       [modifier_table.capslock, modifier_table.shift, modifier_table.numlock]]) :
    ((order.flatMap cand ++ [n]).find? (fun k => k != 0)).getD 0 =
      (((if p2 then [a] else []) ++ (if ps then [b] else []) ++ (if pl then [c] else []) ++
        [n]).find? (fun k => k != 0)).getD 0 := by
  simp only [List.mem_cons, List.mem_singleton, List.not_mem_nil, or_false] at ho
  rcases Nat.eq_zero_or_pos a with rfl | ha
  · rcases Nat.eq_zero_or_pos c with rfl | hc
    · rcases Nat.eq_zero_or_pos b with rfl | hb
      · rcases ho with rfl | rfl | rfl | rfl | rfl | rfl <;>
        by_cases m2 : p2 <;> by_cases ms : ps <;> by_cases ml : pl <;>
        simp [List.flatMap_cons, hn, hs, hl, m2, ms, ml, List.find?_cons]
      · have hb0 : b ≠ 0 := hb.ne'
        rcases ho with rfl | rfl | rfl | rfl | rfl | rfl <;>
        by_cases m2 : p2 <;> by_cases ms : ps <;> by_cases ml : pl <;>
        simp [List.flatMap_cons, hn, hs, hl, m2, ms, ml, List.find?_cons, hb0]
    · have hc0 : c ≠ 0 := hc.ne'
      have hbc : b = c := h1 hc0
      subst hbc
      rcases ho with rfl | rfl | rfl | rfl | rfl | rfl <;>
      by_cases m2 : p2 <;> by_cases ms : ps <;> by_cases ml : pl <;>
      simp [List.flatMap_cons, hn, hs, hl, m2, ms, ml, List.find?_cons, hc0]
  · have ha0 : a ≠ 0 := ha.ne'
    obtain ⟨rfl, rfl⟩ := h2 ha0
    rcases ho with rfl | rfl | rfl | rfl | rfl | rfl <;>
    by_cases m2 : p2 <;> by_cases ms : ps <;> by_cases ml : pl <;>
    simp [List.flatMap_cons, hn, hs, hl, m2, ms, ml, List.find?_cons, ha0]

theorem lookup_order_irrelevant (order : List modifier_table) (mods code : Nat)
    (h : order.Perm [modifier_table.numlock, modifier_table.shift, modifier_table.capslock]) :
    lookup_in_order order mods code = layered_lookup mods code := by
  obtain ⟨h1, h2⟩ := tables_no_conflict code
  exact first_nonzero_any_order _ _ _ _ _ _ _ (table_candidate mods code) rfl rfl rfl h1 h2
    order (priority_orders order h)

set_option maxRecDepth 100000 in
theorem letter_tables_spec :
    ∀ p ∈ letter_keys,
      keytab_numlock.getD p.1 0 = 0 ∧ keytab_shift.getD p.1 0 = p.2 := by
  decide

theorem layered_lookup_letter_shift (mods : Nat) (p : Nat × Nat) (hp : p ∈ letter_keys)
    (hs : mods &&& UTERM_SHIFT_MASK ≠ 0) : layered_lookup mods p.1 = p.2 := by
  obtain ⟨hn, hsh⟩ := letter_tables_spec p hp
  obtain ⟨-, -, -, h0⟩ := letter_keys_spec p hp
  unfold layered_lookup
  rw [hn, hsh]
  by_cases m2 : mods &&& UTERM_MOD2_MASK = 0 <;>
    simp [m2, hs, List.find?_cons, h0]

/-- C22. The three modifier tables never conflict: for every keycode, a
non-zero `keytab_capslock` entry equals the `keytab_shift` entry, and where
`keytab_numlock` is non-zero both `keytab_shift` and `keytab_capslock` are zero.
So for every state, every in-range non-modifier keycode and every key state
other than 0, the result of `kbd_dev_process_key` is the one of the layered
lookup with the numlock, shift and capslock tables consulted in any order; and
with `SHIFT` and `LOCK` both set every letter key gives its upper-case keysym. -/
theorem modifier_tables_never_conflict (KeysymToUcs4 : Nat → Nat) (kbd : kbd_dev) :
    (∀ code, keytab_capslock.getD code 0 ≠ 0 →
      keytab_shift.getD code 0 = keytab_capslock.getD code 0) ∧
    (∀ code, keytab_numlock.getD code 0 ≠ 0 →
      keytab_shift.getD code 0 = 0 ∧ keytab_capslock.getD code 0 = 0) ∧
    (∀ (order : List modifier_table) (s code : Nat),
      order.Perm [modifier_table.numlock, modifier_table.shift, modifier_table.capslock] →
      code < KEYTAB_SIZE → (modmap_at code).mod = 0 → s ≠ 0 →
      kbd_dev_process_key KeysymToUcs4 kbd s code =
        if lookup_in_order order kbd.mods code = 0 then
          { ret := -ENOKEY, kbd := kbd, out := none }
        else
          { ret := 0, kbd := kbd,
            out := some ⟨code, lookup_in_order order kbd.mods code,
              unicode_of KeysymToUcs4 (lookup_in_order order kbd.mods code), kbd.mods⟩ }) ∧
    (∀ p ∈ letter_keys, kbd.mods &&& UTERM_SHIFT_MASK ≠ 0 → kbd.mods &&& UTERM_LOCK_MASK ≠ 0 →
      kbd_dev_process_key KeysymToUcs4 kbd 1 p.1 =
        { ret := 0, kbd := kbd,
          out := some ⟨p.1, p.2, unicode_of KeysymToUcs4 p.2, kbd.mods⟩ }) := by
  refine ⟨fun code => (tables_no_conflict code).1, fun code => (tables_no_conflict code).2,
    ?_, ?_⟩
  · intro order s code hperm hc hm hs
    rw [lookup_order_irrelevant order kbd.mods code hperm]
    exact process_key_lookup KeysymToUcs4 kbd s code hc hm hs
  · intro p hp hs _
    obtain ⟨hc, hm, -, h0⟩ := letter_keys_spec p hp
    exact process_key_press KeysymToUcs4 kbd.ref kbd.mods 1 p.1 p.2 hc hm (by decide)
      (layered_lookup_letter_shift kbd.mods p hp hs) h0

set_option maxRecDepth 100000 in
/-- Witness for C22: `KEY_A` pressed with `SHIFT` and `LOCK` set, the tables
consulted in the order capslock, shift, numlock. -/
theorem modifier_tables_never_conflict_witness :
    kbd_dev_process_key id ⟨1, UTERM_SHIFT_MASK ||| UTERM_LOCK_MASK⟩ 1 KEY_A =
      if lookup_in_order
          [modifier_table.capslock, modifier_table.shift, modifier_table.numlock]
          (UTERM_SHIFT_MASK ||| UTERM_LOCK_MASK) KEY_A = 0 then
        { ret := -ENOKEY, kbd := ⟨1, UTERM_SHIFT_MASK ||| UTERM_LOCK_MASK⟩, out := none }
      else
        { ret := 0, kbd := ⟨1, UTERM_SHIFT_MASK ||| UTERM_LOCK_MASK⟩,
          out := some ⟨KEY_A,
            lookup_in_order
              [modifier_table.capslock, modifier_table.shift, modifier_table.numlock]
              (UTERM_SHIFT_MASK ||| UTERM_LOCK_MASK) KEY_A,
            unicode_of id (lookup_in_order
              [modifier_table.capslock, modifier_table.shift, modifier_table.numlock]
              (UTERM_SHIFT_MASK ||| UTERM_LOCK_MASK) KEY_A),
            UTERM_SHIFT_MASK ||| UTERM_LOCK_MASK⟩ } :=
  (modifier_tables_never_conflict id ⟨1, UTERM_SHIFT_MASK ||| UTERM_LOCK_MASK⟩).2.2.1
    [modifier_table.capslock, modifier_table.shift, modifier_table.numlock] 1 KEY_A
    (by decide) (by decide) (by decide) (by decide)

/-! ## Theorems: duplicate nodes and table reads -/

/-- An `add_device` that is accepted links the new device at the head of the
list. -/
theorem add_device_accepted (conf_seat : String) (input : kmscon_input)
    (udev_dev : udev_device) (env : add_env) (node : String)
    (hnode : udev_dev.devnode = some node)
    (hseat : udev_dev.ID_SEAT = some conf_seat ∨
      (udev_dev.ID_SEAT = none ∧ conf_seat = "seat0"))
    (hkeys : (probe_device_features node env.probe).1 &&& FEATURE_HAS_KEYS ≠ 0)
    (halloc : env.alloc_ret = 0)
    (hwake : input.state = input_state.INPUT_AWAKE →
      (kmscon_input_device_wake_up input.eloop (fresh_device node env) env.wake).ret = 0) :
    (add_device conf_seat input udev_dev env).1 =
      { input with devices := linked_device input node env :: input.devices } := by
  have hseat' : (match udev_dev.ID_SEAT with
      | none => "seat0"
      | some seat => seat) = conf_seat := by
    rcases hseat with h | ⟨h, h0⟩
    · rw [h]
    · rw [h, h0]
  unfold add_device
  simp only [hnode, hseat', ne_eq, not_true_eq_false, if_false, kmscon_input_device_new,
    halloc]
  rw [if_neg hkeys]
  by_cases hst : input.state = input_state.INPUT_AWAKE
  · have hw := hwake hst
    simp only [fresh_device] at hw
    simp [hst, hw, linked_device, fresh_device]
  · simp [hst, linked_device, fresh_device]

theorem linked_device_devnode (input : kmscon_input) (node : String) (env : add_env) :
    (linked_device input node env).devnode = node := by
  unfold linked_device
  by_cases hst : input.state = input_state.INPUT_AWAKE
  · rw [if_pos hst, (woken_devnode _ _ _).1]
    rfl
  · rw [if_neg hst]
    rfl

theorem remove_device_loop_eq (node : String) :
    ∀ (iter before : List kmscon_input_device),
      (remove_device_loop node before iter).1 =
        before ++ iter.eraseP (fun d => decide (d.devnode = node)) := by
  intro iter
  induction iter with
  | nil => intro before; simp [remove_device_loop]
  | cons x next ih =>
    intro before
    unfold remove_device_loop
    by_cases hx : x.devnode = node
    · simp [hx, List.eraseP_cons]
    · simp [hx, List.eraseP_cons, ih]

theorem remove_device_devices (input : kmscon_input) (node : String) :
    (remove_device input node).1.devices =
      input.devices.eraseP (fun d => decide (d.devnode = node)) := by
  unfold remove_device
  by_cases he : input.devices = []
  · rw [if_pos he, he]
    rfl
  · rw [if_neg he]
    simp only [remove_device_loop_eq, List.nil_append]

theorem remove_device_loop_no_match (node : String) :
    ∀ (iter before : List kmscon_input_device),
      (∀ d ∈ iter, d.devnode ≠ node) →
      remove_device_loop node before iter = (before ++ iter, []) := by
  intro iter
  induction iter with
  | nil => intro before _; simp [remove_device_loop]
  | cons x next ih =>
    intro before h
    unfold remove_device_loop
    rw [if_neg (h x (List.mem_cons_self _ _)),
      ih (before ++ [x]) (fun d hd => h d (List.mem_cons_of_mem _ hd))]
    simp

theorem length_le_eraseP_add_one {α : Type} (p : α → Bool) :
    ∀ l : List α, l.length ≤ (l.eraseP p).length + 1 := by
  intro l
  induction l with
  | nil => simp
  | cons a t ih =>
    rw [List.eraseP_cons]
    cases p a
    · simp only [cond_false, List.length_cons]
      omega
    · simp only [cond_true, List.length_cons]
      omega

/-- C23. `add_device` does not de-duplicate by node path and `remove_device`
removes at most one entry. Every accepted add links one new device for the node
at the head of the list, whatever the list holds, so two accepted adds for the
same node leave two entries with that path; `remove_device` returns the list
without its first entry of that path, every other entry in place and in order,
so after the two adds one remove leaves the older entry with the path in the
list; with no matching entry the manager is unchanged and no call is made. A
reachable manager shows it: a second "add" for the keyboard of the woken
manager gives two entries, and one remove leaves one entry with that path. -/
theorem add_keeps_duplicates_remove_takes_first (conf_seat : String) (input : kmscon_input)
    (udev_dev : udev_device) (env1 env2 : add_env) (node : String)
    (hnode : udev_dev.devnode = some node)
    (hseat : udev_dev.ID_SEAT = some conf_seat ∨
      (udev_dev.ID_SEAT = none ∧ conf_seat = "seat0"))
    (hkeys1 : (probe_device_features node env1.probe).1 &&& FEATURE_HAS_KEYS ≠ 0)
    (hkeys2 : (probe_device_features node env2.probe).1 &&& FEATURE_HAS_KEYS ≠ 0)
    (halloc1 : env1.alloc_ret = 0) (halloc2 : env2.alloc_ret = 0)
    (hwake1 : input.state = input_state.INPUT_AWAKE →
      (kmscon_input_device_wake_up input.eloop (fresh_device node env1) env1.wake).ret = 0)
    (hwake2 : input.state = input_state.INPUT_AWAKE →
      (kmscon_input_device_wake_up input.eloop (fresh_device node env2) env2.wake).ret = 0) :
    (add_device conf_seat input udev_dev env1).1.devices =
      linked_device input node env1 :: input.devices ∧
    (add_device conf_seat (add_device conf_seat input udev_dev env1).1 udev_dev env2).1.devices =
      linked_device input node env2 :: linked_device input node env1 :: input.devices ∧
    (linked_device input node env1).devnode = node ∧
    (linked_device input node env2).devnode = node ∧
    (remove_device
        (add_device conf_seat (add_device conf_seat input udev_dev env1).1 udev_dev env2).1
        node).1.devices =
      linked_device input node env1 :: input.devices ∧
    (∀ (inp : kmscon_input) (nd : String),
      (remove_device inp nd).1.devices =
        inp.devices.eraseP (fun d => decide (d.devnode = nd))) ∧
    (∀ (inp : kmscon_input) (nd : String),
      inp.devices.length ≤ (remove_device inp nd).1.devices.length + 1) ∧
    (∀ (inp : kmscon_input) (nd : String), (∀ d ∈ inp.devices, d.devnode ≠ nd) →
      remove_device inp nd = (inp, [])) ∧
    reachable "seat0" duplicate_manager ∧
    duplicate_manager.devices.map kmscon_input_device.devnode =
      ["/dev/input/event0", "/dev/input/event0"] ∧
    (remove_device duplicate_manager "/dev/input/event0").1.devices.map
      kmscon_input_device.devnode = ["/dev/input/event0"] := by
  have h1 := add_device_accepted conf_seat input udev_dev env1 node hnode hseat hkeys1
    halloc1 hwake1
  have h2 := add_device_accepted conf_seat
    { input with devices := linked_device input node env1 :: input.devices } udev_dev env2
    node hnode hseat hkeys2 halloc2 hwake2
  have hd1 := linked_device_devnode input node env1
  have hd2 := linked_device_devnode input node env2
  refine ⟨?_, ?_, hd1, hd2, ?_, remove_device_devices, ?_, ?_, ?_, by decide, by decide⟩
  · rw [h1]
  · rw [h1, h2]
    rfl
  · rw [h1, h2, remove_device_devices]
    have hd2' : (linked_device
        { input with devices := linked_device input node env1 :: input.devices } node
        env2).devnode = node := linked_device_devnode _ node env2
    simp only [List.eraseP_cons, hd2', decide_True, cond_true]
  · intro inp nd
    rw [remove_device_devices]
    exact length_le_eraseP_add_one _ inp.devices
  · intro inp nd hno
    unfold remove_device
    by_cases he : inp.devices = []
    · rw [if_pos he]
    · rw [if_neg he]
      simp only [remove_device_loop_no_match nd inp.devices [] hno, List.nil_append]
  · exact reachable.add _ _ _
      (reachable.wake_up _ _ (reachable.connect _ _ _ reachable.new))

/-- Witness for C23: two "add" notifications for the node of the keyboard that
the woken manager already holds, then one remove. -/
theorem add_keeps_duplicates_remove_takes_first_witness :
    (remove_device
        (add_device "seat0"
          (add_device "seat0" woken_manager (udev_keyboard "/dev/input/event0")
            (add_env_keyboard 6 10)).1
          (udev_keyboard "/dev/input/event0") (add_env_keyboard 7 11)).1
        "/dev/input/event0").1.devices =
      linked_device woken_manager "/dev/input/event0" (add_env_keyboard 6 10) ::
        woken_manager.devices :=
  (add_keeps_duplicates_remove_takes_first "seat0" woken_manager
    (udev_keyboard "/dev/input/event0") (add_env_keyboard 6 10) (add_env_keyboard 7 11)
    "/dev/input/event0" rfl (Or.inl rfl) (by decide) (by decide) rfl rfl
    (fun _ => by decide) (fun _ => by decide)).2.2.2.2.1

/-- Each of the five tables has `KEYTAB_SIZE` elements. -/
theorem table_lengths :
    ∀ t : keymap_table, table_length t = KEYTAB_SIZE := by
  intro t
  cases t
  · exact keytab_normal_length
  · simp only [table_length, keytab_numlock, C_array_length]
  · simp only [table_length, keytab_shift, C_array_length]
  · simp only [table_length, keytab_capslock, C_array_length]
  · exact modmap_length

/-- Recording the subscripts does not change what the function returns. -/
theorem traced_result (ucs : Nat → Nat) (kbd : kbd_dev) (s code : Nat) :
    (kbd_dev_process_key_traced ucs kbd s code).1 = kbd_dev_process_key ucs kbd s code := by
  unfold kbd_dev_process_key_traced kbd_dev_process_key modmap_at
  by_cases hc : code ≥ KEYTAB_SIZE
  · rw [if_pos hc, if_pos hc]
  · rw [if_neg hc, if_neg hc]
    by_cases hm : (Kmscon.modmap.getD code ⟨0, 0⟩).mod ≠ 0
    · simp only [if_pos hm]
    · simp only [if_neg hm]
      by_cases hs : s = 0
      · simp only [if_pos hs]
      · simp only [if_neg hs]
        split_ifs <;> rfl

/-- A conditional read at index `code` keeps every recorded index equal to `code`. -/
theorem reads_ite (code : Nat) (c : Prop) [Decidable c] (t : keymap_table)
    (l : List (keymap_table × Nat)) (h : ∀ r ∈ l, r.2 = code) :
    ∀ r ∈ (if c then l ++ [(t, code)] else l), r.2 = code := by
  intro r hr
  by_cases hc : c
  · rw [if_pos hc] at hr
    rcases List.mem_append.1 hr with h1 | h1
    · exact h r h1
    · rw [List.mem_singleton.1 h1]
  · rw [if_neg hc] at hr
    exact h r hr

/-- Both branches of the final test carry the same list of reads. -/
theorem ite_pair_snd {α β : Type} (c : Prop) [Decidable c] (x y : α) (l : β) :
    (if c then (x, l) else (y, l)).2 = l := by
  split_ifs <;> rfl

/-- Every recorded subscript is `code`, and `code` has passed the range check. -/
theorem traced_reads (ucs : Nat → Nat) (kbd : kbd_dev) (s code : Nat) :
    ∀ r ∈ (kbd_dev_process_key_traced ucs kbd s code).2, r.2 = code ∧ code < KEYTAB_SIZE := by
  unfold kbd_dev_process_key_traced
  by_cases hc : code ≥ KEYTAB_SIZE
  · rw [if_pos hc]
    intro r hr
    simp at hr
  · rw [if_neg hc]
    have hlt : code < KEYTAB_SIZE := by omega
    intro r hr
    refine ⟨?_, hlt⟩
    revert r
    have hbase : ∀ r ∈ [(keymap_table.modmap, code)], r.2 = code := by
      intro r hr
      rw [List.mem_singleton.1 hr]
    by_cases hm : (Kmscon.modmap.getD code ⟨0, 0⟩).mod ≠ 0
    · simp only [if_pos hm]
      intro r hr
      simp only [List.cons_append, List.nil_append, List.mem_cons, List.mem_singleton,
        List.not_mem_nil, or_false, or_self] at hr
      rw [hr]
    · simp only [if_neg hm]
      by_cases hs : s = 0
      · simp only [if_pos hs]
        exact hbase
      · simp only [if_neg hs, ite_pair_snd]
        exact reads_ite code _ _ _ (reads_ite code _ _ _ (reads_ite code _ _ _
          (reads_ite code _ _ _ hbase)))

/-- C24. Table indexing in `kbd_dev_process_key` is always in bounds: the five
tables `keytab_normal`, `keytab_numlock`, `keytab_shift`, `keytab_capslock` and
`modmap` have exactly `KEYTAB_SIZE` entries each, and for every code and every
key state the function with its subscripts recorded returns what
`kbd_dev_process_key` returns, every subscript it evaluates is the index `code`
with `code < KEYTAB_SIZE`, below the length of the table read, and a code that
fails the check `code < KEYTAB_SIZE` reads no table at all. -/
theorem table_reads_in_bounds (KeysymToUcs4 : Nat → Nat) (kbd : kbd_dev)
    (key_state code : Nat) :
    keytab_normal.length = KEYTAB_SIZE ∧
    keytab_numlock.length = KEYTAB_SIZE ∧
    keytab_shift.length = KEYTAB_SIZE ∧
    keytab_capslock.length = KEYTAB_SIZE ∧
    Kmscon.modmap.length = KEYTAB_SIZE ∧
    (kbd_dev_process_key_traced KeysymToUcs4 kbd key_state code).1 =
      kbd_dev_process_key KeysymToUcs4 kbd key_state code ∧
    (∀ r ∈ (kbd_dev_process_key_traced KeysymToUcs4 kbd key_state code).2,
      r.2 = code ∧ code < KEYTAB_SIZE ∧ r.2 < table_length r.1) ∧
    (KEYTAB_SIZE ≤ code →
      (kbd_dev_process_key_traced KeysymToUcs4 kbd key_state code).2 = []) := by
  refine ⟨table_lengths keymap_table.normal, table_lengths keymap_table.numlock,
    table_lengths keymap_table.shift, table_lengths keymap_table.capslock,
    table_lengths keymap_table.modmap, traced_result KeysymToUcs4 kbd key_state code, ?_, ?_⟩
  · intro r hr
    obtain ⟨h1, h2⟩ := traced_reads KeysymToUcs4 kbd key_state code r hr
    refine ⟨h1, h2, ?_⟩
    rw [table_lengths r.1, h1]
    exact h2
  · intro hc
    unfold kbd_dev_process_key_traced
    rw [if_pos hc]

set_option maxRecDepth 100000 in
/-- Witness for C24: a press of `KEY_A` with Shift held reads `modmap` and then,
in this order, `keytab_shift`, both at index `KEY_A`; the code `KEYTAB_SIZE`
reads nothing. -/
theorem table_reads_in_bounds_witness :
    (kbd_dev_process_key_traced (fun _ => 0) ⟨1, UTERM_SHIFT_MASK⟩ 1 KEY_A).2 =
      [(keymap_table.modmap, KEY_A), (keymap_table.shift, KEY_A)] ∧
    (∀ r ∈ (kbd_dev_process_key_traced (fun _ => 0) ⟨1, UTERM_SHIFT_MASK⟩ 1 KEY_A).2,
      r.2 = KEY_A ∧ KEY_A < KEYTAB_SIZE ∧ r.2 < table_length r.1) ∧
    (kbd_dev_process_key_traced (fun _ => 0) ⟨1, UTERM_SHIFT_MASK⟩ 1 KEYTAB_SIZE).2 = [] :=
  ⟨by decide,
    (table_reads_in_bounds (fun _ => 0) ⟨1, UTERM_SHIFT_MASK⟩ 1 KEY_A).2.2.2.2.2.2.1,
    (table_reads_in_bounds (fun _ => 0) ⟨1, UTERM_SHIFT_MASK⟩ 1 KEYTAB_SIZE).2.2.2.2.2.2.2
      (Nat.le_refl _)⟩

end Kmscon
